import Mathlib

/-!
# sslscan: a shallow embedding of `sslscan.c`

The scanner is sequential C code that talks to a TCP peer and to the OpenSSL
engine.  Every call that leaves the program (socket, bind, connect, recv, send,
close, the `SSL_*` calls, `printf`, `fprintf`) is modelled as an `Event`
appended to a trace, and every value that comes back from outside is read from
an explicit environment record.  The C functions become total Lean functions
from options and environment to a return value and a trace.

Bytes are natural numbers; a C buffer that was zeroed with `memset` and then
filled by a read is the list of bytes read, and reading past the end of that
list yields the zero byte.
-/

namespace SSLScan

/-! ## Constants -/

/-- The size of the receive buffer of `tcpConnect` (`#define BUFFERSIZE 1024`). -/
def BUFFERSIZE : Nat := 1024

/-- Terminal escape sequence that resets the colour. -/
def RESET : String := "\x1b[0m"
/-- Terminal escape sequence for red. -/
def COL_RED : String := "\x1b[31m"
/-- Terminal escape sequence for blue. -/
def COL_BLUE : String := "\x1b[34m"
/-- Terminal escape sequence for green. -/
def COL_GREEN : String := "\x1b[32m"

/-- Bitmask value `ssl_v2`. -/
def ssl_v2 : Nat := 0x01
/-- Bitmask value `ssl_v3`. -/
def ssl_v3 : Nat := 0x02
/-- Bitmask value `tls_v1`. -/
def tls_v1 : Nat := 0x04
/-- Bitmask value `tls_v1_1`. -/
def tls_v1_1 : Nat := 0x08
/-- Bitmask value `tls_v1_2`. -/
def tls_v1_2 : Nat := 0x10

/-! ## C strings -/

/-- The bytes of a C string literal (without the terminating zero). -/
def cstr (s : String) : List Nat := s.toList.map Char.toNat

/-- The text of a zero-terminated byte string, for `%s`. -/
def text (bs : List Nat) : String := String.mk (bs.map Char.ofNat)

/-- The C library `strncmp`: compares at most `n` bytes, stops after a zero
byte; a byte past the end of a list is the zero byte. -/
def strncmp : List Nat → List Nat → Nat → Int
  | _, _, 0 => 0
  | a, b, n + 1 =>
    if a.headD 0 ≠ b.headD 0 then (a.headD 0 : Int) - (b.headD 0 : Int)
    else if a.headD 0 = 0 then 0
    else strncmp a.tail b.tail n

/-- The zero-terminated string that starts at the head of a buffer. -/
def cstring (buf : List Nat) : List Nat := buf.takeWhile (fun b => b != 0)

/-! ## Data model -/

/-- The `SSL_METHOD` pointers the program compares against. -/
inductive SslMethod
  | SSLv2_client_method
  | SSLv3_client_method
  | TLSv1_client_method
  | TLSv1_1_client_method
  | TLSv1_2_client_method
  | SSLv23_method
  deriving DecidableEq, Repr

/-- One entry of the cipher catalog (`struct sslCipher`); the `next` pointer is
the tail of the list that holds the entries. -/
structure sslCipher where
  name : String
  version : String
  bits : Int
  description : String
  sslMethod : SslMethod
  deriving DecidableEq, Repr

/-- The program options (`struct sslCheckOptions`).  The integer flags only ever
hold `true` or `false`; a pointer that is only tested against zero is an
optional value, and `xmlOutput` records whether the XML file is open. -/
structure sslCheckOptions where
  host : String
  cafile : String
  port : Int
  noFailed : Bool
  esmtps : Bool
  ftps : Bool
  ftps_dcs : Bool
  pop3s : Bool
  imaps : Bool
  sslVersion : Nat
  pout : Bool
  sslbugs : Bool
  http : Bool
  sniEnable : Bool
  sniServername : String
  OCSPStatusRequest : Bool
  xmlOutput : Bool
  ciphers : List sslCipher
  clientCertsFile : Option String
  privateKeyFile : Option String
  privateKeyPassword : Option String
  deriving DecidableEq, Repr

/-- What the program does to the outside world, in program order. -/
inductive Event
  /-- Call `socket()`, which returned this descriptor. -/
  | socket (fd : Int)
  /-- Call `bind()` on the descriptor, with its status. -/
  | bind (fd : Int) (status : Int)
  /-- Call `connect()` on the descriptor, with its status. -/
  | connect (fd : Int) (status : Int)
  /-- Call `recv()` asking for at most `max` bytes; `data` is what arrived. -/
  | recv (fd : Int) (max : Nat) (data : List Nat)
  /-- Call `send()` with a string literal and the byte count passed. -/
  | send (fd : Int) (data : String) (len : Nat)
  /-- Call `close()` on the descriptor. -/
  | close (fd : Int)
  /-- Call `SSL_CTX_new`; `ok` tells whether a context came back. -/
  | ctxNew (m : SslMethod) (ok : Bool)
  /-- Call `SSL_CTX_set_options`; `bugs` tells whether `SSL_OP_ALL` was passed. -/
  | ctxSetOptions (bugs : Bool)
  /-- Call `SSL_CTX_free`. -/
  | ctxFree
  /-- Call `SSL_CTX_set_cipher_list` with the cipher string, and its result. -/
  | setCipherList (ciphers : String) (ret : Int)
  /-- Call `SSL_new`; `ok` tells whether an object came back. -/
  | sslNew (ok : Bool)
  /-- Call `BIO_new_socket` and `SSL_set_bio` on the descriptor. -/
  | setBio (fd : Int)
  /-- Call `SSL_set_tlsext_host_name` with the server name, and its success. -/
  | setTlsextHostName (name : String) (ok : Bool)
  /-- Call `SSL_set_tlsext_status_type` for OCSP, and its success. -/
  | setTlsextStatusType (ok : Bool)
  /-- Call `SSL_connect`, with its result. -/
  | sslConnect (ret : Int)
  /-- Call `SSL_write` with the data and the byte count passed. -/
  | sslWrite (data : String) (len : Nat)
  /-- Call `SSL_read` asking for at most `max` bytes; `data` is what arrived. -/
  | sslRead (max : Nat) (data : List Nat)
  /-- Call `SSL_shutdown`. -/
  | sslShutdown
  /-- Call `SSL_free`. -/
  | sslFree
  /-- Call `gethostbyname` on the host; `ok` tells whether an entry came back. -/
  | resolve (host : String) (ok : Bool)
  /-- Call `SSL_CTX_load_verify_locations` with the CA file, and its success. -/
  | loadVerifyLocations (cafile : String) (ok : Bool)
  /-- Write to the XML file with `fprintf(options->xmlOutput, ...)`. -/
  | xml (s : String)
  /-- Write a report line or field to standard output with `printf`. -/
  | out (s : String)
  /-- Write a red `ERROR` diagnostic to standard output with `printf`. -/
  | err (s : String)
  deriving DecidableEq, Repr

/-- What the operating system and the peer answer during one `tcpConnect`. -/
structure ConnEnv where
  /-- The result of `socket()`. -/
  socketFd : Int
  /-- The result of `bind()`. -/
  bindStatus : Int
  /-- The result of `connect()`. -/
  connectStatus : Int
  /-- The bytes the peer delivers to the first, second, ... call of `recv`;
  a missing entry is a read that delivers nothing. -/
  reads : List (List Nat)
  deriving DecidableEq, Repr

/-- The bytes the peer delivers to the `k`-th call of `recv` (counting from 0). -/
def ConnEnv.reply (e : ConnEnv) (k : Nat) : List Nat := e.reads.getD k []

/-- The bytes one `recv(fd, buffer, BUFFERSIZE - 1, 0)` leaves in the zeroed
buffer when the peer delivers its `k`-th reply. -/
def ConnEnv.recvData (e : ConnEnv) (k : Nat) : List Nat :=
  (e.reply k).take (BUFFERSIZE - 1)

/-! ## tcpConnect -/

/-- The diagnostic `tcpConnect` prints with the host and the port. -/
def hostPortError (o : sslCheckOptions) (before mid after : String) : Event :=
  Event.err (COL_RED ++ before ++ o.host ++ mid ++ toString o.port ++ after ++ RESET ++ "\n")

/-- One two-step upgrade exchange of `tcpConnect` (FTP, POP3, IMAP): read the
greeting and compare its first `n1` bytes with `greet`, send `cmd` with byte
count `len`, read the answer and compare its first `n2` bytes with `ack`. -/
def upgrade2 (e : ConnEnv) (pre : List Event)
    (greet : String) (n1 : Nat) (msg1 : Event) (echo : Bool)
    (cmd : String) (len : Nat) (ack : String) (n2 : Nat) (msg2 : Event) :
    Int × List Event :=
  let fd := e.socketFd
  let t1 := pre ++ [Event.recv fd (BUFFERSIZE - 1) (e.recvData 0)]
    ++ (if echo then [Event.out (text (cstring (e.recvData 0)))] else [])
  if strncmp (e.recvData 0) (cstr greet) n1 ≠ 0 then
    (0, t1 ++ [Event.close fd, msg1])
  else
    let t2 := t1 ++ [Event.send fd cmd len, Event.recv fd (BUFFERSIZE - 1) (e.recvData 1)]
    if strncmp (e.recvData 1) (cstr ack) n2 ≠ 0 then
      (0, t2 ++ [Event.close fd, msg2])
    else
      (fd, t2)

/-- The function `tcpConnect`: returns the socket descriptor, or 0 on failure,
together with the trace of what it did. -/
def tcpConnect (o : sslCheckOptions) (e : ConnEnv) : Int × List Event :=
  let fd := e.socketFd
  -- Create Socket
  if fd < 0 then
    (0, [Event.socket fd,
         Event.err (COL_RED ++ "    ERROR: Could not open a socket." ++ RESET ++ "\n")])
  -- Configure Local Port
  else if e.bindStatus < 0 then
    (0, [Event.socket fd, Event.bind fd e.bindStatus,
         Event.err (COL_RED ++ "    ERROR: Could not bind to port." ++ RESET ++ "\n")])
  -- Connect
  else if e.connectStatus < 0 then
    (0, [Event.socket fd, Event.bind fd e.bindStatus, Event.connect fd e.connectStatus,
         hostPortError o "    ERROR: Could not open a connection to host " " on port " "."])
  else
    let pre := [Event.socket fd, Event.bind fd e.bindStatus, Event.connect fd e.connectStatus]
    -- If SMTP STARTTLS is required...
    if o.esmtps = true then
      let t1 := pre ++ [Event.recv fd (BUFFERSIZE - 1) (e.recvData 0)]
      if strncmp (e.recvData 0) (cstr "220") 3 ≠ 0 then
        (0, t1 ++ [Event.close fd,
          hostPortError o "    ERROR: The host " " on port " " did not appear to be an SMTP service."])
      else
        let t2 := t1 ++ [Event.send fd "EHLO titania.co.uk\r\n" 20,
                         Event.recv fd (BUFFERSIZE - 1) (e.recvData 1)]
        if strncmp (e.recvData 1) (cstr "250") 3 ≠ 0 then
          (0, t2 ++ [Event.close fd,
            hostPortError o "    ERROR: The SMTP service on " " port "
              " did not respond with status 250 to our HELO."])
        else
          let t3 := t2 ++ [Event.send fd "STARTTLS\r\n" 10,
                           Event.recv fd (BUFFERSIZE - 1) (e.recvData 2)]
          if strncmp (e.recvData 2) (cstr "220") 3 ≠ 0 then
            (0, t3 ++ [Event.close fd,
              hostPortError o "    ERROR: The SMTP service on " " port "
                " did not appear to support STARTTLS."])
          else
            (fd, t3)
    -- IF FTPS we go for ftp over ssl
    else if o.ftps = true then
      upgrade2 e pre "220" 3
        (hostPortError o "    ERROR: The host " " on port " " did not appear to be an FTP service.")
        false "AUTH TLS\r\n" 20 "234" 3
        (hostPortError o "    ERROR: The FTP service on " " port "
          " did not respond with status 234 to our AUTH TLS.")
    -- IF POP3S STLS
    else if o.pop3s = true then
      upgrade2 e pre "+OK" 3
        (hostPortError o "    ERROR: The host " " on port " " did not appear to be an POP3 service.")
        false "STLS\r\n" 20 "+OK" 3
        (hostPortError o "    ERROR: The POP3 service on " " port "
          " did not respond with status +OK to our STLS.")
    -- IF IMAPS SARTTLS
    else if o.imaps = true then
      upgrade2 e pre "* OK" 4
        (hostPortError o "    ERROR: The host " " on port " " did not appear to be an IMAP service.")
        false "AA STARTTLS\r\n" 20 "AA" 2
        (hostPortError o "    ERROR: The IMAP service on " " port "
          " did not respond with our token to our SARTTLS.")
    -- IF FTPS we go for ftp over ssl (second copy)
    else if o.ftps = true then
      upgrade2 e pre "220" 3
        (hostPortError o "    ERROR: The host " " on port " " did not appear to be an FTP service.")
        false "AUTH TLS\r\n" 20 "234" 3
        (hostPortError o "    ERROR: The FTP service on " " port "
          " did not respond with status 234 to our AUTH TLS.")
    -- IF POP3S STLS (second copy, which also echoes the greeting)
    else if o.pop3s = true then
      upgrade2 e pre "+OK" 3
        (hostPortError o "    ERROR: The host " " on port " " did not appear to be an POP3 service.")
        true "STLS\r\n" 20 "+OK" 3
        (hostPortError o "    ERROR: The POP3 service on " " port "
          " did not respond with status +OK to our STLS.")
    -- IF IMAPS SARTTLS (second copy)
    else if o.imaps = true then
      upgrade2 e pre "* OK" 4
        (hostPortError o "    ERROR: The host " " on port " " did not appear to be an IMAP service.")
        false "AA STARTTLS\r\n" 20 "AA" 2
        (hostPortError o "    ERROR: The IMAP service on " " port "
          " did not respond with our token to our SARTTLS.")
    else
      (fd, pre)

/-- The commands a trace sends on the plaintext connection, in order. -/
def sends : List Event → List (String × Nat)
  | [] => []
  | Event.send _ d n :: t => (d, n) :: sends t
  | _ :: t => sends t

/-- The number of `recv` calls in a trace. -/
def recvCount : List Event → Nat
  | [] => 0
  | Event.recv _ _ _ :: t => recvCount t + 1
  | _ :: t => recvCount t

/-- The descriptors a trace closes, in order. -/
def closes : List Event → List Int
  | [] => []
  | Event.close fd :: t => fd :: closes t
  | _ :: t => closes t

/-- The descriptors a trace opens with `socket()`, in order; a negative result
of `socket()` is not a descriptor. -/
def opens : List Event → List Int
  | [] => []
  | Event.socket fd :: t => if fd < 0 then opens t else fd :: opens t
  | _ :: t => opens t

/-- The options as `main` initialises them before it reads the command line,
with the given host. -/
def initOptions (host : String) : sslCheckOptions :=
  { host := host, cafile := "/etc/ssl/certs/ca-certificates.crt", port := 443,
    noFailed := false, esmtps := false, ftps := false, ftps_dcs := false,
    pop3s := false, imaps := false, sslVersion := 0, pout := false,
    sslbugs := false, http := false, sniEnable := false, sniServername := "",
    OCSPStatusRequest := false, xmlOutput := false, ciphers := [],
    clientCertsFile := none, privateKeyFile := none, privateKeyPassword := none }

/-! ## loadCerts -/

/-- What the engine answers to the calls of `loadCerts`. -/
structure CertEnv where
  /-- `SSL_CTX_use_certificate_file` with `SSL_FILETYPE_PEM`. -/
  useCertPEM : Bool
  /-- `SSL_CTX_use_certificate_file` with `SSL_FILETYPE_ASN1`. -/
  useCertASN1 : Bool
  /-- `SSL_CTX_use_certificate_chain_file`. -/
  useCertChain : Bool
  /-- `SSL_CTX_use_PrivateKey_file` with `SSL_FILETYPE_PEM`. -/
  usePKeyPEM : Bool
  /-- `SSL_CTX_use_PrivateKey_file` with `SSL_FILETYPE_ASN1`. -/
  usePKeyASN1 : Bool
  /-- `SSL_CTX_use_RSAPrivateKey_file` with `SSL_FILETYPE_PEM`. -/
  useRSAPEM : Bool
  /-- `SSL_CTX_use_RSAPrivateKey_file` with `SSL_FILETYPE_ASN1`. -/
  useRSAASN1 : Bool
  /-- Whether `fopen` of the PKCS#12 file worked. -/
  fopenOk : Bool
  /-- Whether `d2i_PKCS12_fp` returned a structure. -/
  d2iOk : Bool
  /-- `PKCS12_parse`. -/
  parseOk : Bool
  /-- `SSL_CTX_use_certificate`. -/
  useCert : Bool
  /-- `SSL_CTX_use_PrivateKey`. -/
  usePKey : Bool
  /-- `SSL_CTX_check_private_key`. -/
  checkKey : Bool
  deriving DecidableEq, Repr

/-- A red diagnostic line of `loadCerts`. -/
def certError (msg : String) : Event := Event.err (COL_RED ++ msg ++ RESET ++ "\n")

/-- The block `// Seperate Certs and PKey Files...` of `loadCerts`: load the
certificate (PEM, then ASN1, then chain file), and when that worked the private
key (PEM, ASN1, RSA PEM, RSA ASN1). -/
def loadSeparate (e : CertEnv) : Bool × List Event :=
  -- Load Cert...
  if !e.useCertPEM && !e.useCertASN1 && !e.useCertChain then
    (false, [certError "    Could not configure certificate(s)."])
  -- Load PKey...
  else if !e.usePKeyPEM && !e.usePKeyASN1 && !e.useRSAPEM && !e.useRSAASN1 then
    (false, [certError "    Could not configure private key."])
  else (true, [])

/-- The block `// PKCS Cert and PKey File...` of `loadCerts`. -/
def loadPkcs12 (e : CertEnv) : Bool × List Event :=
  if e.fopenOk then
    if !e.d2iOk then
      (false, [certError "    Could not read PKCS#12 file."])
    else if !e.parseOk then
      (false, [certError "    Error parsing PKCS#12. Are you sure that password was correct?"])
    else
      ((e.useCert && e.usePKey),
        (if !e.useCert then [certError "    Could not configure certificate."] else []) ++
        (if !e.usePKey then [certError "    Could not configure private key."] else []))
  else (false, [certError "    Could not open PKCS#12 file."])

/-- The block `// Check Cert/Key...` of `loadCerts`, given the status and the
diagnostics so far. -/
def checkCertKey (e : CertEnv) (r : Bool × List Event) : Bool × List Event :=
  if r.1 then
    if !e.checkKey then
      (false, r.2 ++ [certError "    Prvate key does not match certificate."])
    else (true, r.2)
  else (false, r.2)

/-- The function `loadCerts`: the status it returns and the diagnostics it
prints. -/
def loadCerts (o : sslCheckOptions) (e : CertEnv) : Bool × List Event :=
  checkCertKey e
    (if o.clientCertsFile.isSome && o.privateKeyFile.isSome then loadSeparate e
     else if o.privateKeyFile.isSome then loadPkcs12 e
     else (true, []))

/-! ## testCipher -/

/-- What the engine and the peer answer during one probe. -/
structure ProbeEnv where
  /-- Whether `SSL_CTX_new` returned a context. -/
  ctxNew : Bool
  /-- The engine answers to `loadCerts`. -/
  certs : CertEnv
  /-- The operating system and the plaintext peer. -/
  conn : ConnEnv
  /-- The result of `SSL_CTX_set_cipher_list`. -/
  setCipherList : Int
  /-- Whether `SSL_new` returned an object. -/
  sslNew : Bool
  /-- Whether `SSL_set_tlsext_host_name` succeeded. -/
  setHostName : Bool
  /-- Whether `SSL_set_tlsext_status_type` succeeded. -/
  setStatusType : Bool
  /-- The result of `SSL_connect`. -/
  sslConnect : Int
  /-- The bytes the peer delivers to the `SSL_read` that follows an accepted
  handshake; the empty list stands for a read that fails or delivers nothing. -/
  readData : List Nat
  deriving DecidableEq, Repr

/-- The C library `isspace` in the C locale. -/
def isspace (c : Nat) : Bool := c == 32 || (9 ≤ c && c ≤ 13)

/-- The C library `isdigit`. -/
def isdigit (c : Nat) : Bool := 48 ≤ c && c ≤ 57

/-- The digit loop of `atoi`: stops at the first byte that is not a digit. -/
def atoiDigits : List Nat → Int → Int
  | [], acc => acc
  | c :: cs, acc => if isdigit c then atoiDigits cs (acc * 10 + ((c : Int) - 48)) else acc

/-- The part of `atoi` after the leading white space: an optional sign, then digits. -/
def atoiSign : List Nat → Int
  | 45 :: cs => - atoiDigits cs 0
  | 43 :: cs => atoiDigits cs 0
  | cs => atoiDigits cs 0

/-- The number a zero-terminated buffer spells for `atoi`: leading white space,
an optional sign, digits. -/
def atoiText : List Nat → Int
  | [] => 0
  | c :: cs => if isspace c then atoiText cs else atoiSign (c :: cs)

/-- The result of `strtol` for a number: the number held to the range of a
64-bit `long`. -/
def longOf (v : Int) : Int :=
  if v > 9223372036854775807 then 9223372036854775807
  else if v < -9223372036854775808 then -9223372036854775808
  else v

/-- The conversion of a `long` to a 32-bit `int`: its low 32 bits, read as a
signed number. -/
def intOf (v : Int) : Int := (v + 2147483648) % 4294967296 - 2147483648

/-- The C library `atoi` on a zero-terminated buffer, `(int) strtol(s, NULL, 10)`:
a number that fits an `int` is returned as it is, a larger one loses its high
bits. -/
def atoi (s : List Nat) : Int := intOf (longOf (atoiText s))

/-- The bytes `SSL_read(ssl, buffer, max)` stores when the peer delivers `data`. -/
def sslReadBytes (max : Nat) (data : List Nat) : List Nat := data.take max

/-- The value `SSL_read` returns: the number of bytes stored. -/
def sslReadSize (max : Nat) (data : List Nat) : Int := ((sslReadBytes max data).length : Int)

/-- The 50-byte `buffer` of `testCipher` after `memset(buffer, 0, 50)` and
`SSL_read(ssl, buffer, 49)`. -/
def httpBuffer (data : List Nat) : List Nat :=
  sslReadBytes 49 data ++ List.replicate (50 - (sslReadBytes 49 data).length) 0

/-- The scan `for (loop = 9; (loop < 49) && (buffer[loop] != 0) &&
(buffer[loop] != '\r') && (buffer[loop] != '\n'); loop++)`, started at `loop`;
the first argument bounds the number of iterations. -/
def httpScan (buffer : List Nat) : Nat → Nat → Nat
  | 0, loop => loop
  | fuel + 1, loop =>
    if loop < 49 ∧ buffer.getD loop 0 ≠ 0 ∧ buffer.getD loop 0 ≠ 13 ∧ buffer.getD loop 0 ≠ 10 then
      httpScan buffer fuel (loop + 1)
    else loop

/-- The string `buffer + 9` after the scan and `buffer[loop] = 0`. -/
def httpStatus (data : List Nat) : List Nat :=
  cstring (((httpBuffer data).set (httpScan (httpBuffer data) 40 9) 0).drop 9)

/-- The request `testCipher` builds with `snprintf(requestBuffer, 199, ...)`. -/
def requestBuffer (o : sslCheckOptions) : String :=
  ("GET / HTTP/1.0\r\nUser-Agent: SSLScan\r\nHost: " ++ o.host ++ "\r\n\r\n").take 198

/-- Emit to the XML file when it is open. -/
def xmlIf (o : sslCheckOptions) (s : String) : List Event :=
  if o.xmlOutput then [Event.xml s] else []

/-- The HTTP probe of `testCipher` after an accepted handshake. -/
def httpProbe (o : sslCheckOptions) (data : List Nat) : List Event :=
  [Event.sslWrite (requestBuffer o) 200, Event.sslRead 49 (sslReadBytes 49 data)] ++
  (if sslReadSize 49 data > 9 then
    -- Output HTTP code...
    (if o.pout = true then [Event.out (text (httpStatus data) ++ " || ")]
     else [Event.out (text (httpStatus data))] ++
       List.replicate (17 - (httpStatus data).length) (Event.out " ")) ++
    xmlIf o (" http=\"" ++ text (httpStatus data) ++ "\"")
  else
    (if o.pout = true then [Event.out "|| || "] else [Event.out "                 "]))

/-- The data-channel check of `testCipher` after an accepted handshake: send
`PROT P`, zero four bytes, read three. -/
def dataChannelProbe (o : sslCheckOptions) (data : List Nat) : List Event :=
  [Event.sslWrite "PROT P\r\n" 8, Event.sslRead 3 (sslReadBytes 3 data)] ++
  (if sslReadSize 3 data = 3 then
    (if atoi (sslReadBytes 3 data ++ [0]) = 200 then
      [Event.out ("Data-Channel-Encryption-Support: OK (" ++
        text (cstring (sslReadBytes 3 data)) ++ ")  ")]
     else
      [Event.out ("Data-Channel-Encryption-Support: NA (" ++
        text (cstring (sslReadBytes 3 data)) ++ ")  ")]) ++
    xmlIf o (" data-connection-security-private=\"" ++
      text (cstring (sslReadBytes 3 data)) ++ "\"")
  else [])

/-- The status column of `testCipher`, with what follows an accepted handshake. -/
def showStatus (o : sslCheckOptions) (cipherStatus : Int) (data : List Nat) : List Event :=
  if cipherStatus = 1 then
    xmlIf o "accepted\"" ++
    (if o.pout = true then [Event.out "|| Accepted || "] else [Event.out "    Accepted  "]) ++
    (if o.http = true then httpProbe o data
     -- FTPS: check for Data Connection Security...
     else if o.ftps = true ∧ o.ftps_dcs = true then dataChannelProbe o data
     -- FTPS: check for Data Connection Security... (second copy)
     else if o.ftps = true ∧ o.ftps_dcs = true then dataChannelProbe o data
     else [])
  else if cipherStatus = 0 then
    xmlIf o "rejected\"" ++
    (if o.http = true then
      (if o.pout = true then [Event.out "|| Rejected || N/A || "]
       else [Event.out "    Rejected  N/A              "])
     else
      (if o.pout = true then [Event.out "|| Rejected || "] else [Event.out "    Rejected  "]))
  else
    xmlIf o "failed\"" ++
    (if o.http = true then
      (if o.pout = true then [Event.out "|| Failed || N/A || "]
       else [Event.out "    Failed    N/A              "])
     else
      (if o.pout = true then [Event.out "|| Failed || "] else [Event.out "    Failed    "]))

/-- One protocol label of `testCipher`, in the XML file and on standard output. -/
def versionLabel (o : sslCheckOptions) (label : String) : List Event :=
  xmlIf o (label ++ "\" bits=\"") ++
  (if o.pout = true then [Event.out (label ++ " || ")] else [Event.out (label ++ "  ")])

/-- The protocol column of `testCipher`. -/
def showVersion (o : sslCheckOptions) (m : SslMethod) : List Event :=
  xmlIf o " sslversion=\"" ++
  (if m = SslMethod.SSLv2_client_method then versionLabel o "SSLv2"
   else if m = SslMethod.SSLv3_client_method then versionLabel o "SSLv3"
   else if m = SslMethod.TLSv1_client_method then versionLabel o "TLSv1"
   else if m = SslMethod.TLSv1_1_client_method then versionLabel o "TLSv1.1"
   else if m = SslMethod.TLSv1_2_client_method then versionLabel o "TLSv1.2"
   else [Event.err (COL_RED ++ "ERROR: Could not determine protocol." ++ RESET ++ "\n")])

/-- The number of padding blanks after the bit count. -/
def bitsPadding (bits : Int) : Nat := if bits < 10 then 2 else if bits < 100 then 1 else 0

/-- The bits and name columns of `testCipher`. -/
def showBitsName (o : sslCheckOptions) (c : sslCipher) : List Event :=
  (if o.pout = true then [Event.out (toString c.bits ++ " || ")]
   else [Event.out (toString c.bits ++ " bits  ")]) ++
  List.replicate (bitsPadding c.bits) (Event.out " ") ++
  xmlIf o (toString c.bits ++ "\" cipher=\"" ++ c.name ++ "\" />\n") ++
  (if o.pout = true then [Event.out (c.name ++ " ||\n")] else [Event.out (c.name ++ "\n")])

/-- The block `// Show Cipher Status` of `testCipher`: everything it does for
one cipher once the handshake has returned `cipherStatus`. -/
def showCipher (o : sslCheckOptions) (c : sslCipher) (cipherStatus : Int)
    (data : List Nat) : List Event :=
  xmlIf o "  <cipher status=\"" ++ showStatus o cipherStatus data ++
  showVersion o c.sslMethod ++ showBitsName o c

/-- The function `testCipher`: its status and its trace. -/
def testCipher (o : sslCheckOptions) (c : sslCipher) (e : ProbeEnv) : Bool × List Event :=
  -- Connect to host
  let conn := tcpConnect o e.conn
  let socketDescriptor := conn.1
  if socketDescriptor ≠ 0 then
    if e.setCipherList ≠ 0 then
      -- Create SSL object...
      if e.sslNew then
        let sni : Bool × List Event :=
          if o.sniEnable = true then
            if !e.setHostName then
              (false, [Event.setTlsextHostName o.sniServername false,
                Event.err (COL_RED ++ "    ERROR: Failed to set the SNI servername to " ++
                  o.sniServername ++ " (SSLv1-3 does not support SNI)" ++ RESET ++ "\n")])
            else (true, [Event.setTlsextHostName o.sniServername true])
          else (true, [])
        let ocsp : Bool × List Event :=
          if o.OCSPStatusRequest = true then
            if !e.setStatusType then
              (false, [Event.setTlsextStatusType false,
                Event.err (COL_RED ++
                  "    ERROR: Failed to set TLS Status request (OCSP stapling)" ++ RESET ++ "\n")])
            else (sni.1, [Event.setTlsextStatusType true])
          else (sni.1, [])
        -- Connect SSL over socket
        let cipherStatus := e.sslConnect
        (ocsp.1,
          conn.2 ++ [Event.setCipherList c.name e.setCipherList, Event.sslNew true,
            Event.setBio socketDescriptor] ++ sni.2 ++ ocsp.2 ++
          [Event.sslConnect cipherStatus] ++
          -- Show Cipher Status
          (if !(o.noFailed = true && cipherStatus ≠ 1) then showCipher o c cipherStatus e.readData
           else []) ++
          -- Disconnect SSL over socket
          (if cipherStatus = 1 then [Event.sslShutdown] else []) ++
          [Event.sslFree, Event.close socketDescriptor])
      else
        (false, conn.2 ++ [Event.setCipherList c.name e.setCipherList, Event.sslNew false,
          Event.err (COL_RED ++ "    ERROR: Could create SSL object." ++ RESET ++ "\n"),
          Event.close socketDescriptor])
    else
      (false, conn.2 ++ [Event.setCipherList c.name e.setCipherList,
        Event.err (COL_RED ++ "    ERROR: Could set cipher " ++ c.name ++ "." ++ RESET ++ "\n"),
        Event.close socketDescriptor])
  -- Could not connect
  else (false, conn.2)

/-! ## The cipher probe loop of testHost -/

/-- The body of the `while` loop of `testHost` for one catalog cipher: create
the context, load the client certificates when configured, run `testCipher`,
free the context. -/
def probeIteration (o : sslCheckOptions) (c : sslCipher) (e : ProbeEnv) : Bool × List Event :=
  -- Setup Context Object...
  if e.ctxNew then
    -- Load Certs if required...
    let lc : Bool × List Event :=
      if o.clientCertsFile.isSome || o.privateKeyFile.isSome then loadCerts o e.certs
      else (true, [])
    -- Test
    let tc : Bool × List Event := if lc.1 = true then testCipher o c e else (lc.1, [])
    (tc.1, [Event.ctxNew c.sslMethod true, Event.ctxSetOptions o.sslbugs] ++ lc.2 ++ tc.2 ++
      -- Free CTX Object
      [Event.ctxFree])
  -- Error Creating Context Object
  else
    (false, [Event.ctxNew c.sslMethod false,
      Event.err (COL_RED ++ "ERROR: Could not create CTX object." ++ RESET ++ "\n")])

/-- The loop `while ((sslCipherPointer != 0) && (status == true))` of
`testHost`, started at the `i`-th probe with the rest of the catalog and the
current status.  It returns the final status and one trace per iteration run;
the `i`-th iteration talks to the environment `env i`. -/
def cipherLoop (o : sslCheckOptions) (env : Nat → ProbeEnv) :
    Nat → List sslCipher → Bool → Bool × List (List Event)
  | _, [], status => (status, [])
  | i, c :: cs, status =>
    if status = true then
      ((cipherLoop o env (i + 1) cs (probeIteration o c (env i)).1).1,
        (probeIteration o c (env i)).2 ::
          (cipherLoop o env (i + 1) cs (probeIteration o c (env i)).1).2)
    else (status, [])

/-! ## Reading a trace -/

/-- The strings a trace writes to the XML file, in order. -/
def xmlOf (t : List Event) : List String :=
  t.filterMap (fun ev => match ev with | Event.xml s => some s | _ => none)

/-- The report fields a trace writes to standard output, in order. -/
def outOf (t : List Event) : List String :=
  t.filterMap (fun ev => match ev with | Event.out s => some s | _ => none)

/-- Whether an event writes part of the report (XML file or standard output
field), as opposed to acting on the network or the engine or printing a
diagnostic. -/
def Event.isReport : Event → Bool
  | Event.xml _ => true
  | Event.out _ => true
  | _ => false

/-- The report a trace writes: its XML and standard-output writes, in order. -/
def reports (t : List Event) : List Event := t.filter Event.isReport

/-- Whether an event only prints: a report write or a diagnostic. -/
def Event.isOutput : Event → Bool
  | Event.xml _ => true
  | Event.out _ => true
  | Event.err _ => true
  | _ => false

/-- The calls a trace makes to the operating system and to the TLS engine, in
order: the connections it opens and closes, what it sends and reads, the
engine set-up and the handshakes. -/
def actions (t : List Event) : List Event := t.filter (fun ev => !ev.isOutput)

/-- Whether a cipher-result record is an accepted one: the first field it
writes to standard output is an Accepted label. -/
def isAcceptedRecord (record : List Event) : Bool :=
  match outOf record with
  | s :: _ => s == "|| Accepted || " || s == "    Accepted  "
  | [] => false

/-- The handshakes a trace attempts: the results of its `SSL_connect` calls. -/
def handshakes (t : List Event) : List Int :=
  t.filterMap (fun ev => match ev with | Event.sslConnect r => some r | _ => none)

/-- The cipher strings a trace configures with `SSL_CTX_set_cipher_list`. -/
def cipherLists (t : List Event) : List String :=
  t.filterMap (fun ev => match ev with | Event.setCipherList s _ => some s | _ => none)

/-- The data a trace writes on the TLS session, with the byte counts passed. -/
def sslWrites (t : List Event) : List (String × Nat) :=
  t.filterMap (fun ev => match ev with | Event.sslWrite d n => some (d, n) | _ => none)

/-- Whether an event is one `tcpConnect` can produce. -/
def Event.isConn : Event → Bool
  | Event.socket _ => true
  | Event.bind _ _ => true
  | Event.connect _ _ => true
  | Event.recv _ _ _ => true
  | Event.send _ _ _ => true
  | Event.close _ => true
  | Event.err _ => true
  | _ => false

/-- Whether a probe gets as far as the handshake in `testCipher`: the
connection and the preamble succeed, the cipher restriction is configured and
the session object is created. -/
def reachesHandshake (o : sslCheckOptions) (e : ProbeEnv) : Prop :=
  (tcpConnect o e.conn).1 ≠ 0 ∧ e.setCipherList ≠ 0 ∧ e.sslNew = true

/-- Whether one iteration of the cipher loop runs without any set-up failure:
the context is created, the client certificates load when configured, the
probe reaches the handshake, and the SNI and OCSP requests are accepted by the
engine when enabled. -/
def probeRuns (o : sslCheckOptions) (e : ProbeEnv) : Prop :=
  e.ctxNew = true ∧
  ((o.clientCertsFile.isSome || o.privateKeyFile.isSome) = true → (loadCerts o e.certs).1 = true) ∧
  reachesHandshake o e ∧
  (o.sniEnable = true → e.setHostName = true) ∧
  (o.OCSPStatusRequest = true → e.setStatusType = true)

/-- The reads a trace makes on the TLS session: the byte count asked for and
the bytes that arrived. -/
def sslReads (t : List Event) : List (Nat × List Nat) :=
  t.filterMap (fun ev => match ev with | Event.sslRead n d => some (n, d) | _ => none)

/-- A catalog entry used in the examples. -/
def sampleCipher : sslCipher :=
  { name := "AES128-SHA", version := "TLSv1/SSLv3", bits := 128, description := "",
    sslMethod := SslMethod.TLSv1_client_method }

/-- A second catalog entry used in the examples. -/
def sampleCipher2 : sslCipher :=
  { name := "RC4-MD5", version := "TLSv1/SSLv3", bits := 128, description := "",
    sslMethod := SslMethod.TLSv1_client_method }

/-- A peer that accepts the TCP connection and needs no preamble. -/
def plainPeer : ConnEnv := { socketFd := 3, bindStatus := 0, connectStatus := 0, reads := [] }

/-- An FTP peer that accepts AUTH TLS. -/
def ftpPeer : ConnEnv :=
  { socketFd := 3, bindStatus := 0, connectStatus := 0,
    reads := [cstr "220 ftp ready\r\n", cstr "234 AUTH TLS OK\r\n"] }

/-- An engine that accepts every certificate call. -/
def okCerts : CertEnv :=
  { useCertPEM := true, useCertASN1 := true, useCertChain := true, usePKeyPEM := true,
    usePKeyASN1 := true, useRSAPEM := true, useRSAASN1 := true, fopenOk := true,
    d2iOk := true, parseOk := true, useCert := true, usePKey := true, checkKey := true }

/-- A probe over the given connection in which every engine call succeeds, the
handshake returns `r`, and the read after the handshake delivers `data`. -/
def probeEnvOn (conn : ConnEnv) (r : Int) (data : List Nat) : ProbeEnv :=
  { ctxNew := true, certs := okCerts, conn := conn, setCipherList := 1, sslNew := true,
    setHostName := true, setStatusType := true, sslConnect := r, readData := data }

/-- The options after `--xml=file host`. -/
def xmlOptions : sslCheckOptions := { initOptions "host" with xmlOutput := true }

/-- The options after `--ftps-dcs --http --xml=file host`. -/
def ftpsDcsHttpOptions : sslCheckOptions :=
  { initOptions "host" with
    ftps := true, ftps_dcs := true, port := 21, http := true, xmlOutput := true }

/-- The options after `--ftps-dcs --xml=file host`. -/
def ftpsDcsOptions : sslCheckOptions :=
  { initOptions "host" with
    ftps := true, ftps_dcs := true, port := 21, xmlOutput := true }

/-- Whether a byte continues the HTTP status text: it is not the zero byte, a
carriage return or a line feed. -/
def statusByte (b : Nat) : Bool := b != 0 && b != 13 && b != 10

/-- A response with a zero byte inside its status line. -/
def nulResponse : List Nat := cstr "HTTP/1.1 2" ++ [0] ++ cstr "00 OK\r\n"

/-- A well-formed HTTP response. -/
def okResponse : List Nat := cstr "HTTP/1.1 200 OK\r\nServer: x\r\n\r\n"

/-- The options after `--http --xml=file host`. -/
def httpXmlOptions : sslCheckOptions :=
  { initOptions "host" with
    http := true, xmlOutput := true }

/-- Whether one iteration of the cipher loop gets as far as the handshake. -/
def iterationReaches (o : sslCheckOptions) (e : ProbeEnv) : Prop :=
  e.ctxNew = true ∧
  ((o.clientCertsFile.isSome || o.privateKeyFile.isSome) = true → (loadCerts o e.certs).1 = true) ∧
  reachesHandshake o e

/-- Whether an event is one the cipher status block can produce: a report
write, a diagnostic, or a write or read on the TLS session. -/
def Event.isShow : Event → Bool
  | Event.xml _ => true
  | Event.out _ => true
  | Event.err _ => true
  | Event.sslWrite _ _ => true
  | Event.sslRead _ _ => true
  | _ => false

/-- What `testCipher` does between the connection and the handshake. -/
def probeSetup (o : sslCheckOptions) (c : sslCipher) (e : ProbeEnv) : List Event :=
  (tcpConnect o e.conn).2 ++
  [Event.setCipherList c.name e.setCipherList, Event.sslNew true,
    Event.setBio (tcpConnect o e.conn).1] ++
  (if o.sniEnable = true then
    (if e.setHostName = true then [Event.setTlsextHostName o.sniServername true]
     else [Event.setTlsextHostName o.sniServername false,
       Event.err (COL_RED ++ "    ERROR: Failed to set the SNI servername to " ++
         o.sniServername ++ " (SSLv1-3 does not support SNI)" ++ RESET ++ "\n")])
   else []) ++
  (if o.OCSPStatusRequest = true then
    (if e.setStatusType = true then [Event.setTlsextStatusType true]
     else [Event.setTlsextStatusType false,
       Event.err (COL_RED ++
         "    ERROR: Failed to set TLS Status request (OCSP stapling)" ++ RESET ++ "\n")])
   else [])

/-- What `testCipher` does after the cipher status has been shown. -/
def probeTeardown (o : sslCheckOptions) (e : ProbeEnv) : List Event :=
  (if e.sslConnect = 1 then [Event.sslShutdown] else []) ++
  [Event.sslFree, Event.close (tcpConnect o e.conn).1]

/-- The trace of the SMTP exchange of `tcpConnect` when all three replies match. -/
def smtpReadyTrace (e : ConnEnv) : List Event :=
  [Event.socket e.socketFd, Event.bind e.socketFd e.bindStatus,
   Event.connect e.socketFd e.connectStatus,
   Event.recv e.socketFd (BUFFERSIZE - 1) (e.recvData 0),
   Event.send e.socketFd "EHLO titania.co.uk\r\n" 20,
   Event.recv e.socketFd (BUFFERSIZE - 1) (e.recvData 1),
   Event.send e.socketFd "STARTTLS\r\n" 10,
   Event.recv e.socketFd (BUFFERSIZE - 1) (e.recvData 2)]

/-- A scripted SMTP peer: the three replies of the specification example. -/
def smtpPeer : ConnEnv :=
  { socketFd := 3, bindStatus := 0, connectStatus := 0,
    reads := [cstr "220 ready\r\n", cstr "250 OK\r\n", cstr "220 go\r\n"] }

/-- A scripted peer whose greeting is an error line. -/
def errorPeer : ConnEnv :=
  { socketFd := 3, bindStatus := 0, connectStatus := 0,
    reads := [cstr "500 error\r\n"] }

/-- A scripted IMAP peer that answers the STARTTLS command with the tag. -/
def imapPeer : ConnEnv :=
  { socketFd := 3, bindStatus := 0, connectStatus := 0,
    reads := [cstr "* OK ready\r\n", cstr "AA OK begin TLS\r\n"] }

/-- A scripted IMAP peer whose answer has OK in it but not the tag in front. -/
def imapUntaggedPeer : ConnEnv :=
  { socketFd := 3, bindStatus := 0, connectStatus := 0,
    reads := [cstr "* OK ready\r\n", cstr "* OK AA begin TLS\r\n"] }

/-- A host on which `connect()` fails. -/
def refusingPeer : ConnEnv :=
  { socketFd := 3, bindStatus := 0, connectStatus := -1, reads := [] }

/-- A system on which `bind()` fails. -/
def bindFailEnv : ConnEnv :=
  { socketFd := 3, bindStatus := -1, connectStatus := 0, reads := [] }

/-- The options after `--esmtps host`. -/
def smtpOptions : sslCheckOptions := { initOptions "host" with esmtps := true, port := 25 }

/-- The options after `--imaps host`. -/
def imapOptions : sslCheckOptions := { initOptions "host" with imaps := true, port := 143 }

/-- Whether a probe reaches the handshake can be computed. -/
instance decReachesHandshake (o : sslCheckOptions) (e : ProbeEnv) :
    Decidable (reachesHandshake o e) := by
  unfold reachesHandshake; infer_instance

/-- Whether an iteration reaches the handshake can be computed. -/
instance decIterationReaches (o : sslCheckOptions) (e : ProbeEnv) :
    Decidable (iterationReaches o e) := by
  unfold iterationReaches; infer_instance

/-- Whether an iteration runs without set-up failure can be computed. -/
instance decProbeRuns (o : sslCheckOptions) (e : ProbeEnv) : Decidable (probeRuns o e) := by
  unfold probeRuns; infer_instance

/-- A peer that accepts the first cipher offered and rejects the others. -/
def firstOnlyEnv (i : Nat) : ProbeEnv := probeEnvOn plainPeer (if i = 0 then 1 else 0) []

/-- A host that refuses every connection. -/
def refusingEnv (_ : Nat) : ProbeEnv := probeEnvOn refusingPeer 1 []

/-- An SMTP host that greets every connection with an error line. -/
def errorGreetingEnv (_ : Nat) : ProbeEnv := probeEnvOn errorPeer 1 []

/-- The options after `--esmtps --xml=file host`. -/
def smtpXmlOptions : sslCheckOptions :=
  { initOptions "host" with
    esmtps := true, port := 25, xmlOutput := true }

/-- The options with the no_failed flag set to `b` and everything else as in `o`. -/
def withNoFailed (o : sslCheckOptions) (b : Bool) : sslCheckOptions := { o with noFailed := b }

/-- A peer that completes every connection and rejects every cipher. -/
def rejectingEnv (_ : Nat) : ProbeEnv := probeEnvOn plainPeer 0 []

/-- The protocol versions in the order `testHost` and `main` go through them,
each with its bit in `sslVersion`. -/
def versionTable : List (Nat × SslMethod) :=
  [(ssl_v2, SslMethod.SSLv2_client_method), (ssl_v3, SslMethod.SSLv3_client_method),
   (tls_v1, SslMethod.TLSv1_client_method), (tls_v1_1, SslMethod.TLSv1_1_client_method),
   (tls_v1_2, SslMethod.TLSv1_2_client_method)]

/-- The test `options->sslVersion & mask` of `testHost` and `main`. -/
def versionEnabled (o : sslCheckOptions) (mask : Nat) : Bool := o.sslVersion &&& mask != 0

/-- The SNI and OCSP requests every probe makes on its new session: the status
they leave (false when the engine refuses one that is enabled) and the trace. -/
def tlsExtSetup (o : sslCheckOptions) (e : ProbeEnv) : Bool × List Event :=
  let sni : Bool × List Event :=
    if o.sniEnable = true then
      if !e.setHostName then
        (false, [Event.setTlsextHostName o.sniServername false,
          Event.err (COL_RED ++ "    ERROR: Failed to set the SNI servername to " ++
            o.sniServername ++ " (SSLv1-3 does not support SNI)" ++ RESET ++ "\n")])
      else (true, [Event.setTlsextHostName o.sniServername true])
    else (true, [])
  let ocsp : Bool × List Event :=
    if o.OCSPStatusRequest = true then
      if !e.setStatusType then
        (false, [Event.setTlsextStatusType false,
          Event.err (COL_RED ++
            "    ERROR: Failed to set TLS Status request (OCSP stapling)" ++ RESET ++ "\n")])
      else (sni.1, [Event.setTlsextStatusType true])
    else (sni.1, [])
  (ocsp.1, sni.2 ++ ocsp.2)

/-! ## defaultCipher -/

/-- What the engine and the peer answer during one preferred-cipher probe: the
answers of a probe, and the cipher the handshake negotiated. -/
structure PreferredEnv where
  /-- The answers to the calls shared with `testCipher`. -/
  probe : ProbeEnv
  /-- The result of `SSL_get_cipher_bits`. -/
  cipherBits : Int
  /-- The result of `SSL_get_cipher_name`. -/
  cipherName : String
  deriving DecidableEq, Repr

/-- One protocol label of `defaultCipher`: the label written to the XML file and
the label printed on standard output. -/
def defaultLabel (o : sslCheckOptions) (xmlLabel outLabel : String) : List Event :=
  xmlIf o ("  <defaultcipher sslversion=\"" ++ xmlLabel ++ "\" bits=\"") ++
  (if o.pout = true then [Event.out ("|| " ++ outLabel ++ " || ")]
   else [Event.out ("    " ++ outLabel ++ "  ")])

/-- The protocol column of `defaultCipher`. -/
def showDefaultVersion (o : sslCheckOptions) (m : SslMethod) : List Event :=
  if m = SslMethod.SSLv2_client_method then defaultLabel o "SSLv2" "SSLv2"
  else if m = SslMethod.SSLv3_client_method then defaultLabel o "SSLv3" "SSLv3"
  else if m = SslMethod.TLSv1_client_method then defaultLabel o "TLSv1" "TLSv1"
  else if m = SslMethod.TLSv1_1_client_method then defaultLabel o "TLSv1" "TLSv1.1"
  else if m = SslMethod.TLSv1_2_client_method then defaultLabel o "TLSv1" "TLSv1.2"
  else [Event.err (COL_RED ++ "ERROR: Could not determine protocol." ++ RESET ++ "\n")]

/-- The preferred-cipher record of `defaultCipher`: protocol, bits and name of
the negotiated cipher. -/
def showDefault (o : sslCheckOptions) (m : SslMethod) (bits : Int) (name : String) :
    List Event :=
  showDefaultVersion o m ++
  (if o.pout = true then [Event.out (toString bits ++ " bits || ")]
   else [Event.out (toString bits ++ " bits  ")]) ++
  List.replicate (bitsPadding bits) (Event.out " ") ++
  xmlIf o (toString bits ++ "\" cipher=\"" ++ name ++ "\" />\n") ++
  (if o.pout = true then [Event.out (name ++ " ||\n")] else [Event.out (name ++ "\n")])

/-- The function `defaultCipher`: its status and its trace. -/
def defaultCipher (o : sslCheckOptions) (m : SslMethod) (e : PreferredEnv) :
    Bool × List Event :=
  -- Connect to host
  let conn := tcpConnect o e.probe.conn
  let socketDescriptor := conn.1
  if socketDescriptor ≠ 0 then
    -- Setup Context Object...
    if e.probe.ctxNew then
      if e.probe.setCipherList ≠ 0 then
        -- Load Certs if required...
        let lc : Bool × List Event :=
          if o.clientCertsFile.isSome || o.privateKeyFile.isSome then loadCerts o e.probe.certs
          else (true, [])
        if lc.1 = true then
          -- Create SSL object...
          if e.probe.sslNew then
            let ext := tlsExtSetup o e.probe
            -- Connect SSL over socket
            let cipherStatus := e.probe.sslConnect
            (ext.1,
              conn.2 ++ [Event.ctxNew m true,
                Event.setCipherList "ALL:COMPLEMENTOFALL" e.probe.setCipherList] ++ lc.2 ++
              [Event.sslNew true, Event.setBio socketDescriptor] ++ ext.2 ++
              [Event.sslConnect cipherStatus] ++
              (if cipherStatus = 1 then
                showDefault o m e.cipherBits e.cipherName ++ [Event.sslShutdown]
               else []) ++
              [Event.sslFree, Event.ctxFree, Event.close socketDescriptor])
          else
            (false, conn.2 ++ [Event.ctxNew m true,
              Event.setCipherList "ALL:COMPLEMENTOFALL" e.probe.setCipherList] ++ lc.2 ++
              [Event.sslNew false,
               Event.err (COL_RED ++ "    ERROR: Could create SSL object." ++ RESET ++ "\n"),
               Event.ctxFree, Event.close socketDescriptor])
        else
          (lc.1, conn.2 ++ [Event.ctxNew m true,
            Event.setCipherList "ALL:COMPLEMENTOFALL" e.probe.setCipherList] ++ lc.2 ++
            [Event.ctxFree, Event.close socketDescriptor])
      else
        (false, conn.2 ++ [Event.ctxNew m true,
          Event.setCipherList "ALL:COMPLEMENTOFALL" e.probe.setCipherList,
          Event.err (COL_RED ++ "    ERROR: Could set cipher." ++ RESET ++ "\n"),
          Event.ctxFree, Event.close socketDescriptor])
    -- Error Creating Context Object
    else
      (false, conn.2 ++ [Event.ctxNew m false,
        Event.err (COL_RED ++ "ERROR: Could not create CTX object." ++ RESET ++ "\n"),
        Event.close socketDescriptor])
  -- Could not connect
  else (false, conn.2)

/-- The preferred-cipher probes of `testHost`: for each protocol version of the
table whose bit is set, as long as the status is not false, one call of
`defaultCipher`.  It returns the final status and one trace per call made, with
the version probed. -/
def preferredLoop (o : sslCheckOptions) (env : SslMethod → PreferredEnv) :
    List (Nat × SslMethod) → Bool → Bool × List (SslMethod × List Event)
  | [], status => (status, [])
  | (mask, m) :: rest, status =>
    if versionEnabled o mask = true ∧ status ≠ false then
      ((preferredLoop o env rest (defaultCipher o m (env m)).1).1,
        (m, (defaultCipher o m (env m)).2) ::
          (preferredLoop o env rest (defaultCipher o m (env m)).1).2)
    else preferredLoop o env rest status
/-! ## getCertificate -/

/-- The format `%02x` on a byte: two lowercase hexadecimal digits. -/
def hex02 (b : Nat) : String :=
  String.mk (if (Nat.toDigits 16 b).length < 2 then '0' :: Nat.toDigits 16 b
    else Nat.toDigits 16 b)

/-- The format `%lx`: lowercase hexadecimal. -/
def hexOf (n : Nat) : String := String.mk (Nat.toDigits 16 n)

/-- The certificate serial number (`ASN1_INTEGER`): the sign flag of its type
and its bytes; `length` is the number of bytes. -/
structure Serial where
  /-- Whether the type is `V_ASN1_NEG_INTEGER`. -/
  negative : Bool
  /-- The bytes `data[0 .. length)`. -/
  data : List Nat
  deriving DecidableEq, Repr

/-- The public key of the certificate as `getCertificate` tells the cases
apart, with what the library prints for it at indent 6 and at indent 4. -/
inductive PublicKey
  /-- An RSA key (`EVP_PKEY_RSA`) with the bit length of its modulus. -/
  | rsa (bits : Int) (print6 print4 : String)
  /-- A DSA key (`EVP_PKEY_DSA`). -/
  | dsa (print6 print4 : String)
  /-- Any other key type. -/
  | other
  deriving DecidableEq, Repr

/-- One X509v3 extension as the library renders it. -/
structure Extension where
  /-- The object name (`i2a_ASN1_OBJECT`). -/
  name : String
  /-- The result of `X509_EXTENSION_get_critical`. -/
  critical : Bool
  /-- Whether `X509V3_EXT_print` succeeds. -/
  printOk : Bool
  /-- What `X509V3_EXT_print` writes at indent 8. -/
  print8 : String
  /-- What `X509V3_EXT_print` writes at indent 0. -/
  print0 : String
  /-- What `M_ASN1_OCTET_STRING_print` writes for the raw value. -/
  raw : String
  deriving DecidableEq, Repr

/-- The leaf certificate as the certificate library renders its fields. -/
structure X509 where
  /-- The result of `X509_get_version`. -/
  version : Nat
  /-- The result of `X509_get_serialNumber`, when not NULL. -/
  serialNumber : Option Serial
  /-- The signature algorithm name. -/
  signatureAlgorithm : String
  /-- The issuer name on one line. -/
  issuer : String
  /-- The printed start of validity. -/
  notBefore : String
  /-- The printed end of validity. -/
  notAfter : String
  /-- The subject name on one line. -/
  subject : String
  /-- The public key algorithm name. -/
  pkAlgorithm : String
  /-- The result of `X509_get_pubkey`, when not NULL. -/
  pubkey : Option PublicKey
  /-- The extensions, in order. -/
  extensions : List Extension
  deriving DecidableEq, Repr

/-- What the engine and the peer answer during `getCertificate`. -/
structure CertificateEnv where
  /-- The answers to the calls shared with `testCipher`. -/
  probe : ProbeEnv
  /-- Whether `SSL_CTX_load_verify_locations` succeeded. -/
  loadVerify : Bool
  /-- The result of `SSL_get_peer_certificate`, when not NULL. -/
  peerCertificate : Option X509
  /-- The result of `SSL_get_verify_result`. -/
  verifyResult : Int
  /-- The text of `X509_verify_cert_error_string` for that result. -/
  verifyErrorString : String
  /-- Whether `SSL_get_tlsext_status_ocsp_resp` delivered a staple. -/
  ocspStapled : Bool
  /-- Whether `d2i_OCSP_RESPONSE` could parse the staple. -/
  ocspParsed : Bool
  /-- What `OCSP_RESPONSE_print` writes for the parsed staple. -/
  ocspPrint : String
  deriving DecidableEq, Repr

/-- The loop of `getCertificate` over the serial bytes, from index `i`: each
byte as `%02x%c`, where the character is the separator `:` or, after the last
byte, a line feed on standard output and `<` in the XML file. -/
def showSerialBytes (o : sslCheckOptions) (length : Nat) : Nat → List Nat → List Event
  | _, [] => []
  | i, b :: bs =>
    [Event.out (hex02 b ++ (if i + 1 = length then "\n" else ":"))] ++
    xmlIf o (hex02 b ++ (if i + 1 = length then "<" else ":")) ++
    showSerialBytes o length (i + 1) bs

/-- The block `// Cert Serial No.` of `getCertificate`. -/
def showSerial (o : sslCheckOptions) (s : Option Serial) : List Event :=
  match s with
  | none =>
    [Event.err (COL_RED ++
      "    ERROR: X509_get_serialNumber() failed to get serial from certificate." ++
      RESET ++ "\n")]
  | some serial =>
    [Event.out ("    Serial Number: " ++ (if serial.negative then "(Negative)" else ""))] ++
    xmlIf o "   <serial>" ++
    showSerialBytes o serial.data.length 0 serial.data ++
    xmlIf o "/serial>\n"

/-- The block `// Public Key...` of `getCertificate`. -/
def showPublicKey (o : sslCheckOptions) (k : Option PublicKey) : List Event :=
  match k with
  | none =>
    [Event.out "    Public Key: Could not load\n"] ++ xmlIf o "   <pk error=\"true\" />\n"
  | some (PublicKey.rsa bits print6 print4) =>
    [Event.out ("    RSA Public Key: (" ++ toString bits ++ " bit)\n")] ++
    xmlIf o ("   <pk error=\"false\" type=\"RSA\" bits=\"" ++ toString bits ++ "\">\n") ++
    [Event.out print6] ++ xmlIf o print4 ++ xmlIf o "   </pk>\n"
  | some (PublicKey.dsa print6 print4) =>
    [Event.out "    DSA Public Key:\n"] ++
    xmlIf o "   <pk error=\"false\" type=\"DSA\">\n" ++
    [Event.out print6] ++ xmlIf o print4 ++ xmlIf o "   </pk>\n"
  | some PublicKey.other =>
    [Event.out "    Public Key: Unknown\n"] ++
    xmlIf o "   <pk error=\"true\" type=\"unknown\" />\n"

/-- The body of the loop of `getCertificate` over the extensions. -/
def showExtension (o : sslCheckOptions) (x : Extension) : List Event :=
  -- Print Extension name...
  [Event.out "      ", Event.out x.name,
   Event.out (": " ++ (if x.critical then "critical" else "") ++ "\n")] ++
  xmlIf o "    <extension name=\"" ++ xmlIf o x.name ++
  xmlIf o ("\"" ++ (if x.critical then " level=\"critical\"" else "") ++ ">") ++
  -- Print Extension value...
  (if x.printOk then [Event.out x.print8]
   else [Event.out "        ", Event.out x.raw]) ++
  (if x.printOk then xmlIf o x.print0 else xmlIf o x.raw) ++
  xmlIf o "</extension>\n" ++
  [Event.out "\n"]

/-- The block `// X509 v3...` of `getCertificate`. -/
def showExtensions (o : sslCheckOptions) (xs : List Extension) : List Event :=
  if xs.length > 0 then
    [Event.out "    X509v3 Extensions:\n"] ++ xmlIf o "   <X509v3-Extensions>\n" ++
    (xs.map (showExtension o)).flatten ++
    xmlIf o "   </X509v3-Extensions>\n"
  else []

/-- What `getCertificate` prints for a leaf certificate: version, serial,
signature algorithm, issuer, validity, subject, public key, extensions, and the
verification result. -/
def showCertificate (o : sslCheckOptions) (e : CertificateEnv) (c : X509) : List Event :=
  -- Cert Version
  [Event.out ("    Version: " ++ toString (c.version + 1) ++ " (0x" ++ hexOf c.version ++ ")\n")] ++
  xmlIf o ("   <version>" ++ toString c.version ++ "</version>\n") ++
  -- Cert Serial No.
  showSerial o c.serialNumber ++
  -- Signature Algo...
  [Event.out "    Signature Algorithm: ", Event.out c.signatureAlgorithm, Event.out "\n"] ++
  xmlIf o "   <signature-algorithm>" ++ xmlIf o c.signatureAlgorithm ++
  xmlIf o "</signature-algorithm>\n" ++
  -- SSL Certificate Issuer...
  [Event.out ("    Issuer: " ++ c.issuer.take 1022 ++ "\n")] ++
  xmlIf o ("   <issuer>" ++ c.issuer.take 1022 ++ "</issuer>\n") ++
  -- Validity...
  [Event.out "    Not valid before: ", Event.out c.notBefore] ++
  xmlIf o "   <not-valid-before>" ++ xmlIf o c.notBefore ++ xmlIf o "</not-valid-before>\n" ++
  [Event.out "\n    Not valid after: ", Event.out c.notAfter, Event.out "\n"] ++
  xmlIf o "   <not-valid-after>" ++ xmlIf o c.notAfter ++ xmlIf o "</not-valid-after>\n" ++
  -- SSL Certificate Subject...
  [Event.out ("    Subject: " ++ c.subject.take 1022 ++ "\n")] ++
  xmlIf o ("   <subject>" ++ c.subject.take 1022 ++ "</subject>\n") ++
  -- Public Key Algo...
  [Event.out "    Public Key Algorithm: ", Event.out c.pkAlgorithm, Event.out "\n"] ++
  xmlIf o "   <pk-algorithm>" ++ xmlIf o c.pkAlgorithm ++ xmlIf o "</pk-algorithm>\n" ++
  -- Public Key...
  showPublicKey o c.pubkey ++
  -- X509 v3...
  showExtensions o c.extensions ++
  -- Verify Certificate...
  [Event.out "  Verify Certificate:\n"] ++
  (if e.verifyResult = 0 then [Event.out "    Certificate passed verification\n"]
   else [Event.out ("    " ++ e.verifyErrorString ++ "\n")])

/-- The branch `if (cipherStatus == 1)` of `getCertificate`, up to the place
where it leaves the branch: whether it left by one of the two `return(1)` of
the OCSP block, and its trace. -/
def certificateBlock (o : sslCheckOptions) (e : CertificateEnv) : Bool × List Event :=
  let head : List Event :=
    -- Get Certificate...
    [Event.out ("\n  " ++ COL_BLUE ++ "SSL Certificate:" ++ RESET ++ "\n")] ++
    xmlIf o "  <certificate>\n" ++
    (match e.peerCertificate with
     | some c => showCertificate o e c
     | none => [])
  let tail : List Event := xmlIf o "  </certificate>\n" ++ [Event.sslShutdown]
  -- Show OCSP Ticket
  if o.OCSPStatusRequest = true then
    let heading : List Event :=
      [Event.out ("\n  " ++ COL_BLUE ++ "Certificate Status Request (OCSP Stapling):" ++
        RESET ++ "\n")]
    if !e.ocspStapled then
      (true, head ++ heading ++
        [Event.out "Certificate Status Request sent but no OCSP ticket stapled in response.\n"])
    else if !e.ocspParsed then
      (true, head ++ heading ++ [Event.out "failed to parse OCSP response :( \n"])
    else
      (false, head ++ heading ++ [Event.out e.ocspPrint] ++ tail)
  else (false, head ++ tail)

/-- The function `getCertificate`: its status and its trace. -/
def getCertificate (o : sslCheckOptions) (e : CertificateEnv) : Bool × List Event :=
  -- Connect to host
  let conn := tcpConnect o e.probe.conn
  let socketDescriptor := conn.1
  if socketDescriptor ≠ 0 then
    -- Setup Context Object...
    if e.probe.ctxNew then
      let pre1 := conn.2 ++ [Event.ctxNew SslMethod.SSLv23_method true,
        Event.loadVerifyLocations o.cafile e.loadVerify]
      -- set location for trusted CAs
      if e.loadVerify then
        let pre2 := pre1 ++ [Event.setCipherList "ALL:COMPLEMENTOFALL" e.probe.setCipherList]
        if e.probe.setCipherList ≠ 0 then
          -- Load Certs if required...
          let lc : Bool × List Event :=
            if o.clientCertsFile.isSome || o.privateKeyFile.isSome then
              loadCerts o e.probe.certs
            else (true, [])
          if lc.1 = true then
            -- Create SSL object...
            if e.probe.sslNew then
              let ext := tlsExtSetup o e.probe
              let pre3 := pre2 ++ lc.2 ++ [Event.sslNew true, Event.setBio socketDescriptor] ++
                ext.2 ++ [Event.sslConnect e.probe.sslConnect]
              -- Connect SSL over socket
              if e.probe.sslConnect = 1 then
                if (certificateBlock o e).1 = true then
                  (true, pre3 ++ (certificateBlock o e).2)
                else
                  (ext.1, pre3 ++ (certificateBlock o e).2 ++
                    [Event.sslFree, Event.ctxFree, Event.close socketDescriptor])
              else
                (ext.1, pre3 ++ [Event.sslFree, Event.ctxFree, Event.close socketDescriptor])
            else
              (false, pre2 ++ lc.2 ++ [Event.sslNew false,
                Event.err (COL_RED ++ "    ERROR: Could create SSL object." ++ RESET ++ "\n"),
                Event.ctxFree, Event.close socketDescriptor])
          else
            (lc.1, pre2 ++ lc.2 ++ [Event.ctxFree, Event.close socketDescriptor])
        else
          (false, pre2 ++
            [Event.err (COL_RED ++ "    ERROR: Could set cipher." ++ RESET ++ "\n"),
             Event.ctxFree, Event.close socketDescriptor])
      else
        (false, pre1 ++
          [Event.err (COL_RED ++ "    ERROR: failed to load trusted CA file:" ++ o.cafile ++
            "." ++ RESET ++ "\n"),
           Event.ctxFree, Event.close socketDescriptor])
    -- Error Creating Context Object
    else
      (false, conn.2 ++ [Event.ctxNew SslMethod.SSLv23_method false,
        Event.err (COL_RED ++ "ERROR: Could not create CTX object." ++ RESET ++ "\n"),
        Event.close socketDescriptor])
  -- Could not connect
  else (false, conn.2)

/-! ## testHost -/

/-- What the outside world answers during one `testHost`. -/
structure HostEnv where
  /-- Whether `gethostbyname` finds the host. -/
  resolves : Bool
  /-- The answers during the `i`-th iteration of the cipher loop. -/
  cipherEnv : Nat → ProbeEnv
  /-- The answers during the preferred-cipher probe of a protocol version. -/
  preferred : SslMethod → PreferredEnv
  /-- The answers during `getCertificate`. -/
  certificate : CertificateEnv

/-- What one `testHost` did, section by section. -/
structure HostRun where
  /-- The status `testHost` returns. -/
  status : Bool
  /-- Resolution, the opening of the XML element and the headings. -/
  intro : List Event
  /-- The iterations of the cipher loop, in order. -/
  probes : List (List Event)
  /-- The heading of the preferred-cipher section. -/
  preferredHeading : List Event
  /-- The calls of `defaultCipher`, in order, each with its protocol version. -/
  preferred : List (SslMethod × List Event)
  /-- The call of `getCertificate`, when it is made. -/
  certificate : Option (List Event)
  /-- The closing of the XML element. -/
  outro : List Event

/-- The whole trace of a `testHost`, in program order. -/
def HostRun.trace (r : HostRun) : List Event :=
  r.intro ++ r.probes.flatten ++ r.preferredHeading ++ (r.preferred.map Prod.snd).flatten ++
  (match r.certificate with | some t => t | none => []) ++ r.outro

/-- The function `testHost`. -/
def testHost (o : sslCheckOptions) (env : HostEnv) : HostRun :=
  -- Resolve Host Name
  if !env.resolves then
    { status := false,
      intro := [Event.resolve o.host false,
        Event.err (COL_RED ++ "ERROR: Could not resolve hostname " ++ o.host ++ "." ++
          RESET ++ "\n")],
      probes := [], preferredHeading := [], preferred := [], certificate := none, outro := [] }
  else
    let loop := cipherLoop o env.cipherEnv 0 o.ciphers true
    let pref : Bool × List (SslMethod × List Event) :=
      if loop.1 = true then preferredLoop o env.preferred versionTable true else (loop.1, [])
    let cert : Option (Bool × List Event) :=
      if pref.1 = true then some (getCertificate o env.certificate) else none
    { status := (match cert with | some c => c.1 | none => pref.1),
      intro :=
        [Event.resolve o.host true] ++
        -- XML Output...
        xmlIf o (" <ssltest host=\"" ++ o.host ++ "\" port=\"" ++ toString o.port ++ "\">\n") ++
        -- Test supported ciphers...
        [Event.out ("\n" ++ COL_GREEN ++ "Testing SSL server " ++ o.host ++ " on port " ++
           toString o.port ++ RESET ++ "\n\n"),
         Event.out ("  " ++ COL_BLUE ++ "Supported Server Cipher(s):" ++ RESET ++ "\n")] ++
        (if o.http = true ∧ o.pout = true then
          [Event.out "|| Status || HTTP Code || Version || Bits || Cipher ||\n"]
         else if o.pout = true then [Event.out "|| Status || Version || Bits || Cipher ||\n"]
         else []),
      probes := loop.2,
      preferredHeading :=
        if loop.1 = true then
          -- Test prefered ciphers...
          [Event.out ("\n  " ++ COL_BLUE ++ "Prefered Server Cipher(s):" ++ RESET ++ "\n")] ++
          (if o.pout = true then [Event.out "|| Version || Bits || Cipher ||\n"] else [])
        else [],
      preferred := pref.2,
      certificate := (match cert with | some c => some c.2 | none => none),
      -- XML Output...
      outro := xmlIf o " </ssltest>\n" }

/-- A preferred-cipher probe over the given connection in which every engine
call succeeds, the handshake returns `r`, and the cipher negotiated is `name`
with `bits` bits. -/
def preferredEnvOn (conn : ConnEnv) (r : Int) (bits : Int) (name : String) : PreferredEnv :=
  { probe := probeEnvOn conn r [], cipherBits := bits, cipherName := name }

/-- A certificate inspection over the given connection in which every engine
call succeeds, the handshake returns `r`, the peer presents `cert`, and the
staple is delivered and parsed as told. -/
def certificateEnvOn (conn : ConnEnv) (r : Int) (cert : Option X509)
    (stapled parsed : Bool) : CertificateEnv :=
  { probe := probeEnvOn conn r [], loadVerify := true, peerCertificate := cert,
    verifyResult := 0, verifyErrorString := "", ocspStapled := stapled, ocspParsed := parsed,
    ocspPrint := "OCSP Response Data:\n" }

/-- A host that resolves, accepts every connection and every handshake, prefers
the same cipher for every version, and presents no certificate and no staple. -/
def plainHostEnv : HostEnv :=
  { resolves := true, cipherEnv := fun _ => probeEnvOn plainPeer 1 [],
    preferred := fun _ => preferredEnvOn plainPeer 1 256 "AES256-SHA",
    certificate := certificateEnvOn plainPeer 1 none false false }

/-- The options after `--status-request --xml=file host`. -/
def ocspXmlOptions : sslCheckOptions :=
  { initOptions "host" with
    OCSPStatusRequest := true, xmlOutput := true }

/-- A certificate whose serial number has no bytes. -/
def emptySerialCert : X509 :=
  { version := 2, serialNumber := some { negative := false, data := [] },
    signatureAlgorithm := "sha256WithRSAEncryption", issuer := "/CN=ca",
    notBefore := "Jan  1 00:00:00 2020 GMT", notAfter := "Jan  1 00:00:00 2030 GMT",
    subject := "/CN=host", pkAlgorithm := "rsaEncryption", pubkey := none, extensions := [] }

/-- A certificate whose serial number has the two bytes 0a ff. -/
def twoByteSerialCert : X509 :=
  { emptySerialCert with serialNumber := some { negative := false, data := [10, 255] } }

/-- A host as `plainHostEnv` that staples something that cannot be parsed. -/
def badStapleHostEnv : HostEnv :=
  { plainHostEnv with certificate := certificateEnvOn plainPeer 1 none true false }

/-- A host as `plainHostEnv` that staples a response that can be parsed. -/
def goodStapleHostEnv : HostEnv :=
  { plainHostEnv with certificate := certificateEnvOn plainPeer 1 none true true }

/-- The protocol versions enabled in the options, in table order. -/
def enabledMethods (o : sslCheckOptions) : List SslMethod :=
  (versionTable.filter (fun p => versionEnabled o p.1)).map Prod.snd

/-- A host as `plainHostEnv` whose engine refuses every cipher restriction. -/
def restrictionFailHostEnv : HostEnv :=
  { plainHostEnv with
    cipherEnv := fun _ => { probeEnvOn plainPeer 1 [] with setCipherList := 0 } }

/-- The options after `--tls1 --xml=file host`, with a catalog of two ciphers. -/
def tls1XmlOptions : sslCheckOptions :=
  { initOptions "host" with
    sslVersion := tls_v1, xmlOutput := true, ciphers := [sampleCipher, sampleCipher2] }

/-- The options after `--ssl3 --tls1 --xml=file host`, with an empty catalog. -/
def ssl3Tls1Options : sslCheckOptions :=
  { initOptions "host" with
    sslVersion := ssl_v3 ||| tls_v1, xmlOutput := true }

/-- A host as `plainHostEnv` that refuses the connection of the SSLv3
preferred-cipher probe. -/
def ssl3RefusedHostEnv : HostEnv :=
  { plainHostEnv with
    preferred := fun m =>
      if m = SslMethod.SSLv3_client_method then preferredEnvOn refusingPeer 1 0 ""
      else preferredEnvOn plainPeer 1 256 "AES256-SHA" }

/-- A host as `plainHostEnv` whose SSLv3 preferred-cipher handshake fails. -/
def ssl3HandshakeFailHostEnv : HostEnv :=
  { plainHostEnv with
    preferred := fun m =>
      if m = SslMethod.SSLv3_client_method then preferredEnvOn plainPeer (-1) 0 ""
      else preferredEnvOn plainPeer 1 256 "AES256-SHA" }

/-- The options after `--sni --xml=file host`. -/
def sniXmlOptions : sslCheckOptions :=
  { initOptions "host" with
    sniEnable := true, sniServername := "host", xmlOutput := true }

/-- A certificate inspection in which the engine refuses the server name, the
handshake completes and the peer presents no certificate. -/
def sniRefusedCertificateEnv : CertificateEnv :=
  { certificateEnvOn plainPeer 1 none false false with
    probe := { probeEnvOn plainPeer 1 [] with setHostName := false } }

/-! ## populateCipherList -/

/-- One entry of the engine's cipher stack (`SSL_CIPHER`), as its accessors
deliver it. -/
structure SSL_CIPHER where
  /-- The result of `SSL_CIPHER_get_name`. -/
  name : String
  /-- The result of `SSL_CIPHER_get_version`. -/
  version : String
  /-- The text `SSL_CIPHER_description` produces. -/
  description : String
  /-- The result of `SSL_CIPHER_get_bits`. -/
  bits : Int
  deriving DecidableEq, Repr

/-- What the engine answers during one `populateCipherList`. -/
structure EngineEnv where
  /-- Whether `SSL_CTX_new` returned a context. -/
  ctxNew : Bool
  /-- The result of `SSL_CTX_set_cipher_list`, which the function ignores. -/
  setCipherList : Int
  /-- Whether `SSL_new` returned an object. -/
  sslNew : Bool
  /-- The stack `SSL_get_ciphers` returns, in the engine's order. -/
  ciphers : List SSL_CIPHER
  deriving DecidableEq, Repr

/-- The catalog entry `populateCipherList` fills in for one engine cipher.  The
description is written into the 512-byte field with the size `sizeof - 1`, so
at most 510 bytes of it are kept. -/
def cipherEntry (m : SslMethod) (c : SSL_CIPHER) : sslCipher :=
  { sslMethod := m, name := c.name, version := c.version,
    description := String.mk (c.description.toList.take 510), bits := c.bits }

/-- The loop `Create Cipher Struct Entries...` of `populateCipherList`: each
engine cipher gets a new entry, the first entry of an empty list or the
successor of the last entry. -/
def populateLoop (m : SslMethod) : List SSL_CIPHER → List sslCipher → List sslCipher
  | [], ciphers => ciphers
  | c :: rest, ciphers =>
    populateLoop m rest
      (match ciphers with
       | [] => [cipherEntry m c]
       | first :: others => (first :: others) ++ [cipherEntry m c])

/-- The function `populateCipherList`: its return code, its trace and the
options it leaves. -/
def populateCipherList (o : sslCheckOptions) (sslMethod : SslMethod) (e : EngineEnv) :
    Bool × List Event × sslCheckOptions :=
  -- Setup Context Object...
  if e.ctxNew then
    -- Create new SSL object
    if e.sslNew then
      (true,
        [Event.ctxNew sslMethod true, Event.setCipherList "ALL:COMPLEMENTOFALL" e.setCipherList,
         Event.sslNew true, Event.sslFree, Event.ctxFree],
        { o with ciphers := populateLoop sslMethod e.ciphers o.ciphers })
    else
      (false,
        [Event.ctxNew sslMethod true, Event.setCipherList "ALL:COMPLEMENTOFALL" e.setCipherList,
         Event.sslNew false,
         Event.err (COL_RED ++ "ERROR: Could not create SSL object." ++ RESET ++ "\n"),
         Event.ctxFree],
        o)
  -- Error Creating Context Object
  else
    (false,
      [Event.ctxNew sslMethod false,
       Event.err (COL_RED ++ "ERROR: Could not create CTX object." ++ RESET ++ "\n")],
      o)

/-- The block `Build a list of ciphers...` of `main` (built with SSLv2
support): one `populateCipherList` for each protocol version of the table whose
bit is set.  It returns the trace and the options it leaves. -/
def buildCipherList (engine : SslMethod → EngineEnv) :
    List (Nat × SslMethod) → sslCheckOptions → List Event × sslCheckOptions
  | [], o => ([], o)
  | (mask, m) :: rest, o =>
    if versionEnabled o mask = true then
      ((populateCipherList o m (engine m)).2.1 ++
          (buildCipherList engine rest (populateCipherList o m (engine m)).2.2).1,
        (buildCipherList engine rest (populateCipherList o m (engine m)).2.2).2)
    else buildCipherList engine rest o

/-- The ciphers one `populateCipherList` gets from the engine: the stack of
`SSL_get_ciphers` when the context and the object were created, nothing
otherwise. -/
def enumeration (e : EngineEnv) : List SSL_CIPHER :=
  if e.ctxNew = true ∧ e.sslNew = true then e.ciphers else []

/-! ## main: the program parameters -/

/-- Mode `mode_help`. -/
def mode_help : Nat := 0
/-- Mode `mode_version`. -/
def mode_version : Nat := 1
/-- Mode `mode_single`. -/
def mode_single : Nat := 2
/-- Mode `mode_multiple`. -/
def mode_multiple : Nat := 3

/-- Bitmask value `ssl_all`. -/
def ssl_all : Nat := 0x03
/-- Bitmask value `tls_all`. -/
def tls_all : Nat := 0x1c
/-- Bitmask value `ssl_tls_all`. -/
def ssl_tls_all : Nat := 0xff

/-- The variables of `main` that the parameter loop sets: the options, `mode`,
`xmlArg`, and the field `options.targets` (kept here: the index of the
`--targets=` argument). -/
structure MainState where
  options : sslCheckOptions
  mode : Nat
  xmlArg : Nat
  targets : Nat
  deriving DecidableEq, Repr

/-- The test `strncmp(lit, arg, strlen(lit)) == 0`: the argument begins with
the literal. -/
def startsWith (lit arg : String) : Bool := lit.toList.isPrefixOf arg.toList

/-- The string `arg + n`. -/
def argFrom (arg : String) (n : Nat) : String := String.mk (arg.toList.drop n)

/-- The call `strncpy(field, s, sizeof(field) - 1)` on a 512-byte field whose
last byte is zero: the field then holds the first 511 bytes of `s`. -/
def strncpy511 (s : String) : String := String.mk (s.toList.take 511)

/-- The loop `while ((s[tempInt] != 0) && (s[tempInt] != ':')) tempInt++` on a
string without a zero byte: the index it stops at. -/
def hostEnd (s : List Char) : Nat := (s.takeWhile (fun c => c != ':')).length

/-- The initial values `main` gives its variables. -/
def initState : MainState :=
  { options := initOptions "", mode := mode_help, xmlArg := 0, targets := 0 }

/-- One pass of the loop `Get program parameters` of `main`, for the argument
`arg` at index `argLoop`. -/
def parseArg (s : MainState) (argLoop : Nat) (arg : String) : MainState :=
  -- Help
  if arg = "--help" then { s with mode := mode_help }
  -- targets
  else if startsWith "--targets=" arg = true ∧ arg.length > 10 then
    { s with mode := mode_multiple, targets := argLoop }
  -- Show only supported
  else if arg = "--no-failed" ∨ arg = "-n" then
    { s with options := { s.options with noFailed := true } }
  -- Version
  else if arg = "--version" then { s with mode := mode_version }
  -- XML Output
  else if startsWith "--xml=" arg = true then { s with xmlArg := argLoop }
  -- Trsuted CA file
  else if startsWith "--cafile=" arg = true then
    { s with options := { s.options with cafile := strncpy511 (argFrom arg 9) } }
  -- P Output
  else if arg = "-p" then { s with options := { s.options with pout := true } }
  -- Client Certificates
  else if startsWith "--certs=" arg = true then
    { s with options := { s.options with clientCertsFile := some (argFrom arg 8) } }
  -- Private Key File
  else if startsWith "--pk=" arg = true then
    { s with options := { s.options with privateKeyFile := some (argFrom arg 5) } }
  -- Private Key Password
  else if startsWith "--pkpass=" arg = true then
    { s with options := { s.options with privateKeyPassword := some (argFrom arg 9) } }
  -- ESMTPS, SMTP with STARTTLS
  else if arg = "--esmtps" ∨ arg = "--starttls" then
    { s with options := { s.options with esmtps := true, port := 25 } }
  -- FTPS / FTP over SSL
  else if arg = "--ftps" then
    { s with options := { s.options with ftps := true, port := 21 } }
  -- FTPS / FTP over SSL check for Data Connection Sercurity: Private
  else if arg = "--ftps-dcs" then
    { s with options := { s.options with ftps := true, ftps_dcs := true, port := 21 } }
  -- POP3S / STLS for pop3
  else if arg = "--pop3s" then
    { s with options := { s.options with pop3s := true, port := 110 } }
  -- IMAPS / SARTTLS for imap
  else if arg = "--imaps" then
    { s with options := { s.options with imaps := true, port := 143 } }
  -- SSL v2
  else if arg = "--ssl2" then
    { s with options := { s.options with sslVersion := s.options.sslVersion ||| ssl_v2 } }
  -- SSL v3
  else if arg = "--ssl3" then
    { s with options := { s.options with sslVersion := s.options.sslVersion ||| ssl_v3 } }
  -- TLS v1
  else if arg = "--tls1" then
    { s with options := { s.options with sslVersion := s.options.sslVersion ||| tls_v1 } }
  -- TLS v1.1
  else if arg = "--tls1_1" then
    { s with options := { s.options with sslVersion := s.options.sslVersion ||| tls_v1_1 } }
  -- TLS v1.2
  else if arg = "--tls1_2" then
    { s with options := { s.options with sslVersion := s.options.sslVersion ||| tls_v1_2 } }
  -- all SSL & TLS protocols
  else if arg = "--all" ∨ arg = "-a" then
    { s with options := { s.options with sslVersion := s.options.sslVersion ||| ssl_tls_all } }
  -- all SSL protocols
  else if arg = "--ssl" then
    { s with options := { s.options with sslVersion := s.options.sslVersion ||| ssl_all } }
  -- all TLS protocols
  else if arg = "--tls" then
    { s with options := { s.options with sslVersion := s.options.sslVersion ||| tls_all } }
  -- SSL Bugs...
  else if arg = "--bugs" then { s with options := { s.options with sslbugs := true } }
  -- SNI with a specific Servername
  else if startsWith "--sni=" arg = true then
    { s with
      options := { s.options with sniEnable := true, sniServername := strncpy511 (argFrom arg 6) } }
  -- SNI, reuse the Hostname provided
  else if startsWith "--sni" arg = true then
    { s with options := { s.options with sniEnable := true } }
  -- TLS Certificate Status Request
  else if arg = "--status-request" ∨ arg = "--ocsp-stapling" ∨ arg = "-o" then
    { s with options := { s.options with OCSPStatusRequest := true } }
  -- SSL HTTP Get...
  else if arg = "--http" then { s with options := { s.options with http := true } }
  -- Host or anything else...
  else
    -- Host (maybe port too) if not set in a prevous loop...
    if s.options.host.length = 0 then
      -- Get host...
      let tempInt := hostEnd arg.toList
      let maxSize := arg.length
      let host := strncpy511 (String.mk (arg.toList.take tempInt))
      -- Get port (if it exists)...
      if tempInt + 1 < maxSize then
        { s with
          mode := mode_single,
          options := { s.options with host := host, port := atoi (cstr (argFrom arg (tempInt + 1))) } }
      else { s with mode := mode_single, options := { s.options with host := host } }
    -- We already have a host. Not too sure what the user is doing...
    else { s with mode := mode_help }

/-- The loop `Get program parameters` of `main` from index `argLoop` on. -/
def parseArgsFrom : Nat → List String → MainState → MainState
  | _, [], s => s
  | argLoop, arg :: rest, s => parseArgsFrom (argLoop + 1) rest (parseArg s argLoop arg)

/-- The value of `sizeof(options.sniServername == 0)`: the size of an `int`. -/
def sizeofComparison : Nat := 4

/-- The statement of `main` that follows the parameter loop, under the comment
`SNI requested with no specific Servername. Use the Hostname.` -/
def sniDefault (o : sslCheckOptions) : sslCheckOptions :=
  if o.sniEnable = true ∧ sizeofComparison ≠ 0 then
    { o with sniServername := strncpy511 o.host }
  else o

/-- The variables of `main` after the parameter loop and the SNI statement, for
the arguments `argv[1..]`. -/
def parseArgs (args : List String) : MainState :=
  { parseArgsFrom 1 args initState with
    options := sniDefault (parseArgsFrom 1 args initState).options }

/-- The server names a trace passes to `SSL_set_tlsext_host_name`, in order. -/
def serverNames (t : List Event) : List String :=
  t.filterMap (fun ev => match ev with | Event.setTlsextHostName s _ => some s | _ => none)

/-! ## readLine and the target list -/

/-- A stream open for reading: the bytes not yet read and the end-of-file
indicator that `feof` tests. -/
structure FILE where
  rest : List Nat
  eof : Bool
  deriving DecidableEq, Repr

/-- The bytes one `fgets` takes from the stream when it may store `n` of them:
it stops after a newline, after `n` bytes, or at the end of the file. -/
def fgetsBytes : Nat → List Nat → List Nat
  | 0, _ => []
  | _ + 1, [] => []
  | n + 1, c :: cs => if c = 10 then [c] else c :: fgetsBytes n cs

/-- The C library `fgets(s, size, stream)` for `size > 1`: the buffer and the
stream afterwards.  When the file ends before any byte is read the buffer is
left as it was; the end-of-file indicator is set when the read stopped because
the file ended. -/
def fgets (s : List Nat) (size : Nat) (stream : FILE) : List Nat × FILE :=
  if fgetsBytes (size - 1) stream.rest = [] then (s, { stream with eof := true })
  else
    (fgetsBytes (size - 1) stream.rest ++
        0 :: s.drop ((fgetsBytes (size - 1) stream.rest).length + 1),
      { rest := stream.rest.drop (fgetsBytes (size - 1) stream.rest).length,
        eof := stream.eof ||
          (decide ((fgetsBytes (size - 1) stream.rest).length < size - 1) &&
            (fgetsBytes (size - 1) stream.rest).getLast? != some 10) })

/-- The C library `strlen` on a buffer: the index of its first zero byte, or
nothing when the buffer holds none (the call then reads past the buffer). -/
def strlen : List Nat → Option Nat
  | [] => none
  | c :: cs => if c = 0 then some 0 else (strlen cs).map Nat.succ

/-- The bytes the loop of `readLine` clears: carriage return, newline, space. -/
def isStrip (c : Nat) : Bool := c == 13 || c == 10 || c == 32

/-- The loop `Clear the end-of-line stuff...` of `readLine`, with `n` standing
for `stripPointer + 1`.  At `stripPointer = -1` the loop reads the byte in
front of the buffer, `guard`; when that byte is one it clears, the loop writes
outside the buffer and the model gives no result. -/
def stripLoop (guard : Nat) : Nat → List Nat → Option (List Nat)
  | 0, lineFromFile => if isStrip guard = true then none else some lineFromFile
  | n + 1, lineFromFile =>
    if isStrip (lineFromFile.getD n 0) = true then stripLoop guard n (lineFromFile.set n 0)
    else some lineFromFile

/-- The function `readLine`: the buffer and the stream afterwards. -/
def readLine (guard : Nat) (input : FILE) (lineFromFile : List Nat) (maxSize : Nat) :
    Option (List Nat × FILE) :=
  -- Read line from file...
  match strlen (fgets lineFromFile maxSize input).1 with
  | none => none
  -- Clear the end-of-line stuff...
  | some n =>
    (stripLoop guard n (fgets lineFromFile maxSize input).1).map
      (fun line => (line, (fgets lineFromFile maxSize input).2))

/-- The loop `while ((line[tempInt] != 0) && (line[tempInt] != ':')) tempInt++`
of `main`: the index it stops at, or nothing when it runs off the buffer. -/
def lineHostEnd : List Nat → Option Nat
  | [] => none
  | c :: cs => if c = 0 ∨ c = 58 then some 0 else (lineHostEnd cs).map Nat.succ

/-- The block `Get host... Get port (if it exists)...` of the target-list loop
of `main`: the buffer and the options afterwards. -/
def parseTarget (line : List Nat) (o : sslCheckOptions) :
    Option (List Nat × sslCheckOptions) :=
  -- Get host...
  match lineHostEnd line with
  | none => none
  | some tempInt =>
    -- Get port (if it exists)...
    match strlen ((line.set tempInt 0).drop (tempInt + 1)) with
    | none => none
    | some n =>
      if n > 0 then
        some (line.set tempInt 0,
          { o with
            host := text ((cstring (line.set tempInt 0)).take 511),
            port := atoi (cstring ((line.set tempInt 0).drop (tempInt + 1))) })
      else
        some (line.set tempInt 0,
          { o with host := text ((cstring (line.set tempInt 0)).take 511) })

/-- What the outside world answers while `main` goes through a target list. -/
structure TargetsEnv where
  /-- The byte in front of the buffer `line` during the `i`-th `readLine`. -/
  guard : Nat → Nat
  /-- The answers during the `j`-th `testHost`. -/
  host : Nat → HostEnv

/-- The loop `while (feof(targetsFile) == 0)` of `main`, entered after the
`i`-th `readLine` and the `j`-th `testHost`: the options and the run of each
`testHost` it calls, in order.  The first argument bounds the number of
passes. -/
def targetsLoop (env : TargetsEnv) :
    Nat → Nat → Nat → List Nat → FILE → sslCheckOptions →
      Option (List (sslCheckOptions × HostRun))
  | 0, _, _, _, _, _ => none
  | fuel + 1, i, j, line, targetsFile, o =>
    if targetsFile.eof = true then some []
    else
      match strlen line with
      | none => none
      | some 0 =>
        (readLine (env.guard i) targetsFile line 1024).bind
          (fun r => targetsLoop env fuel (i + 1) j r.1 r.2 o)
      | some (_ + 1) =>
        match parseTarget line o with
        | none => none
        | some r1 =>
          -- Test the host...
          (readLine (env.guard i) targetsFile r1.1 1024).bind
            (fun r =>
              (targetsLoop env fuel (i + 1) (j + 1) r.1 r.2 r1.2).map
                (fun runs => (r1.2, testHost r1.2 (env.host j)) :: runs))

/-- The target-list branch of `main` for a file that opens with the given
content, from the first `readLine` on; `line` is the buffer as `main` finds
it. -/
def scanTargets (env : TargetsEnv) (line : List Nat) (content : List Nat)
    (o : sslCheckOptions) : Option (List (sslCheckOptions × HostRun)) :=
  (readLine (env.guard 0) { rest := content, eof := false } line 1024).bind
    (fun r => targetsLoop env (content.length + 1) 1 0 r.1 r.2 o)

/-- A line of a target list without its trailing carriage returns, newlines and
spaces. -/
def rstrip (l : List Nat) : List Nat := l.rdropWhile isStrip

/-- The options for a target given as the text `t`: the host is what stands
before the first colon (its first 511 bytes), the port what `atoi` reads after
that colon when something follows it, and the port of the options before
otherwise. -/
def targetOptions (o : sslCheckOptions) (t : List Nat) : sslCheckOptions :=
  { o with
    host := text ((t.takeWhile (fun c => c != 58)).take 511),
    port := if (t.dropWhile (fun c => c != 58)).drop 1 = [] then o.port
      else atoi ((t.dropWhile (fun c => c != 58)).drop 1) }

/-- The scans a list of lines asks for: one `testHost` for each line that does
not strip to nothing, in order, with the `j`-th answers of the world. -/
def scanLines (env : TargetsEnv) :
    Nat → sslCheckOptions → List (List Nat) → List (sslCheckOptions × HostRun)
  | _, _, [] => []
  | j, o, l :: ls =>
    if rstrip l = [] then scanLines env j o ls
    else
      (targetOptions o (rstrip l), testHost (targetOptions o (rstrip l)) (env.host j)) ::
        scanLines env (j + 1) (targetOptions o (rstrip l)) ls

/-- The content of a file whose lines each end with a newline. -/
def fileOf (lines : List (List Nat)) : List Nat := (lines.map (fun l => l ++ [10])).flatten

/-- A world for a list of three targets in which the second host does not
resolve. -/
def secondFailsEnv : TargetsEnv :=
  { guard := fun _ => 1,
    host := fun j => if j = 1 then { plainHostEnv with resolves := false } else plainHostEnv }

/-- The buffer `line` filled with zero bytes. -/
def zeroLine : List Nat := List.replicate 1024 0

/-! ## Further readings of a trace, and further examples -/

/-- The number of `SSL_shutdown` calls in a trace. -/
def shutdowns : List Event → Nat
  | [] => 0
  | Event.sslShutdown :: t => shutdowns t + 1
  | _ :: t => shutdowns t

/-- The options after `--ftps host`. -/
def ftpOptions : sslCheckOptions := { initOptions "host" with ftps := true, port := 21 }

/-- The options after `--pop3s host`. -/
def pop3Options : sslCheckOptions := { initOptions "host" with pop3s := true, port := 110 }

/-- A scripted POP3 peer that accepts STLS. -/
def pop3Peer : ConnEnv :=
  { socketFd := 3, bindStatus := 0, connectStatus := 0,
    reads := [cstr "+OK ready\r\n", cstr "+OK begin TLS\r\n"] }

/-! ## The functions without their duplicate branches -/

/-- The function `tcpConnect` with the second FTP, POP3 and IMAP branches
removed: the protocol is chosen by the precedence SMTP, FTP, POP3, IMAP, none. -/
def tcpConnectReduced (o : sslCheckOptions) (e : ConnEnv) : Int × List Event :=
  let fd := e.socketFd
  if fd < 0 then
    (0, [Event.socket fd,
         Event.err (COL_RED ++ "    ERROR: Could not open a socket." ++ RESET ++ "\n")])
  else if e.bindStatus < 0 then
    (0, [Event.socket fd, Event.bind fd e.bindStatus,
         Event.err (COL_RED ++ "    ERROR: Could not bind to port." ++ RESET ++ "\n")])
  else if e.connectStatus < 0 then
    (0, [Event.socket fd, Event.bind fd e.bindStatus, Event.connect fd e.connectStatus,
         hostPortError o "    ERROR: Could not open a connection to host " " on port " "."])
  else
    let pre := [Event.socket fd, Event.bind fd e.bindStatus, Event.connect fd e.connectStatus]
    if o.esmtps = true then
      let t1 := pre ++ [Event.recv fd (BUFFERSIZE - 1) (e.recvData 0)]
      if strncmp (e.recvData 0) (cstr "220") 3 ≠ 0 then
        (0, t1 ++ [Event.close fd,
          hostPortError o "    ERROR: The host " " on port " " did not appear to be an SMTP service."])
      else
        let t2 := t1 ++ [Event.send fd "EHLO titania.co.uk\r\n" 20,
                         Event.recv fd (BUFFERSIZE - 1) (e.recvData 1)]
        if strncmp (e.recvData 1) (cstr "250") 3 ≠ 0 then
          (0, t2 ++ [Event.close fd,
            hostPortError o "    ERROR: The SMTP service on " " port "
              " did not respond with status 250 to our HELO."])
        else
          let t3 := t2 ++ [Event.send fd "STARTTLS\r\n" 10,
                           Event.recv fd (BUFFERSIZE - 1) (e.recvData 2)]
          if strncmp (e.recvData 2) (cstr "220") 3 ≠ 0 then
            (0, t3 ++ [Event.close fd,
              hostPortError o "    ERROR: The SMTP service on " " port "
                " did not appear to support STARTTLS."])
          else
            (fd, t3)
    else if o.ftps = true then
      upgrade2 e pre "220" 3
        (hostPortError o "    ERROR: The host " " on port " " did not appear to be an FTP service.")
        false "AUTH TLS\r\n" 20 "234" 3
        (hostPortError o "    ERROR: The FTP service on " " port "
          " did not respond with status 234 to our AUTH TLS.")
    else if o.pop3s = true then
      upgrade2 e pre "+OK" 3
        (hostPortError o "    ERROR: The host " " on port " " did not appear to be an POP3 service.")
        false "STLS\r\n" 20 "+OK" 3
        (hostPortError o "    ERROR: The POP3 service on " " port "
          " did not respond with status +OK to our STLS.")
    else if o.imaps = true then
      upgrade2 e pre "* OK" 4
        (hostPortError o "    ERROR: The host " " on port " " did not appear to be an IMAP service.")
        false "AA STARTTLS\r\n" 20 "AA" 2
        (hostPortError o "    ERROR: The IMAP service on " " port "
          " did not respond with our token to our SARTTLS.")
    else
      (fd, pre)

/-- The status column of `testCipher` with the second data-channel branch
removed. -/
def showStatusReduced (o : sslCheckOptions) (cipherStatus : Int) (data : List Nat) :
    List Event :=
  if cipherStatus = 1 then
    xmlIf o "accepted\"" ++
    (if o.pout = true then [Event.out "|| Accepted || "] else [Event.out "    Accepted  "]) ++
    (if o.http = true then httpProbe o data
     else if o.ftps = true ∧ o.ftps_dcs = true then dataChannelProbe o data
     else [])
  else if cipherStatus = 0 then
    xmlIf o "rejected\"" ++
    (if o.http = true then
      (if o.pout = true then [Event.out "|| Rejected || N/A || "]
       else [Event.out "    Rejected  N/A              "])
     else
      (if o.pout = true then [Event.out "|| Rejected || "] else [Event.out "    Rejected  "]))
  else
    xmlIf o "failed\"" ++
    (if o.http = true then
      (if o.pout = true then [Event.out "|| Failed || N/A || "]
       else [Event.out "    Failed    N/A              "])
     else
      (if o.pout = true then [Event.out "|| Failed || "] else [Event.out "    Failed    "]))

/-! ## password_callback -/

/-- The writes of `strncpy(buf, src, n)`, as offsets from `buf` with the byte
stored: the first `n` bytes of the string `src`, padded with zero bytes. -/
def strncpyWrites (src : List Nat) (n : Nat) : List (Nat × Nat) :=
  (List.range n).map (fun i => (i, src.getD i 0))

/-- The function `password_callback` called with a buffer of `size` bytes and
the zero-terminated password `userdata`: the writes it makes, as offsets from
`buf` with the byte stored, in program order, and the value it returns. -/
def password_callback (size : Nat) (userdata : List Nat) : List (Nat × Nat) × Nat :=
  (strncpyWrites (cstring userdata) size ++ [((cstring userdata).length, 0)],
    (cstring userdata).length)

/-- The buffer of `size` bytes after the writes of a call, as far as they fall
inside it. -/
def bufferAfter (size : Nat) (writes : List (Nat × Nat)) (buf : List Nat) : List Nat :=
  writes.foldl (fun b w => if w.1 < size then b.set w.1 w.2 else b) buf

/-- A world in which every host of a target list resolves and accepts every
connection, and the byte in front of the buffer `line` is none the strip loop
clears. -/
def plainTargetsEnv : TargetsEnv := { guard := fun _ => 1, host := fun _ => plainHostEnv }

/-- Two worlds that give `defaultCipher` the same answers: the same results of
`socket`, `bind` and `connect`, the same bytes in the buffer after each of the
first three `recv` calls, the same answers of the engine, the same handshake
result and the same negotiated cipher.  Whatever else the peer would send (data
after the handshake, further replies, bytes past the buffer) may differ. -/
def sameAnswers (e1 e2 : PreferredEnv) : Prop :=
  e1.probe.conn.socketFd = e2.probe.conn.socketFd ∧
  e1.probe.conn.bindStatus = e2.probe.conn.bindStatus ∧
  e1.probe.conn.connectStatus = e2.probe.conn.connectStatus ∧
  e1.probe.conn.recvData 0 = e2.probe.conn.recvData 0 ∧
  e1.probe.conn.recvData 1 = e2.probe.conn.recvData 1 ∧
  e1.probe.conn.recvData 2 = e2.probe.conn.recvData 2 ∧
  e1.probe.ctxNew = e2.probe.ctxNew ∧
  e1.probe.setCipherList = e2.probe.setCipherList ∧
  e1.probe.certs = e2.probe.certs ∧
  e1.probe.sslNew = e2.probe.sslNew ∧
  e1.probe.setHostName = e2.probe.setHostName ∧
  e1.probe.setStatusType = e2.probe.setStatusType ∧
  e1.probe.sslConnect = e2.probe.sslConnect ∧
  e1.cipherBits = e2.cipherBits ∧
  e1.cipherName = e2.cipherName

/-- Whether two worlds give the same answers can be computed. -/
instance decSameAnswers (e1 e2 : PreferredEnv) : Decidable (sameAnswers e1 e2) := by
  unfold sameAnswers; infer_instance

/-- A preferred-cipher probe against an SMTP peer that says more than is read:
a fourth reply, and data after the handshake. -/
def talkativePreferredEnv : PreferredEnv :=
  { probe :=
      probeEnvOn { smtpPeer with reads := smtpPeer.reads ++ [cstr "221 bye\r\n"] } 1
        (cstr "hello"),
    cipherBits := 256, cipherName := "AES256-SHA" }

/-! ## The application protocol and its port -/

/-- The application protocols `tcpConnect` knows, and none. -/
inductive Protocol
  | smtp
  | ftp
  | pop3
  | imap
  | raw
  deriving DecidableEq, Repr

/-- The protocol whose preamble `tcpConnect` performs: the first of its tests
`esmtps`, `ftps`, `pop3s`, `imaps` that holds. -/
def selectedProtocol (o : sslCheckOptions) : Protocol :=
  if o.esmtps = true then Protocol.smtp
  else if o.ftps = true then Protocol.ftp
  else if o.pop3s = true then Protocol.pop3
  else if o.imaps = true then Protocol.imap
  else Protocol.raw

/-- The port `main` assigns with the option of a protocol, and the port it
starts with. -/
def defaultPort : Protocol → Int
  | Protocol.smtp => 25
  | Protocol.ftp => 21
  | Protocol.pop3 => 110
  | Protocol.imap => 143
  | Protocol.raw => 443

/-- The commands of the preamble of a protocol, in order. -/
def protocolCommands : Protocol → List String
  | Protocol.smtp => ["EHLO titania.co.uk\r\n", "STARTTLS\r\n"]
  | Protocol.ftp => ["AUTH TLS\r\n"]
  | Protocol.pop3 => ["STLS\r\n"]
  | Protocol.imap => ["AA STARTTLS\r\n"]
  | Protocol.raw => []

/-- The protocol an argument of the command line selects, if it is one of the
application-protocol options. -/
def protocolOption (arg : String) : Option Protocol :=
  if arg = "--esmtps" ∨ arg = "--starttls" then some Protocol.smtp
  else if arg = "--ftps" ∨ arg = "--ftps-dcs" then some Protocol.ftp
  else if arg = "--pop3s" then some Protocol.pop3
  else if arg = "--imaps" then some Protocol.imap
  else none

/-- Whether an argument has a colon with something after it: as a target it
names a port. -/
def qualified (arg : String) : Bool := decide (hostEnd arg.toList + 1 < arg.length)

/-- The flags of the protocols other than `p` are not set. -/
def otherFlagsOff (p : Protocol) (o : sslCheckOptions) : Prop :=
  (p ≠ Protocol.smtp → o.esmtps = false) ∧ (p ≠ Protocol.ftp → o.ftps = false) ∧
  (p ≠ Protocol.pop3 → o.pop3s = false) ∧ (p ≠ Protocol.imap → o.imaps = false)

/-- The host a line of a target list names: what stands before the first colon
of the stripped line. -/
def hostPart (l : List Nat) : List Nat := (rstrip l).takeWhile (fun c => c != 58)

/-- A world for a list of three targets in which the second host does not
resolve and the byte in front of the buffer `line` is a space. -/
def spaceGuardEnv : TargetsEnv := { guard := fun _ => 32, host := secondFailsEnv.host }

/-- Whether the parameter loop of `main` takes an argument as one of its
options: the disjunction of the tests of its `if` chain, in order.  An argument
that is none is taken as the target. -/
def isOptionArg (arg : String) : Prop :=
  arg = "--help" ∨
  (startsWith "--targets=" arg = true ∧ arg.length > 10) ∨
  (arg = "--no-failed" ∨ arg = "-n") ∨
  arg = "--version" ∨
  startsWith "--xml=" arg = true ∨
  startsWith "--cafile=" arg = true ∨
  arg = "-p" ∨
  startsWith "--certs=" arg = true ∨
  startsWith "--pk=" arg = true ∨
  startsWith "--pkpass=" arg = true ∨
  (arg = "--esmtps" ∨ arg = "--starttls") ∨
  arg = "--ftps" ∨
  arg = "--ftps-dcs" ∨
  arg = "--pop3s" ∨
  arg = "--imaps" ∨
  arg = "--ssl2" ∨
  arg = "--ssl3" ∨
  arg = "--tls1" ∨
  arg = "--tls1_1" ∨
  arg = "--tls1_2" ∨
  (arg = "--all" ∨ arg = "-a") ∨
  arg = "--ssl" ∨
  arg = "--tls" ∨
  arg = "--bugs" ∨
  startsWith "--sni=" arg = true ∨
  startsWith "--sni" arg = true ∨
  (arg = "--status-request" ∨ arg = "--ocsp-stapling" ∨ arg = "-o") ∨
  arg = "--http"

/-- Whether an argument is an option can be computed. -/
instance decIsOptionArg (arg : String) : Decidable (isOptionArg arg) := by
  unfold isOptionArg; infer_instance

/-- The application-protocol options of a command line, as the protocols they
select, in command-line order. -/
def protocolOptions (args : List String) : List Protocol := args.filterMap protocolOption

/-- The protocol of the application-protocol option that comes last on the
command line, none when there is no such option. -/
def lastProtocol (args : List String) : Protocol :=
  (protocolOptions args).getLast?.getD Protocol.raw

/-- The first protocol, in the order SMTP, FTP, POP3, IMAP, among the given
ones, none when none of them is given. -/
def firstProtocol (ps : List Protocol) : Protocol :=
  if Protocol.smtp ∈ ps then Protocol.smtp
  else if Protocol.ftp ∈ ps then Protocol.ftp
  else if Protocol.pop3 ∈ ps then Protocol.pop3
  else if Protocol.imap ∈ ps then Protocol.imap
  else Protocol.raw

/-- The flag of the options that stands for a protocol. -/
def flagOf (p : Protocol) (o : sslCheckOptions) : Bool :=
  match p with
  | Protocol.smtp => o.esmtps
  | Protocol.ftp => o.ftps
  | Protocol.pop3 => o.pop3s
  | Protocol.imap => o.imaps
  | Protocol.raw => false

/-! ## Theorems -/

/-- Comparing the first bytes of a buffer with a literal that has no zero byte
succeeds exactly when the buffer begins with the literal. -/
theorem strncmp_eq_zero_iff (b : List Nat) (hb : ∀ x ∈ b, x ≠ 0) (a : List Nat) :
    strncmp a b b.length = 0 ↔ b <+: a := by
  induction b generalizing a with
  | nil => simp [strncmp]
  | cons x b ih =>
    have hx : x ≠ 0 := hb x (List.mem_cons_self x b)
    have hb2 : ∀ y ∈ b, y ≠ 0 := fun y hy => hb y (List.mem_cons_of_mem x hy)
    cases a with
    | nil =>
      simp only [List.length_cons, strncmp, List.headD_nil, List.headD_cons]
      have h0 : (0 : Nat) ≠ x := fun h => hx h.symm
      simp only [ne_eq, h0, not_false_eq_true, if_true]
      constructor
      · intro h; exfalso; omega
      · intro h; exact absurd h (by simp)
    | cons y a =>
      simp only [List.length_cons, strncmp, List.headD_cons, List.tail_cons]
      by_cases hyx : y = x
      · subst hyx
        simp only [ne_eq, not_true_eq_false, if_false, hx]
        rw [ih hb2 a]
        constructor
        · intro h; exact (List.cons_prefix_cons.mpr ⟨rfl, h⟩)
        · intro h; exact (List.cons_prefix_cons.mp h).2
      · simp only [ne_eq, hyx, not_false_eq_true, if_true]
        constructor
        · intro h; exfalso; omega
        · intro h; exact absurd (List.cons_prefix_cons.mp h).1.symm hyx

/-- Cutting a reply to the buffer size does not change how it begins. -/
theorem prefix_take_of_le (b a : List Nat) (n : Nat) (h : b.length ≤ n) :
    b <+: a.take n ↔ b <+: a := by
  rw [List.prefix_take_iff]
  exact ⟨fun hp => hp.1, fun hp => ⟨hp, h⟩⟩

/-- The comparison `strncmp(buffer, lit, n)` that `tcpConnect` makes after a
read succeeds exactly when the bytes read begin with the literal. -/
theorem recv_matches_iff (e : ConnEnv) (k : Nat) (b : List Nat) (hb : ∀ x ∈ b, x ≠ 0)
    (hlen : b.length ≤ BUFFERSIZE - 1) :
    strncmp (e.recvData k) b b.length = 0 ↔ b <+: e.reply k := by
  rw [strncmp_eq_zero_iff b hb, ConnEnv.recvData, prefix_take_of_le b _ _ hlen]

/-- The literal `220` as bytes. -/
theorem cstr_220 : cstr "220" = [50, 50, 48] := by decide

/-- The literal `250` as bytes. -/
theorem cstr_250 : cstr "250" = [50, 53, 48] := by decide

/-- The IMAP greeting literal as bytes. -/
theorem cstr_star_ok : cstr "* OK" = [42, 32, 79, 75] := by decide

/-- The IMAP tag literal as bytes. -/
theorem cstr_AA : cstr "AA" = [65, 65] := by decide

/-- The first SMTP comparison of `tcpConnect`. -/
theorem smtp_cmp_220 (e : ConnEnv) (k : Nat) :
    strncmp (e.recvData k) (cstr "220") 3 = 0 ↔ cstr "220" <+: e.reply k := by
  have h := recv_matches_iff e k (cstr "220") (by rw [cstr_220]; decide)
    (by rw [cstr_220]; decide)
  rw [cstr_220] at h ⊢
  exact h

/-- The second SMTP comparison of `tcpConnect`. -/
theorem smtp_cmp_250 (e : ConnEnv) (k : Nat) :
    strncmp (e.recvData k) (cstr "250") 3 = 0 ↔ cstr "250" <+: e.reply k := by
  have h := recv_matches_iff e k (cstr "250") (by rw [cstr_250]; decide)
    (by rw [cstr_250]; decide)
  rw [cstr_250] at h ⊢
  exact h

/-- The IMAP greeting comparison of `tcpConnect`. -/
theorem imap_cmp_greeting (e : ConnEnv) (k : Nat) :
    strncmp (e.recvData k) (cstr "* OK") 4 = 0 ↔ cstr "* OK" <+: e.reply k := by
  have h := recv_matches_iff e k (cstr "* OK") (by rw [cstr_star_ok]; decide)
    (by rw [cstr_star_ok]; decide)
  rw [cstr_star_ok] at h ⊢
  exact h

/-- The IMAP tag comparison of `tcpConnect`. -/
theorem imap_cmp_tag (e : ConnEnv) (k : Nat) :
    strncmp (e.recvData k) (cstr "AA") 2 = 0 ↔ cstr "AA" <+: e.reply k := by
  have h := recv_matches_iff e k (cstr "AA") (by rw [cstr_AA]; decide)
    (by rw [cstr_AA]; decide)
  rw [cstr_AA] at h ⊢
  exact h

/-- C4. In SMTP mode, after a successful TCP connect, `tcpConnect` returns the
socket without closing it if and only if the first read begins with 220, the
second with 250 and the third with 220 (for a nonzero descriptor: it returns
nonzero exactly then).  On that path it does socket, bind, connect, read, send
EHLO, read, send STARTTLS, read, in that order and nothing else; and on every
path it sends a prefix of EHLO, STARTTLS, with EHLO only after a 220 greeting
and STARTTLS only after a 250 reply. -/
theorem tcpConnect_smtp_ready_iff (o : sslCheckOptions) (e : ConnEnv)
    (hs : o.esmtps = true) (hfd : 0 ≤ e.socketFd) (hb : 0 ≤ e.bindStatus)
    (hc : 0 ≤ e.connectStatus) :
    (((tcpConnect o e).1 = e.socketFd ∧ closes (tcpConnect o e).2 = []) ↔
      (cstr "220" <+: e.reply 0 ∧ cstr "250" <+: e.reply 1 ∧
        cstr "220" <+: e.reply 2)) ∧
    (e.socketFd ≠ 0 → ((tcpConnect o e).1 ≠ 0 ↔
      (cstr "220" <+: e.reply 0 ∧ cstr "250" <+: e.reply 1 ∧
        cstr "220" <+: e.reply 2))) ∧
    ((cstr "220" <+: e.reply 0 ∧ cstr "250" <+: e.reply 1 ∧
        cstr "220" <+: e.reply 2) →
      (tcpConnect o e).2 = smtpReadyTrace e ∧
      sends (tcpConnect o e).2 = [("EHLO titania.co.uk\r\n", 20), ("STARTTLS\r\n", 10)]) ∧
    (sends (tcpConnect o e).2 <+: [("EHLO titania.co.uk\r\n", 20), ("STARTTLS\r\n", 10)]) ∧
    (("EHLO titania.co.uk\r\n", 20) ∈ sends (tcpConnect o e).2 →
      cstr "220" <+: e.reply 0) ∧
    (("STARTTLS\r\n", 10) ∈ sends (tcpConnect o e).2 →
      cstr "220" <+: e.reply 0 ∧ cstr "250" <+: e.reply 1) := by
  have h1 : ¬ e.socketFd < 0 := by omega
  have h2 : ¬ e.bindStatus < 0 := by omega
  have h3 : ¬ e.connectStatus < 0 := by omega
  by_cases g0 : cstr "220" <+: e.reply 0
  · by_cases g1 : cstr "250" <+: e.reply 1
    · by_cases g2 : cstr "220" <+: e.reply 2
      · have c0 := (smtp_cmp_220 e 0).mpr g0
        have c1 := (smtp_cmp_250 e 1).mpr g1
        have c2 := (smtp_cmp_220 e 2).mpr g2
        simp [tcpConnect, h1, h2, h3, hs, c0, c1, c2, g0, g1, g2, sends, closes,
          smtpReadyTrace, BUFFERSIZE]
      · have c0 := (smtp_cmp_220 e 0).mpr g0
        have c1 := (smtp_cmp_250 e 1).mpr g1
        have c2 : ¬ strncmp (e.recvData 2) (cstr "220") 3 = 0 :=
          fun h => g2 ((smtp_cmp_220 e 2).mp h)
        simp [tcpConnect, h1, h2, h3, hs, c0, c1, c2, g0, g1, g2, sends, closes,
          hostPortError]
    · have c0 := (smtp_cmp_220 e 0).mpr g0
      have c1 : ¬ strncmp (e.recvData 1) (cstr "250") 3 = 0 :=
        fun h => g1 ((smtp_cmp_250 e 1).mp h)
      simp [tcpConnect, h1, h2, h3, hs, c0, c1, g0, g1, sends, closes, hostPortError]
  · have c0 : ¬ strncmp (e.recvData 0) (cstr "220") 3 = 0 :=
      fun h => g0 ((smtp_cmp_220 e 0).mp h)
    simp [tcpConnect, h1, h2, h3, hs, c0, g0, sends, closes, hostPortError]

/-- Witness for C4: the scripted peer of the specification reaches Ready, and
exactly EHLO then STARTTLS were sent. -/
theorem tcpConnect_smtp_ready_iff_witness :
    (tcpConnect smtpOptions smtpPeer).1 = 3 ∧
    sends (tcpConnect smtpOptions smtpPeer).2 =
      [("EHLO titania.co.uk\r\n", 20), ("STARTTLS\r\n", 10)] :=
  have h := tcpConnect_smtp_ready_iff smtpOptions smtpPeer (by decide) (by decide)
    (by decide) (by decide)
  ⟨(h.1.mpr (by decide)).1, (h.2.2.1 (by decide)).2⟩

/-- C5. In SMTP mode, after a successful TCP connect, a greeting that does not
begin with 220 makes `tcpConnect` return failure (0) after exactly one read and
without sending anything; the socket is closed. -/
theorem tcpConnect_smtp_bad_greeting (o : sslCheckOptions) (e : ConnEnv)
    (hs : o.esmtps = true) (hfd : 0 ≤ e.socketFd) (hb : 0 ≤ e.bindStatus)
    (hc : 0 ≤ e.connectStatus) (hg : ¬ cstr "220" <+: e.reply 0) :
    (tcpConnect o e).1 = 0 ∧ sends (tcpConnect o e).2 = [] ∧
    recvCount (tcpConnect o e).2 = 1 ∧ closes (tcpConnect o e).2 = [e.socketFd] := by
  have h1 : ¬ e.socketFd < 0 := by omega
  have h2 : ¬ e.bindStatus < 0 := by omega
  have h3 : ¬ e.connectStatus < 0 := by omega
  have c0 : ¬ strncmp (e.recvData 0) (cstr "220") 3 = 0 :=
    fun h => hg ((smtp_cmp_220 e 0).mp h)
  simp [tcpConnect, h1, h2, h3, hs, c0, sends, closes, recvCount, hostPortError]

/-- Witness for C5: the greeting `500 error` fails without EHLO being sent. -/
theorem tcpConnect_smtp_bad_greeting_witness :
    (tcpConnect smtpOptions errorPeer).1 = 0 ∧ sends (tcpConnect smtpOptions errorPeer).2 = [] ∧
    recvCount (tcpConnect smtpOptions errorPeer).2 = 1 ∧
    closes (tcpConnect smtpOptions errorPeer).2 = [3] :=
  tcpConnect_smtp_bad_greeting smtpOptions errorPeer (by decide) (by decide) (by decide)
    (by decide) (by decide)

/-- C6. In IMAP mode, after a successful TCP connect, the only command
`tcpConnect` ever sends is the STARTTLS command with the tag AA; every response
to it that does not begin with AA makes `tcpConnect` return failure (0),
whatever else the response holds; and when the greeting begins with `* OK` and
the response begins with AA, `tcpConnect` returns the socket without closing
it. -/
theorem tcpConnect_imap_tag (o : sslCheckOptions) (e : ConnEnv)
    (hs : o.esmtps = false) (hf : o.ftps = false) (hp : o.pop3s = false)
    (hi : o.imaps = true) (hfd : 0 ≤ e.socketFd) (hb : 0 ≤ e.bindStatus)
    (hc : 0 ≤ e.connectStatus) :
    (∀ c ∈ sends (tcpConnect o e).2, c.1 = "AA" ++ " STARTTLS\r\n") ∧
    (¬ cstr "AA" <+: e.reply 1 →
      (tcpConnect o e).1 = 0 ∧ closes (tcpConnect o e).2 = [e.socketFd]) ∧
    (cstr "* OK" <+: e.reply 0 → cstr "AA" <+: e.reply 1 →
      (tcpConnect o e).1 = e.socketFd ∧ closes (tcpConnect o e).2 = [] ∧
      sends (tcpConnect o e).2 = [("AA STARTTLS\r\n", 20)]) := by
  have h1 : ¬ e.socketFd < 0 := by omega
  have h2 : ¬ e.bindStatus < 0 := by omega
  have h3 : ¬ e.connectStatus < 0 := by omega
  have hlit : "AA" ++ " STARTTLS\r\n" = "AA STARTTLS\r\n" := by decide
  rw [hlit]
  by_cases g0 : cstr "* OK" <+: e.reply 0
  · have c0 := (imap_cmp_greeting e 0).mpr g0
    by_cases g1 : cstr "AA" <+: e.reply 1
    · have c1 := (imap_cmp_tag e 1).mpr g1
      simp [tcpConnect, upgrade2, h1, h2, h3, hs, hf, hp, hi, c0, c1, g0, g1, sends, closes]
    · have c1 : ¬ strncmp (e.recvData 1) (cstr "AA") 2 = 0 :=
        fun h => g1 ((imap_cmp_tag e 1).mp h)
      simp [tcpConnect, upgrade2, h1, h2, h3, hs, hf, hp, hi, c0, c1, g0, g1, sends, closes,
        hostPortError]
  · have c0 : ¬ strncmp (e.recvData 0) (cstr "* OK") 4 = 0 :=
      fun h => g0 ((imap_cmp_greeting e 0).mp h)
    simp [tcpConnect, upgrade2, h1, h2, h3, hs, hf, hp, hi, c0, g0, sends, closes,
      hostPortError]

/-- Witness for C6: a response with OK in it but without the tag in front
fails, and a tagged response reaches Ready. -/
theorem tcpConnect_imap_tag_witness :
    (tcpConnect imapOptions imapUntaggedPeer).1 = 0 ∧
    (tcpConnect imapOptions imapPeer).1 = 3 :=
  ⟨((tcpConnect_imap_tag imapOptions imapUntaggedPeer (by decide) (by decide) (by decide)
      (by decide) (by decide) (by decide) (by decide)).2.1 (by decide)).1,
   ((tcpConnect_imap_tag imapOptions imapPeer (by decide) (by decide) (by decide)
      (by decide) (by decide) (by decide) (by decide)).2.2 (by decide) (by decide)).1⟩

/-- C7 (the code at the failing input). When `connect()` fails, or when `bind()`
fails, `tcpConnect` returns 0 and the socket it opened is never closed, neither
by `tcpConnect` nor by the `testCipher` that called it; after a preamble
mismatch the same function does close the socket. -/
theorem tcpConnect_leaks_socket :
    (tcpConnect (initOptions "host") refusingPeer).1 = 0 ∧
    opens (tcpConnect (initOptions "host") refusingPeer).2 = [3] ∧
    closes (tcpConnect (initOptions "host") refusingPeer).2 = [] ∧
    (tcpConnect (initOptions "host") bindFailEnv).1 = 0 ∧
    opens (tcpConnect (initOptions "host") bindFailEnv).2 = [3] ∧
    closes (tcpConnect (initOptions "host") bindFailEnv).2 = [] ∧
    (testCipher (initOptions "host") sampleCipher (probeEnvOn refusingPeer 1 [])).1 = false ∧
    opens (testCipher (initOptions "host") sampleCipher (probeEnvOn refusingPeer 1 [])).2 = [3] ∧
    closes (testCipher (initOptions "host") sampleCipher (probeEnvOn refusingPeer 1 [])).2 = [] ∧
    opens (tcpConnect smtpOptions errorPeer).2 = [3] ∧
    closes (tcpConnect smtpOptions errorPeer).2 = [3] := by
  decide

/-! ### What tcpConnect can do -/

/-- The diagnostics of `tcpConnect` are diagnostics. -/
theorem hostPortError_isConn (o : sslCheckOptions) (a b c : String) :
    (hostPortError o a b c).isConn = true := rfl

/-- The socket calls are connection events. -/
theorem isConn_calls :
    (∀ fd, (Event.socket fd).isConn = true) ∧ (∀ fd st, (Event.bind fd st).isConn = true) ∧
    (∀ fd st, (Event.connect fd st).isConn = true) ∧
    (∀ fd m d, (Event.recv fd m d).isConn = true) ∧
    (∀ fd d n, (Event.send fd d n).isConn = true) ∧ (∀ fd, (Event.close fd).isConn = true) ∧
    (∀ s, (Event.err s).isConn = true) :=
  ⟨fun _ => rfl, fun _ _ => rfl, fun _ _ => rfl, fun _ _ _ => rfl, fun _ _ _ => rfl,
    fun _ => rfl, fun _ => rfl⟩

/-- Every event of a two-step upgrade exchange that does not echo the greeting
is a socket call or a diagnostic. -/
theorem upgrade2_isConn (e : ConnEnv) (pre : List Event) (greet : String) (n1 : Nat)
    (msg1 : Event) (cmd : String) (len : Nat) (ack : String) (n2 : Nat) (msg2 : Event)
    (hpre : pre.all Event.isConn = true) (h1 : msg1.isConn = true) (h2 : msg2.isConn = true) :
    (upgrade2 e pre greet n1 msg1 false cmd len ack n2 msg2).2.all Event.isConn = true := by
  obtain ⟨c1, c2, c3, c4, c5, c6, c7⟩ := isConn_calls
  unfold upgrade2
  simp only [Bool.false_eq_true, if_false, List.append_nil]
  split_ifs <;>
    simp only [List.all_append, List.all_cons, List.all_nil, hpre, h1, h2, c4, c5, c6,
      Bool.and_self]

/-- Every event of `tcpConnect` is a socket call or a diagnostic: it never
writes a report field and never touches the TLS engine. -/
theorem tcpConnect_isConn (o : sslCheckOptions) (e : ConnEnv) :
    (tcpConnect o e).2.all Event.isConn = true := by
  obtain ⟨c1, c2, c3, c4, c5, c6, c7⟩ := isConn_calls
  unfold tcpConnect
  dsimp only
  split_ifs <;>
    first
    | (apply upgrade2_isConn <;>
        first
        | exact hostPortError_isConn _ _ _ _
        | simp only [List.all_cons, List.all_nil, c1, c2, c3, Bool.and_self])
    | simp only [List.all_append, List.all_cons, List.all_nil, c1, c2, c3, c4, c5, c6, c7,
        hostPortError_isConn, Bool.and_self]

/-- A projection that ignores socket calls and diagnostics finds nothing in a
trace made of them. -/
theorem filterMap_isConn_nil {β : Type} (f : Event → Option β)
    (hf : ∀ ev, ev.isConn = true → f ev = none) (t : List Event)
    (ht : t.all Event.isConn = true) : t.filterMap f = [] := by
  rw [List.filterMap_eq_nil_iff]
  intro ev hev
  exact hf ev (List.all_eq_true.mp ht ev hev)

/-- The function `tcpConnect` writes no report field. -/
theorem tcpConnect_reports (o : sslCheckOptions) (e : ConnEnv) :
    reports (tcpConnect o e).2 = [] := by
  unfold reports
  rw [List.filter_eq_nil_iff]
  intro ev hev
  have h := List.all_eq_true.mp (tcpConnect_isConn o e) ev hev
  cases ev <;> simp_all [Event.isConn, Event.isReport]

/-- The function `tcpConnect` attempts no handshake. -/
theorem tcpConnect_handshakes (o : sslCheckOptions) (e : ConnEnv) :
    handshakes (tcpConnect o e).2 = [] :=
  filterMap_isConn_nil _ (fun ev h => by cases ev <;> simp_all [Event.isConn]) _
    (tcpConnect_isConn o e)

/-- The function `tcpConnect` configures no cipher list. -/
theorem tcpConnect_cipherLists (o : sslCheckOptions) (e : ConnEnv) :
    cipherLists (tcpConnect o e).2 = [] :=
  filterMap_isConn_nil _ (fun ev h => by cases ev <;> simp_all [Event.isConn]) _
    (tcpConnect_isConn o e)

/-- The function `tcpConnect` writes nothing on a TLS session. -/
theorem tcpConnect_sslWrites (o : sslCheckOptions) (e : ConnEnv) :
    sslWrites (tcpConnect o e).2 = [] :=
  filterMap_isConn_nil _ (fun ev h => by cases ev <;> simp_all [Event.isConn]) _
    (tcpConnect_isConn o e)

/-- The XML writes of a trace are those of its report. -/
theorem xmlOf_reports (t : List Event) : xmlOf (reports t) = xmlOf t := by
  induction t with
  | nil => rfl
  | cons ev t ih =>
    cases ev <;> simp_all [xmlOf, reports, Event.isReport, List.filter_cons]

/-- The standard-output fields of a trace are those of its report. -/
theorem outOf_reports (t : List Event) : outOf (reports t) = outOf t := by
  induction t with
  | nil => rfl
  | cons ev t ih =>
    cases ev <;> simp_all [outOf, reports, Event.isReport, List.filter_cons]

/-- The report of a concatenation. -/
theorem reports_append (a b : List Event) : reports (a ++ b) = reports a ++ reports b := by
  simp [reports]

/-- The XML writes of a concatenation. -/
theorem xmlOf_append (a b : List Event) : xmlOf (a ++ b) = xmlOf a ++ xmlOf b := by
  simp [xmlOf]

/-- The standard-output fields of a concatenation. -/
theorem outOf_append (a b : List Event) : outOf (a ++ b) = outOf a ++ outOf b := by
  simp [outOf]

/-- The handshakes of a concatenation. -/
theorem handshakes_append (a b : List Event) :
    handshakes (a ++ b) = handshakes a ++ handshakes b := by
  simp [handshakes]

/-- The cipher lists of a concatenation. -/
theorem cipherLists_append (a b : List Event) :
    cipherLists (a ++ b) = cipherLists a ++ cipherLists b := by
  simp [cipherLists]

/-- The TLS writes of a concatenation. -/
theorem sslWrites_append (a b : List Event) :
    sslWrites (a ++ b) = sslWrites a ++ sslWrites b := by
  simp [sslWrites]

/-- The actions of a concatenation. -/
theorem actions_append (a b : List Event) : actions (a ++ b) = actions a ++ actions b := by
  simp [actions]

/-! ### The shape of a probe that reaches the handshake -/

/-- The trace of a `testCipher` that reaches the handshake: set-up, the
handshake, the cipher status unless it is filtered, tear-down. -/
theorem testCipher_trace (o : sslCheckOptions) (c : sslCipher) (e : ProbeEnv)
    (h : reachesHandshake o e) :
    (testCipher o c e).2 = probeSetup o c e ++ [Event.sslConnect e.sslConnect] ++
      (if o.noFailed = true ∧ e.sslConnect ≠ 1 then []
       else showCipher o c e.sslConnect e.readData) ++ probeTeardown o e := by
  obtain ⟨h1, h2, h3⟩ := h
  unfold testCipher probeSetup probeTeardown
  simp only [h1, h2, h3, ne_eq, not_false_eq_true, if_true]
  by_cases hs : o.sniEnable = true <;> by_cases hh : e.setHostName = true <;>
    by_cases ho : o.OCSPStatusRequest = true <;> by_cases ht : e.setStatusType = true <;>
    by_cases hn : o.noFailed = true <;> by_cases hr : e.sslConnect = 1 <;>
    simp [hs, hh, ho, ht, hn, hr]

/-- A trace without report writes has no XML writes. -/
theorem xmlOf_nil_of_reports {t : List Event} (h : reports t = []) : xmlOf t = [] := by
  rw [← xmlOf_reports, h]; rfl

/-- A trace without report writes has no standard-output fields. -/
theorem outOf_nil_of_reports {t : List Event} (h : reports t = []) : outOf t = [] := by
  rw [← outOf_reports, h]; rfl

/-- The set-up of a probe writes no report field. -/
theorem probeSetup_reports (o : sslCheckOptions) (c : sslCipher) (e : ProbeEnv) :
    reports (probeSetup o c e) = [] := by
  unfold probeSetup
  simp only [reports_append, tcpConnect_reports]
  split_ifs <;> simp [reports, Event.isReport]

/-- The tear-down of a probe writes no report field. -/
theorem probeTeardown_reports (o : sslCheckOptions) (e : ProbeEnv) :
    reports (probeTeardown o e) = [] := by
  unfold probeTeardown
  split_ifs <;> simp [reports, Event.isReport]

/-- The report of a `testCipher` that reaches the handshake is the report of
its cipher status block, or nothing when the status is filtered. -/
theorem testCipher_reports (o : sslCheckOptions) (c : sslCipher) (e : ProbeEnv)
    (h : reachesHandshake o e) :
    reports (testCipher o c e).2 =
      if o.noFailed = true ∧ e.sslConnect ≠ 1 then []
      else reports (showCipher o c e.sslConnect e.readData) := by
  rw [testCipher_trace o c e h]
  simp only [reports_append, probeSetup_reports, probeTeardown_reports]
  split_ifs <;> simp [reports, Event.isReport]

/-- C2. With no_failed unset, a probe that reaches the handshake records exactly
one of three statuses, decided by the result `r` of `SSL_connect`: the first
standard-output field of the record is an Accepted label iff `r = 1`, a Rejected
label iff `r = 0`, and a Failed label for every other `r`; and with the XML
file open the record begins with the `cipher status` opener followed by
`accepted` iff `r = 1`, `rejected` iff `r = 0`, and `failed` otherwise. -/
theorem testCipher_status_classification (o : sslCheckOptions) (c : sslCipher)
    (e : ProbeEnv) (hnf : o.noFailed = false) (h : reachesHandshake o e) :
    (∃ s rest, outOf (testCipher o c e).2 = s :: rest ∧
      (s ∈ ["|| Accepted || ", "    Accepted  "] ↔ e.sslConnect = 1) ∧
      (s ∈ ["|| Rejected || N/A || ", "    Rejected  N/A              ",
            "|| Rejected || ", "    Rejected  "] ↔ e.sslConnect = 0) ∧
      (s ∈ ["|| Failed || N/A || ", "    Failed    N/A              ",
            "|| Failed || ", "    Failed    "] ↔ (e.sslConnect ≠ 1 ∧ e.sslConnect ≠ 0))) ∧
    (o.xmlOutput = true →
      ∃ w rest, xmlOf (testCipher o c e).2 = "  <cipher status=\"" :: w :: rest ∧
        (w = "accepted\"" ↔ e.sslConnect = 1) ∧
        (w = "rejected\"" ↔ e.sslConnect = 0) ∧
        (w = "failed\"" ↔ (e.sslConnect ≠ 1 ∧ e.sslConnect ≠ 0))) := by
  have hr := testCipher_reports o c e h
  simp only [hnf, Bool.false_eq_true, false_and, if_false] at hr
  constructor
  · rw [← outOf_reports, hr, outOf_reports]
    unfold showCipher showStatus xmlIf
    by_cases h1 : e.sslConnect = 1
    · by_cases hp : o.pout = true <;> by_cases hx : o.xmlOutput = true <;>
        simp [h1, hp, hx, outOf]
    · by_cases h0 : e.sslConnect = 0
      · by_cases hp : o.pout = true <;> by_cases hx : o.xmlOutput = true <;>
          by_cases hh : o.http = true <;> simp [h0, hp, hx, hh, outOf]
      · by_cases hp : o.pout = true <;> by_cases hx : o.xmlOutput = true <;>
          by_cases hh : o.http = true <;> simp [h1, h0, hp, hx, hh, outOf]
  · intro hx
    rw [← xmlOf_reports, hr, xmlOf_reports]
    unfold showCipher showStatus xmlIf
    by_cases h1 : e.sslConnect = 1
    · simp [h1, hx, xmlOf]
    · by_cases h0 : e.sslConnect = 0
      · simp [h0, hx, xmlOf]
      · simp [h1, h0, hx, xmlOf]

/-- Witness for C2: a rejected handshake is recorded as rejected. -/
theorem testCipher_status_classification_witness :
    ∃ w rest, xmlOf (testCipher xmlOptions sampleCipher (probeEnvOn plainPeer 0 [])).2 =
      "  <cipher status=\"" :: w :: rest ∧ w = "rejected\"" :=
  have h := (testCipher_status_classification xmlOptions sampleCipher (probeEnvOn plainPeer 0 [])
    (by decide) ⟨by decide, by decide, by decide⟩).2 (by decide)
  h.elim fun w hw => hw.elim fun rest hr => ⟨w, rest, hr.1, hr.2.2.1.mpr rfl⟩

/-! ### The data-channel check -/

/-- The set-up of a probe neither writes nor reads on the TLS session. -/
theorem probeSetup_tls (o : sslCheckOptions) (c : sslCipher) (e : ProbeEnv) :
    sslWrites (probeSetup o c e) = [] ∧ sslReads (probeSetup o c e) = [] := by
  have hw := tcpConnect_sslWrites o e.conn
  have hr : sslReads (tcpConnect o e.conn).2 = [] :=
    filterMap_isConn_nil _ (fun ev h => by cases ev <;> simp_all [Event.isConn]) _
      (tcpConnect_isConn o e.conn)
  unfold sslWrites at hw
  unfold sslReads at hr
  unfold probeSetup
  constructor
  · simp only [sslWrites, List.filterMap_append, hw]
    split_ifs <;> simp
  · simp only [sslReads, List.filterMap_append, hr]
    split_ifs <;> simp

/-- The tear-down of a probe neither writes nor reads on the TLS session. -/
theorem probeTeardown_tls (o : sslCheckOptions) (e : ProbeEnv) :
    sslWrites (probeTeardown o e) = [] ∧ sslReads (probeTeardown o e) = [] := by
  unfold probeTeardown
  constructor
  · simp only [sslWrites, List.filterMap_append]
    split_ifs <;> simp
  · simp only [sslReads, List.filterMap_append]
    split_ifs <;> simp

/-- The protocol, bits and name columns neither write nor read on the TLS
session. -/
theorem showColumns_tls (o : sslCheckOptions) (c : sslCipher) :
    sslWrites (showVersion o c.sslMethod ++ showBitsName o c) = [] ∧
    sslReads (showVersion o c.sslMethod ++ showBitsName o c) = [] := by
  have hrep : ∀ n, List.filterMap
      (fun ev => match ev with | Event.sslWrite d n => some (d, n) | _ => none)
      (List.replicate n (Event.out " ")) = [] := by
    intro n; rw [List.filterMap_eq_nil_iff]; intro a ha
    rw [List.eq_of_mem_replicate ha]
  have hrep2 : ∀ n, List.filterMap
      (fun ev => match ev with | Event.sslRead n d => some (n, d) | _ => none)
      (List.replicate n (Event.out " ")) = [] := by
    intro n; rw [List.filterMap_eq_nil_iff]; intro a ha
    rw [List.eq_of_mem_replicate ha]
  unfold showVersion showBitsName versionLabel xmlIf
  constructor
  · simp only [sslWrites, List.filterMap_append, hrep]
    split_ifs <;> simp
  · simp only [sslReads, List.filterMap_append, hrep2]
    split_ifs <;> simp

/-- C10 (counterexample). With the data-channel-check flag and the HTTP probe
flag both set and the handshake accepted, `testCipher` writes one thing on the
session, with byte count 200: `PROT P` is not sent and no 3-byte read is made. -/
theorem testCipher_http_skips_data_channel :
    ftpsDcsHttpOptions.ftps_dcs = true ∧
    handshakes (testCipher ftpsDcsHttpOptions sampleCipher
      (probeEnvOn ftpPeer 1 (cstr "200 PROT OK\r\n"))).2 = [1] ∧
    (sslWrites (testCipher ftpsDcsHttpOptions sampleCipher
      (probeEnvOn ftpPeer 1 (cstr "200 PROT OK\r\n"))).2).map Prod.snd = [200] ∧
    (sslReads (testCipher ftpsDcsHttpOptions sampleCipher
      (probeEnvOn ftpPeer 1 (cstr "200 PROT OK\r\n"))).2).map Prod.fst = [49] := by
  decide

/-- The data-channel check writes `PROT P` once, with byte count 8, and makes
one read of at most 3 bytes. -/
theorem dataChannelProbe_tls (o : sslCheckOptions) (data : List Nat) :
    sslWrites (dataChannelProbe o data) = [("PROT P\r\n", 8)] ∧
    sslReads (dataChannelProbe o data) = [(3, sslReadBytes 3 data)] := by
  unfold dataChannelProbe xmlIf
  constructor
  · simp only [sslWrites, List.filterMap_append]
    split_ifs <;> simp
  · simp only [sslReads, List.filterMap_append]
    split_ifs <;> simp

/-- The HTTP probe writes the request once, with byte count 200, and makes one
read of at most 49 bytes. -/
theorem httpProbe_tls (o : sslCheckOptions) (data : List Nat) :
    sslWrites (httpProbe o data) = [(requestBuffer o, 200)] ∧
    sslReads (httpProbe o data) = [(49, sslReadBytes 49 data)] := by
  have hrep : ∀ n, List.filterMap
      (fun ev => match ev with | Event.sslWrite d n => some (d, n) | _ => none)
      (List.replicate n (Event.out " ")) = [] := by
    intro n; rw [List.filterMap_eq_nil_iff]; intro a ha
    rw [List.eq_of_mem_replicate ha]
  have hrep2 : ∀ n, List.filterMap
      (fun ev => match ev with | Event.sslRead n d => some (n, d) | _ => none)
      (List.replicate n (Event.out " ")) = [] := by
    intro n; rw [List.filterMap_eq_nil_iff]; intro a ha
    rw [List.eq_of_mem_replicate ha]
  unfold httpProbe xmlIf
  constructor
  · simp only [sslWrites, List.filterMap_append, hrep]
    split_ifs <;> simp
  · simp only [sslReads, List.filterMap_append, hrep2]
    split_ifs <;> simp

/-- The cipher status block after an accepted handshake: the status column,
then the HTTP probe when the HTTP flag is set, else the data-channel check when
both FTP flags are set, then the other columns. -/
theorem showCipher_accepted (o : sslCheckOptions) (c : sslCipher) (data : List Nat) :
    showCipher o c 1 data =
      (xmlIf o "  <cipher status=\"" ++ xmlIf o "accepted\"" ++
        (if o.pout = true then [Event.out "|| Accepted || "] else [Event.out "    Accepted  "])) ++
      (if o.http = true then httpProbe o data
       else if o.ftps = true ∧ o.ftps_dcs = true then dataChannelProbe o data else []) ++
      (showVersion o c.sslMethod ++ showBitsName o c) := by
  unfold showCipher showStatus
  by_cases hh : o.http = true <;> by_cases hf : o.ftps = true ∧ o.ftps_dcs = true <;>
    simp [hh, hf]

/-- The status column writes and reads nothing on the TLS session. -/
theorem statusColumn_tls (o : sslCheckOptions) :
    sslWrites (xmlIf o "  <cipher status=\"" ++ xmlIf o "accepted\"" ++
      (if o.pout = true then [Event.out "|| Accepted || "] else [Event.out "    Accepted  "]))
      = [] ∧
    sslReads (xmlIf o "  <cipher status=\"" ++ xmlIf o "accepted\"" ++
      (if o.pout = true then [Event.out "|| Accepted || "] else [Event.out "    Accepted  "]))
      = [] := by
  unfold xmlIf
  constructor
  · simp only [sslWrites, List.filterMap_append]
    split_ifs <;> simp
  · simp only [sslReads, List.filterMap_append]
    split_ifs <;> simp

/-- The reads of a concatenation. -/
theorem sslReads_append (a b : List Event) :
    sslReads (a ++ b) = sslReads a ++ sslReads b := by
  simp [sslReads]

/-- With both FTP flags set, the HTTP flag unset and the handshake accepted, the
trace of `testCipher` is the set-up, the handshake, the status column, the
data-channel check, the other columns and the tear-down. -/
theorem testCipher_trace_data_channel (o : sslCheckOptions) (c : sslCipher) (e : ProbeEnv)
    (hf : o.ftps = true) (hd : o.ftps_dcs = true) (hh : o.http = false)
    (hacc : e.sslConnect = 1) (h : reachesHandshake o e) :
    (testCipher o c e).2 = probeSetup o c e ++ [Event.sslConnect 1] ++
      ((xmlIf o "  <cipher status=\"" ++ xmlIf o "accepted\"" ++
          (if o.pout = true then [Event.out "|| Accepted || "]
           else [Event.out "    Accepted  "])) ++
        dataChannelProbe o e.readData ++
        (showVersion o c.sslMethod ++ showBitsName o c)) ++ probeTeardown o e := by
  have ht := testCipher_trace o c e h
  have hno : ¬ (o.noFailed = true ∧ e.sslConnect ≠ 1) := fun hc => hc.2 hacc
  have hh' : ¬ o.http = true := by simp [hh]
  have hfd : o.ftps = true ∧ o.ftps_dcs = true := ⟨hf, hd⟩
  rw [if_neg hno, hacc, showCipher_accepted, if_neg hh', if_pos hfd] at ht
  exact ht

/-- The data-channel check is a contiguous part of that trace. -/
theorem dataChannelProbe_in_trace (o : sslCheckOptions) (c : sslCipher) (e : ProbeEnv)
    (hf : o.ftps = true) (hd : o.ftps_dcs = true) (hh : o.http = false)
    (hacc : e.sslConnect = 1) (h : reachesHandshake o e) :
    dataChannelProbe o e.readData <:+: (testCipher o c e).2 := by
  rw [testCipher_trace_data_channel o c e hf hd hh hacc h]
  exact ⟨probeSetup o c e ++ [Event.sslConnect 1] ++
    (xmlIf o "  <cipher status=\"" ++ xmlIf o "accepted\"" ++
      (if o.pout = true then [Event.out "|| Accepted || "]
       else [Event.out "    Accepted  "])),
    (showVersion o c.sslMethod ++ showBitsName o c) ++ probeTeardown o e,
    by simp only [List.append_assoc]⟩

/-- C10 (amended). When both FTP flags are set (as `--ftps-dcs` sets them), the
handshake is accepted and the HTTP probe flag is not set, `testCipher` sends
`PROT P` (8 bytes) and makes the 3-byte read, for every setting of the other
flags, no_failed included, and that is all it writes and reads on the session.
When the HTTP probe flag is set, it sends the HTTP request (200 bytes) and makes
the 49-byte read instead, and `PROT P` is not sent. -/
theorem testCipher_data_channel_probe (o : sslCheckOptions) (c : sslCipher) (e : ProbeEnv)
    (hf : o.ftps = true) (hd : o.ftps_dcs = true) (hacc : e.sslConnect = 1)
    (h : reachesHandshake o e) :
    (o.http = false →
      dataChannelProbe o e.readData <:+: (testCipher o c e).2 ∧
      sslWrites (testCipher o c e).2 = [("PROT P\r\n", 8)] ∧
      sslReads (testCipher o c e).2 = [(3, sslReadBytes 3 e.readData)]) ∧
    (o.http = true →
      sslWrites (testCipher o c e).2 = [(requestBuffer o, 200)] ∧
      sslReads (testCipher o c e).2 = [(49, sslReadBytes 49 e.readData)]) := by
  have ht := testCipher_trace o c e h
  have hno : ¬ (o.noFailed = true ∧ e.sslConnect ≠ 1) := fun hc => hc.2 hacc
  rw [if_neg hno, hacc, showCipher_accepted] at ht
  have hsw : sslWrites [Event.sslConnect 1] = [] := rfl
  have hsr : sslReads [Event.sslConnect 1] = [] := rfl
  constructor
  · intro hh
    have hh' : ¬ o.http = true := by simp [hh]
    have hfd : o.ftps = true ∧ o.ftps_dcs = true := ⟨hf, hd⟩
    rw [if_neg hh', if_pos hfd] at ht
    refine ⟨dataChannelProbe_in_trace o c e hf hd hh hacc h, ?_, ?_⟩
    · rw [ht]
      simp only [sslWrites_append, (probeSetup_tls o c e).1, (probeTeardown_tls o e).1,
        (showColumns_tls o c).1, (statusColumn_tls o).1, (dataChannelProbe_tls o _).1, hsw,
        List.nil_append, List.append_nil]
    · rw [ht]
      simp only [sslReads_append, (probeSetup_tls o c e).2, (probeTeardown_tls o e).2,
        (showColumns_tls o c).2, (statusColumn_tls o).2, (dataChannelProbe_tls o _).2, hsr,
        List.nil_append, List.append_nil]
  · intro hh
    rw [if_pos hh] at ht
    refine ⟨?_, ?_⟩
    · rw [ht]
      simp only [sslWrites_append, (probeSetup_tls o c e).1, (probeTeardown_tls o e).1,
        (showColumns_tls o c).1, (statusColumn_tls o).1, (httpProbe_tls o _).1, hsw,
        List.nil_append, List.append_nil]
    · rw [ht]
      simp only [sslReads_append, (probeSetup_tls o c e).2, (probeTeardown_tls o e).2,
        (showColumns_tls o c).2, (statusColumn_tls o).2, (httpProbe_tls o _).2, hsr,
        List.nil_append, List.append_nil]

/-- Witness for C10: with `--ftps-dcs` and an accepted handshake, `PROT P` is
sent and three bytes are read. -/
theorem testCipher_data_channel_probe_witness :
    sslWrites (testCipher ftpsDcsOptions sampleCipher
      (probeEnvOn ftpPeer 1 (cstr "200 PROT OK\r\n"))).2 = [("PROT P\r\n", 8)] ∧
    sslReads (testCipher ftpsDcsOptions sampleCipher
      (probeEnvOn ftpPeer 1 (cstr "200 PROT OK\r\n"))).2 = [(3, cstr "200")] :=
  have h := (testCipher_data_channel_probe ftpsDcsOptions sampleCipher
    (probeEnvOn ftpPeer 1 (cstr "200 PROT OK\r\n")) (by decide) (by decide) (by decide)
    ⟨by decide, by decide, by decide⟩).1 (by decide)
  ⟨h.2.1, h.2.2⟩

/-! ### The reply to PROT P -/

/-- One byte and the terminator give a digit value of at most 9. -/
theorem atoiDigits1_bound (a : Nat) :
    0 ≤ atoiDigits [a, 0] 0 ∧ atoiDigits [a, 0] 0 ≤ 9 := by
  simp only [atoiDigits, isdigit]
  split_ifs <;> simp_all

/-- Two bytes and the terminator give a digit value of at most 99. -/
theorem atoiDigits2_bound (a b : Nat) :
    0 ≤ atoiDigits [a, b, 0] 0 ∧ atoiDigits [a, b, 0] 0 ≤ 99 := by
  simp only [atoiDigits, isdigit]
  split_ifs <;> simp_all <;> omega

/-- Three bytes and the terminator give the digit value 200 only as `200`. -/
theorem atoiDigits3_eq (x y z : Nat) :
    atoiDigits [x, y, z, 0] 0 = 200 ↔ x = 50 ∧ y = 48 ∧ z = 48 := by
  simp only [atoiDigits, isdigit]
  split_ifs <;> simp_all <;> omega

/-- The sign step of `atoi` on a nonempty buffer. -/
theorem atoiSign_cons (x : Nat) (cs : List Nat) :
    atoiSign (x :: cs) =
      if x = 45 then - atoiDigits cs 0 else if x = 43 then atoiDigits cs 0
      else atoiDigits (x :: cs) 0 := by
  by_cases h1 : x = 45
  · subst h1; rfl
  · by_cases h2 : x = 43
    · subst h2; rfl
    · rw [if_neg h1, if_neg h2]
      unfold atoiSign
      split
      · simp_all
      · simp_all
      · rfl

/-- Three bytes and the terminator give a digit value of at most 999. -/
theorem atoiDigits3_bound (a b c : Nat) :
    0 ≤ atoiDigits [a, b, c, 0] 0 ∧ atoiDigits [a, b, c, 0] 0 ≤ 999 := by
  simp only [atoiDigits, isdigit]
  split_ifs <;> simp_all <;> omega

/-- On one byte and the terminator the number spelled stays within one digit. -/
theorem atoiText1_bound (z : Nat) : -9 ≤ atoiText [z, 0] ∧ atoiText [z, 0] ≤ 9 := by
  have hz : atoiText [0] = 0 := by decide
  have hd := atoiDigits1_bound z
  have h0 : atoiDigits [0] 0 = 0 := by decide
  unfold atoiText
  split_ifs
  · rw [hz]; omega
  · rw [atoiSign_cons]
    split_ifs <;> simp_all
    omega

/-- On two bytes and the terminator the number spelled stays within two digits. -/
theorem atoiText2_bound (y z : Nat) :
    -99 ≤ atoiText [y, z, 0] ∧ atoiText [y, z, 0] ≤ 99 := by
  have h1 := atoiText1_bound z
  have hd1 := atoiDigits1_bound z
  have hd2 := atoiDigits2_bound y z
  unfold atoiText
  split_ifs
  · omega
  · rw [atoiSign_cons]
    split_ifs <;> omega

/-- On three bytes and the terminator the number spelled stays within three
digits. -/
theorem atoiText3_bound (x y z : Nat) :
    -999 ≤ atoiText [x, y, z, 0] ∧ atoiText [x, y, z, 0] ≤ 999 := by
  have h2 := atoiText2_bound y z
  have hd2 := atoiDigits2_bound y z
  have hd3 := atoiDigits3_bound x y z
  unfold atoiText
  split_ifs
  · omega
  · rw [atoiSign_cons]
    split_ifs <;> omega

/-- On three bytes and the terminator the number spelled is 200 only for `200`. -/
theorem atoiText3_eq_200 (x y z : Nat) :
    atoiText [x, y, z, 0] = 200 ↔ x = 50 ∧ y = 48 ∧ z = 48 := by
  have h2 := atoiText2_bound y z
  have hd2 := atoiDigits2_bound y z
  have hd3 := atoiDigits3_eq x y z
  unfold atoiText
  split_ifs with hs
  · have : x ≠ 50 := by rintro rfl; simp [isspace] at hs
    constructor
    · intro h; omega
    · intro h; exact absurd h.1 this
  · rw [atoiSign_cons]
    split_ifs with h45 h43
    · subst h45; constructor
      · intro h; omega
      · intro h; omega
    · subst h43; constructor
      · intro h; omega
      · intro h; omega
    · exact hd3

/-- A number that fits an `int` is what `atoi` returns for it. -/
theorem intOf_longOf_small (v : Int) (h1 : -2147483648 ≤ v) (h2 : v ≤ 2147483647) :
    intOf (longOf v) = v := by
  have hl : longOf v = v := by
    unfold longOf
    rw [if_neg (by omega), if_neg (by omega)]
  rw [hl]
  unfold intOf
  omega

/-- On one byte and the terminator `atoi` stays within one digit. -/
theorem atoi1_bound (z : Nat) : -9 ≤ atoi [z, 0] ∧ atoi [z, 0] ≤ 9 := by
  have h := atoiText1_bound z
  unfold atoi
  rw [intOf_longOf_small _ (by omega) (by omega)]
  exact h

/-- On two bytes and the terminator `atoi` stays within two digits. -/
theorem atoi2_bound (y z : Nat) : -99 ≤ atoi [y, z, 0] ∧ atoi [y, z, 0] ≤ 99 := by
  have h := atoiText2_bound y z
  unfold atoi
  rw [intOf_longOf_small _ (by omega) (by omega)]
  exact h

/-- On three bytes and the terminator `atoi` gives 200 only for `200`. -/
theorem atoi3_eq_200 (x y z : Nat) :
    atoi [x, y, z, 0] = 200 ↔ x = 50 ∧ y = 48 ∧ z = 48 := by
  have h := atoiText3_bound x y z
  unfold atoi
  rw [intOf_longOf_small _ (by omega) (by omega)]
  exact atoiText3_eq_200 x y z

/-- `SSL_read(ssl, buffer, 3)` returns 3 exactly when the peer delivers at least
three bytes. -/
theorem sslReadSize3 (data : List Nat) : sslReadSize 3 data = 3 ↔ 3 ≤ data.length := by
  simp only [sslReadSize, sslReadBytes, List.length_take]
  omega

/-- C9. In the data-channel check of `testCipher` (both FTP flags set, HTTP flag
unset, handshake accepted): the test `atoi(buffer) == 200` agrees with a byte
comparison against `200` on every 3-byte reply; the check is part of the trace;
when the 3-byte read comes back full, the status printed is the OK line if and
only if the three bytes are exactly `200` (the NA line otherwise) and the reply
is written to the XML file when it is open; when fewer than 3 bytes arrive, no
data-channel status is written at all. -/
theorem testCipher_data_channel_status (o : sslCheckOptions) (c : sslCipher) (e : ProbeEnv)
    (hf : o.ftps = true) (hd : o.ftps_dcs = true) (hh : o.http = false)
    (hacc : e.sslConnect = 1) (h : reachesHandshake o e) :
    (∀ b : List Nat, b.length = 3 → (atoi (b ++ [0]) = 200 ↔ b = cstr "200")) ∧
    dataChannelProbe o e.readData <:+: (testCipher o c e).2 ∧
    (3 ≤ e.readData.length →
      dataChannelProbe o e.readData =
        [Event.sslWrite "PROT P\r\n" 8, Event.sslRead 3 (e.readData.take 3)] ++
        (if e.readData.take 3 = cstr "200" then
          [Event.out "Data-Channel-Encryption-Support: OK (200)  "]
         else
          [Event.out ("Data-Channel-Encryption-Support: NA (" ++
            text (cstring (e.readData.take 3)) ++ ")  ")]) ++
        xmlIf o (" data-connection-security-private=\"" ++
          text (cstring (e.readData.take 3)) ++ "\"")) ∧
    (e.readData.length < 3 →
      dataChannelProbe o e.readData =
        [Event.sslWrite "PROT P\r\n" 8, Event.sslRead 3 e.readData]) := by
  have hatoi : ∀ b : List Nat, b.length = 3 → (atoi (b ++ [0]) = 200 ↔ b = cstr "200") := by
    intro b hb
    match b, hb with
    | [x, y, z], _ =>
      have h200 : cstr "200" = [50, 48, 48] := by decide
      rw [h200]
      simp only [List.cons_append, List.nil_append, atoi3_eq_200, List.cons.injEq, and_true]
  refine ⟨hatoi, dataChannelProbe_in_trace o c e hf hd hh hacc h, ?_, ?_⟩
  · intro hlen
    have hsz := (sslReadSize3 e.readData).mpr hlen
    have hl3 : (e.readData.take 3).length = 3 := by
      rw [List.length_take]; omega
    unfold dataChannelProbe
    rw [if_pos hsz]
    simp only [sslReadBytes]
    by_cases hb : e.readData.take 3 = cstr "200"
    · have ha := (hatoi _ hl3).mpr hb
      rw [if_pos ha, if_pos hb, hb]
      have ht : "Data-Channel-Encryption-Support: OK (" ++ text (cstring (cstr "200")) ++ ")  "
          = "Data-Channel-Encryption-Support: OK (200)  " := by decide
      rw [ht, List.append_assoc]
    · have ha : ¬ atoi (e.readData.take 3 ++ [0]) = 200 := fun hc => hb ((hatoi _ hl3).mp hc)
      rw [if_neg ha, if_neg hb, List.append_assoc]
  · intro hlen
    have hsz : ¬ sslReadSize 3 e.readData = 3 := by
      rw [sslReadSize3]; omega
    unfold dataChannelProbe
    rw [if_neg hsz]
    simp only [sslReadBytes, List.append_nil]
    rw [List.take_of_length_le (by omega)]

/-- Witness for C9: the reply `200` is reported as OK. -/
theorem testCipher_data_channel_status_witness :
    dataChannelProbe ftpsDcsOptions (cstr "200 PROT OK\r\n") =
      [Event.sslWrite "PROT P\r\n" 8, Event.sslRead 3 (cstr "200"),
       Event.out "Data-Channel-Encryption-Support: OK (200)  ",
       Event.xml " data-connection-security-private=\"200\""] :=
  ((testCipher_data_channel_status ftpsDcsOptions sampleCipher
    (probeEnvOn ftpPeer 1 (cstr "200 PROT OK\r\n")) (by decide) (by decide) (by decide)
    (by decide) ⟨by decide, by decide, by decide⟩).2.2.1 (by decide)).trans (by decide)

/-! ### The HTTP status -/

/-- On the 50-byte buffer, whose last byte is zero, the scan started at `loop`
with enough iterations stops at the first byte from `loop` on that ends the
status text. -/
theorem httpScan_eq (buf : List Nat) (hlen : buf.length = 50) (h49 : buf.getD 49 0 = 0) :
    ∀ fuel loop, loop ≤ 49 → 49 - loop ≤ fuel →
      httpScan buf fuel loop = loop + ((buf.drop loop).takeWhile statusByte).length := by
  intro fuel
  induction fuel with
  | zero =>
    intro loop h1 h2
    have hl : loop = 49 := by omega
    subst hl
    have hd : buf.drop 49 = buf[49] :: buf.drop 50 := List.drop_eq_getElem_cons (by omega)
    have hg : buf[49] = 0 := by
      rw [List.getD_eq_getElem?_getD, List.getElem?_eq_getElem (by omega)] at h49
      simpa using h49
    rw [hd, hg]
    simp [httpScan, statusByte]
  | succ fuel ih =>
    intro loop h1 h2
    have hlt : loop < buf.length := by omega
    have hd : buf.drop loop = buf[loop] :: buf.drop (loop + 1) :=
      List.drop_eq_getElem_cons hlt
    have hg : buf.getD loop 0 = buf[loop] := by
      rw [List.getD_eq_getElem?_getD, List.getElem?_eq_getElem hlt]; rfl
    unfold httpScan
    rw [hg, hd]
    by_cases hl : loop < 49
    · by_cases hp : statusByte buf[loop] = true
      · have hc : buf[loop] ≠ 0 ∧ buf[loop] ≠ 13 ∧ buf[loop] ≠ 10 := by
          simpa [statusByte, and_assoc] using hp
        rw [if_pos ⟨hl, hc⟩, ih (loop + 1) (by omega) (by omega), List.takeWhile_cons, if_pos hp]
        simp only [List.length_cons]
        omega
      · have hc : ¬ (loop < 49 ∧ buf[loop] ≠ 0 ∧ buf[loop] ≠ 13 ∧ buf[loop] ≠ 10) := by
          intro hc
          apply hp
          simpa [statusByte, and_assoc] using hc.2
        rw [if_neg hc, List.takeWhile_cons, if_neg hp]
        simp
    · have hl49 : loop = 49 := by omega
      subst hl49
      have hg49 : buf[49] = 0 := by rw [← hg]; exact h49
      have hc : ¬ (49 < 49 ∧ buf[49] ≠ 0 ∧ buf[49] ≠ 13 ∧ buf[49] ≠ 10) := by omega
      rw [if_neg hc, List.takeWhile_cons]
      simp [hg49, statusByte]

/-- Writing the zero byte where the status text ends makes the C string equal to
the status text. -/
theorem takeWhile_set_zero (L : List Nat) :
    (L.takeWhile statusByte).length < L.length →
    (L.set (L.takeWhile statusByte).length 0).takeWhile (fun b => b != 0) =
      L.takeWhile statusByte := by
  induction L with
  | nil => intro h; simp at h
  | cons x xs ih =>
    intro h
    by_cases hp : statusByte x = true
    · have hx : (x != 0) = true := by
        simp only [statusByte, Bool.and_eq_true] at hp
        exact hp.1.1
      rw [List.takeWhile_cons, if_pos hp] at h ⊢
      simp only [List.length_cons, List.set_cons_succ, List.takeWhile_cons, hx, if_true]
      rw [ih (by simpa using h)]
    · rw [List.takeWhile_cons, if_neg hp]
      simp

/-- The zero padding of the buffer ends the status text. -/
theorem takeWhile_append_zeros (a : List Nat) (n : Nat) (hn : 0 < n) :
    (a ++ List.replicate n 0).takeWhile statusByte = a.takeWhile statusByte := by
  induction a with
  | nil =>
    cases n with
    | zero => omega
    | succ n => simp [List.replicate_succ, statusByte]
  | cons x xs ih =>
    simp only [List.cons_append, List.takeWhile_cons, ih]

/-- The string `buffer + 9` that `testCipher` prints is the bytes read from
offset 9 up to the first zero byte, carriage return or line feed. -/
theorem httpStatus_eq (data : List Nat) (hn : 9 < (sslReadBytes 49 data).length) :
    httpStatus data = ((data.take 49).drop 9).takeWhile statusByte := by
  have hle : (sslReadBytes 49 data).length ≤ 49 := by
    simp only [sslReadBytes, List.length_take]; omega
  have hlen : (httpBuffer data).length = 50 := by
    simp only [httpBuffer, List.length_append, List.length_replicate]; omega
  have h49 : (httpBuffer data).getD 49 0 = 0 := by
    rw [List.getD_eq_getElem?_getD, httpBuffer, List.getElem?_append_right hle,
      List.getElem?_replicate]
    split_ifs <;> rfl
  have hscan := httpScan_eq (httpBuffer data) hlen h49 40 9 (by omega) (by omega)
  have hdrop : (httpBuffer data).drop 9 =
      (sslReadBytes 49 data).drop 9 ++ List.replicate (50 - (sslReadBytes 49 data).length) 0 := by
    rw [httpBuffer, List.drop_append_of_le_length (by omega)]
  have htw : ((httpBuffer data).drop 9).takeWhile statusByte =
      ((sslReadBytes 49 data).drop 9).takeWhile statusByte := by
    rw [hdrop, takeWhile_append_zeros _ _ (by omega)]
  have hj : (((httpBuffer data).drop 9).takeWhile statusByte).length <
      ((httpBuffer data).drop 9).length := by
    rw [htw, List.length_drop, hlen]
    have := (List.takeWhile_sublist statusByte (l := (sslReadBytes 49 data).drop 9)).length_le
    rw [List.length_drop] at this
    omega
  unfold httpStatus cstring
  rw [hscan, List.drop_set, if_neg (by omega), Nat.add_sub_cancel_left,
    takeWhile_set_zero _ hj, htw]
  rfl

/-- `SSL_read(ssl, buffer, 49)` returns more than 9 exactly when more than nine
bytes were stored. -/
theorem sslReadSize49 (data : List Nat) :
    sslReadSize 49 data > 9 ↔ 9 < (data.take 49).length := by
  simp only [sslReadSize, sslReadBytes]
  omega

/-- C8 (counterexample). A response of 18 bytes with a zero byte at offset 10:
the status recorded is `2`, not the bytes from offset 9 up to the first CR or
LF. -/
theorem httpStatus_stops_at_zero_byte :
    nulResponse.length = 18 ∧
    (nulResponse.drop 9).takeWhile (fun b => b != 13 && b != 10) = [50, 0, 48, 48, 32, 79, 75] ∧
    httpStatus nulResponse = [50] ∧
    xmlOf (testCipher httpXmlOptions sampleCipher (probeEnvOn plainPeer 1 nulResponse)).2 =
      ["  <cipher status=\"", "accepted\"", " http=\"2\"", " sslversion=\"",
       "TLSv1\" bits=\"", "128\" cipher=\"AES128-SHA\" />\n"] := by
  decide

/-- C8 (amended). In `testCipher` with the HTTP probe flag set and an accepted
handshake, for every response, of which `n` bytes (at most 49) are read: the
HTTP probe is part of the trace; the `http` attribute is written to the open XML
file if and only if `n > 9`; and then its value is the bytes of the response
from offset 9 up to, and excluding, the first zero byte, CR or LF (or the end
of the bytes read), so it holds no zero byte and no line break and has at most
40 bytes. -/
theorem testCipher_http_status (o : sslCheckOptions) (c : sslCipher) (e : ProbeEnv)
    (hh : o.http = true) (hacc : e.sslConnect = 1) (h : reachesHandshake o e) :
    httpProbe o e.readData <:+: (testCipher o c e).2 ∧
    xmlOf (httpProbe o e.readData) =
      (if o.xmlOutput = true ∧ 9 < (e.readData.take 49).length then
        [" http=\"" ++ text (httpStatus e.readData) ++ "\""] else []) ∧
    (o.xmlOutput = true →
      xmlOf (testCipher o c e).2 = ["  <cipher status=\"", "accepted\""] ++
        xmlOf (httpProbe o e.readData) ++
        xmlOf (showVersion o c.sslMethod ++ showBitsName o c)) ∧
    (9 < (e.readData.take 49).length →
      httpStatus e.readData = ((e.readData.take 49).drop 9).takeWhile statusByte ∧
      (∀ b ∈ httpStatus e.readData, b ≠ 0 ∧ b ≠ 13 ∧ b ≠ 10) ∧
      (httpStatus e.readData).length ≤ 40) := by
  have ht := testCipher_trace o c e h
  have hno : ¬ (o.noFailed = true ∧ e.sslConnect ≠ 1) := fun hc => hc.2 hacc
  rw [if_neg hno, hacc, showCipher_accepted, if_pos hh] at ht
  have hrep : ∀ n, xmlOf (List.replicate n (Event.out " ")) = [] := by
    intro n
    unfold xmlOf
    rw [List.filterMap_eq_nil_iff]; intro a ha
    rw [List.eq_of_mem_replicate ha]
  refine ⟨?_, ?_, ?_, ?_⟩
  · rw [ht]
    exact ⟨probeSetup o c e ++ [Event.sslConnect 1] ++
      (xmlIf o "  <cipher status=\"" ++ xmlIf o "accepted\"" ++
        (if o.pout = true then [Event.out "|| Accepted || "]
         else [Event.out "    Accepted  "])),
      (showVersion o c.sslMethod ++ showBitsName o c) ++ probeTeardown o e,
      by simp only [List.append_assoc]⟩
  · unfold httpProbe xmlIf
    by_cases hn : 9 < (e.readData.take 49).length
    · have hs := (sslReadSize49 e.readData).mpr hn
      by_cases hx : o.xmlOutput = true
      · rw [if_pos hs, if_pos (And.intro hx hn)]
        by_cases hp : o.pout = true <;>
          simp [hx, hp, xmlOf_append, hrep] <;> simp [xmlOf]
      · have hc1 : ¬ (o.xmlOutput = true ∧ 9 < (e.readData.take 49).length) :=
          fun hc => hx hc.1
        rw [if_pos hs, if_neg hc1]
        by_cases hp : o.pout = true <;>
          simp [hx, hp, xmlOf_append, hrep] <;> simp [xmlOf]
    · have hs : ¬ sslReadSize 49 e.readData > 9 := fun hc => hn ((sslReadSize49 _).mp hc)
      have hc2 : ¬ (o.xmlOutput = true ∧ 9 < (e.readData.take 49).length) :=
        fun hc => hn hc.2
      rw [if_neg hs, if_neg hc2]
      by_cases hp : o.pout = true <;> simp [hp, xmlOf]
  · intro hx
    rw [ht]
    simp only [xmlOf_append, xmlOf_nil_of_reports (probeSetup_reports o c e),
      xmlOf_nil_of_reports (probeTeardown_reports o e)]
    unfold xmlIf
    by_cases hp : o.pout = true <;> simp [hx, hp, xmlOf]
  · intro hn
    have hn' : 9 < (sslReadBytes 49 e.readData).length := hn
    have heq := httpStatus_eq e.readData hn'
    refine ⟨heq, ?_, ?_⟩
    · intro b hb
      rw [heq] at hb
      have hp := List.mem_takeWhile_imp hb
      simpa [statusByte, and_assoc] using hp
    · rw [heq]
      have h1 := (List.takeWhile_sublist statusByte
        (l := (e.readData.take 49).drop 9)).length_le
      rw [List.length_drop, List.length_take] at h1
      omega

/-- Witness for C8: a well-formed response yields the status `200 OK`. -/
theorem testCipher_http_status_witness :
    httpStatus okResponse = cstr "200 OK" ∧
    xmlOf (httpProbe httpXmlOptions okResponse) = [" http=\"200 OK\""] :=
  have h := testCipher_http_status httpXmlOptions sampleCipher (probeEnvOn plainPeer 1 okResponse)
    (by decide) (by decide) ⟨by decide, by decide, by decide⟩
  ⟨(h.2.2.2 (by decide)).1.trans (by decide), h.2.1.trans (by decide)⟩

/-! ### One iteration of the cipher loop -/

/-- A diagnostic of `loadCerts` is not a report write. -/
theorem certError_isReport (msg : String) : (certError msg).isReport = false := rfl

/-- The function `loadCerts` writes no report field. -/
theorem loadCerts_reports (o : sslCheckOptions) (e : CertEnv) :
    reports (loadCerts o e).2 = [] := by
  have h1 : reports (loadSeparate e).2 = [] := by
    unfold loadSeparate
    split_ifs <;> simp [reports, certError_isReport]
  have h2 : reports (loadPkcs12 e).2 = [] := by
    unfold loadPkcs12
    split_ifs <;> simp [reports, certError_isReport]
  have h3 : ∀ r : Bool × List Event, reports r.2 = [] → reports (checkCertKey e r).2 = [] := by
    intro r hr
    unfold checkCertKey
    split_ifs <;> simp [reports_append, hr]
    simp [reports, certError_isReport]
  unfold loadCerts
  apply h3
  split_ifs
  · exact h1
  · exact h2
  · rfl

/-- The status `testCipher` returns: true exactly when the probe reaches the
handshake and the SNI and OCSP requests, when enabled, are accepted by the engine. -/
theorem testCipher_status (o : sslCheckOptions) (c : sslCipher) (e : ProbeEnv) :
    (testCipher o c e).1 = true ↔
      reachesHandshake o e ∧ (o.sniEnable = true → e.setHostName = true) ∧
      (o.OCSPStatusRequest = true → e.setStatusType = true) := by
  unfold testCipher reachesHandshake
  dsimp only
  by_cases h1 : (tcpConnect o e.conn).1 ≠ 0 <;> by_cases h2 : e.setCipherList ≠ 0 <;>
    by_cases h3 : e.sslNew = true <;> by_cases hs : o.sniEnable = true <;>
    by_cases hh : e.setHostName = true <;> by_cases ho : o.OCSPStatusRequest = true <;>
    by_cases ht : e.setStatusType = true <;> simp_all


/-- A `testCipher` that fails before the handshake writes no report field and
attempts no handshake. -/
theorem testCipher_reports_unreached (o : sslCheckOptions) (c : sslCipher) (e : ProbeEnv)
    (h : ¬ reachesHandshake o e) :
    reports (testCipher o c e).2 = [] ∧ handshakes (testCipher o c e).2 = [] := by
  have hr := tcpConnect_reports o e.conn
  have hh := tcpConnect_handshakes o e.conn
  unfold reachesHandshake at h
  unfold testCipher
  dsimp only
  by_cases h1 : (tcpConnect o e.conn).1 ≠ 0
  · by_cases h2 : e.setCipherList ≠ 0
    · have h3 : ¬ e.sslNew = true := fun h3 => h ⟨h1, h2, h3⟩
      rw [if_pos h1, if_pos h2, if_neg h3]
      simp [reports_append, handshakes_append, hr, hh]
      simp [reports, handshakes, Event.isReport]
    · rw [if_pos h1, if_neg h2]
      simp [reports_append, handshakes_append, hr, hh]
      simp [reports, handshakes, Event.isReport]
  · rw [if_neg h1]
    exact ⟨hr, hh⟩

/-- The set-up of a probe attempts no handshake and configures the cipher of the
catalog entry, once. -/
theorem probeSetup_handshakes (o : sslCheckOptions) (c : sslCipher) (e : ProbeEnv) :
    handshakes (probeSetup o c e) = [] ∧ cipherLists (probeSetup o c e) = [c.name] := by
  have hh := tcpConnect_handshakes o e.conn
  have hc := tcpConnect_cipherLists o e.conn
  unfold probeSetup
  constructor
  · simp only [handshakes_append, hh]
    split_ifs <;> simp [handshakes]
  · simp only [cipherLists_append, hc]
    split_ifs <;> simp [cipherLists]

/-- A projection that ignores every event of a class finds nothing in a trace made
of events of that class. -/
theorem filterMap_nil_of_all {β : Type} (P : Event → Bool) (f : Event → Option β)
    (hf : ∀ ev, P ev = true → f ev = none) (t : List Event)
    (ht : t.all P = true) : t.filterMap f = [] := by
  rw [List.filterMap_eq_nil_iff]
  intro ev hev
  exact hf ev (List.all_eq_true.mp ht ev hev)

/-- Padding blanks belong to every class that holds standard-output fields. -/
theorem all_replicate_out (P : Event → Bool) (n : Nat) (s : String)
    (h : P (Event.out s) = true) : (List.replicate n (Event.out s)).all P = true := by
  rw [List.all_eq_true]
  intro a ha
  rw [List.eq_of_mem_replicate ha]; exact h

/-- The events of the cipher status block, by constructor. -/
theorem isShow_calls :
    (∀ s, (Event.xml s).isShow = true) ∧ (∀ s, (Event.out s).isShow = true) ∧
    (∀ s, (Event.err s).isShow = true) ∧ (∀ d n, (Event.sslWrite d n).isShow = true) ∧
    (∀ n d, (Event.sslRead n d).isShow = true) :=
  ⟨fun _ => rfl, fun _ => rfl, fun _ => rfl, fun _ _ => rfl, fun _ _ => rfl⟩

/-- An XML write belongs to the cipher status block. -/
theorem xmlIf_isShow (o : sslCheckOptions) (s : String) :
    (xmlIf o s).all Event.isShow = true := by
  unfold xmlIf; split_ifs <;> rfl

/-- The HTTP probe only writes the report and uses the TLS session. -/
theorem httpProbe_isShow (o : sslCheckOptions) (d : List Nat) :
    (httpProbe o d).all Event.isShow = true := by
  obtain ⟨c1, c2, c3, c4, c5⟩ := isShow_calls
  unfold httpProbe
  split_ifs <;>
    simp only [List.all_append, List.all_cons, List.all_nil, xmlIf_isShow, c2, c4, c5,
      all_replicate_out _ _ _ (c2 _), Bool.and_self]

/-- The data-channel check only writes the report and uses the TLS session. -/
theorem dataChannelProbe_isShow (o : sslCheckOptions) (d : List Nat) :
    (dataChannelProbe o d).all Event.isShow = true := by
  obtain ⟨c1, c2, c3, c4, c5⟩ := isShow_calls
  unfold dataChannelProbe
  split_ifs <;>
    simp only [List.all_append, List.all_cons, List.all_nil, xmlIf_isShow, c2, c4, c5,
      Bool.and_self]

/-- The status column only writes the report and uses the TLS session. -/
theorem showStatus_isShow (o : sslCheckOptions) (r : Int) (d : List Nat) :
    (showStatus o r d).all Event.isShow = true := by
  obtain ⟨c1, c2, c3, c4, c5⟩ := isShow_calls
  unfold showStatus
  split_ifs <;>
    simp only [List.all_append, List.all_cons, List.all_nil, xmlIf_isShow, httpProbe_isShow,
      dataChannelProbe_isShow, c2, Bool.and_self]

/-- The protocol column only writes the report or a diagnostic. -/
theorem showVersion_isShow (o : sslCheckOptions) (m : SslMethod) :
    (showVersion o m).all Event.isShow = true := by
  obtain ⟨c1, c2, c3, c4, c5⟩ := isShow_calls
  unfold showVersion versionLabel
  split_ifs <;>
    simp only [List.all_append, List.all_cons, List.all_nil, xmlIf_isShow, c2, c3, Bool.and_self]

/-- The bits and name columns only write the report. -/
theorem showBitsName_isShow (o : sslCheckOptions) (c : sslCipher) :
    (showBitsName o c).all Event.isShow = true := by
  obtain ⟨c1, c2, c3, c4, c5⟩ := isShow_calls
  unfold showBitsName
  split_ifs <;>
    simp only [List.all_append, List.all_cons, List.all_nil, xmlIf_isShow, c2,
      all_replicate_out _ _ _ (c2 _), Bool.and_self]

/-- The cipher status block only writes the report or a diagnostic and uses the
TLS session. -/
theorem showCipher_isShow (o : sslCheckOptions) (c : sslCipher) (r : Int) (d : List Nat) :
    (showCipher o c r d).all Event.isShow = true := by
  unfold showCipher
  simp only [List.all_append, xmlIf_isShow, showStatus_isShow, showVersion_isShow,
    showBitsName_isShow, Bool.and_self]

/-- The cipher status block attempts no handshake and configures no cipher list. -/
theorem showCipher_handshakes (o : sslCheckOptions) (c : sslCipher) (r : Int) (d : List Nat) :
    handshakes (showCipher o c r d) = [] ∧ cipherLists (showCipher o c r d) = [] :=
  ⟨filterMap_nil_of_all Event.isShow _
      (fun ev h => by cases ev <;> simp_all [Event.isShow]) _ (showCipher_isShow o c r d),
   filterMap_nil_of_all Event.isShow _
      (fun ev h => by cases ev <;> simp_all [Event.isShow]) _ (showCipher_isShow o c r d)⟩

/-- The function `loadCerts` only prints diagnostics. -/
theorem loadCerts_isConn (o : sslCheckOptions) (e : CertEnv) :
    (loadCerts o e).2.all Event.isConn = true := by
  have hc : ∀ msg, (certError msg).isConn = true := fun _ => rfl
  have h1 : (loadSeparate e).2.all Event.isConn = true := by
    unfold loadSeparate
    split_ifs <;> simp only [List.all_cons, List.all_nil, hc, Bool.and_self]
  have h2 : (loadPkcs12 e).2.all Event.isConn = true := by
    unfold loadPkcs12
    split_ifs <;> simp only [List.all_append, List.all_cons, List.all_nil, hc, Bool.and_self]
  have h3 : ∀ r : Bool × List Event, r.2.all Event.isConn = true →
      (checkCertKey e r).2.all Event.isConn = true := by
    intro r hr
    unfold checkCertKey
    split_ifs <;> simp only [List.all_append, List.all_cons, List.all_nil, hc, hr, Bool.and_self]
  unfold loadCerts
  apply h3
  split_ifs
  · exact h1
  · exact h2
  · rfl

/-- The function `loadCerts` attempts no handshake and configures no cipher list. -/
theorem loadCerts_handshakes (o : sslCheckOptions) (e : CertEnv) :
    handshakes (loadCerts o e).2 = [] ∧ cipherLists (loadCerts o e).2 = [] :=
  ⟨filterMap_isConn_nil _ (fun ev h => by cases ev <;> simp_all [Event.isConn]) _
     (loadCerts_isConn o e),
   filterMap_isConn_nil _ (fun ev h => by cases ev <;> simp_all [Event.isConn]) _
     (loadCerts_isConn o e)⟩

/-- The tear-down of a probe attempts no handshake and configures no cipher list. -/
theorem probeTeardown_handshakes (o : sslCheckOptions) (e : ProbeEnv) :
    handshakes (probeTeardown o e) = [] ∧ cipherLists (probeTeardown o e) = [] := by
  unfold probeTeardown
  constructor
  · split_ifs <;> simp [handshakes]
  · split_ifs <;> simp [cipherLists]

/-- A `testCipher` that reaches the handshake attempts exactly one handshake, on
the cipher of its catalog entry. -/
theorem testCipher_handshakes (o : sslCheckOptions) (c : sslCipher) (e : ProbeEnv)
    (h : reachesHandshake o e) :
    handshakes (testCipher o c e).2 = [e.sslConnect] ∧
    cipherLists (testCipher o c e).2 = [c.name] := by
  rw [testCipher_trace o c e h]
  have hs : handshakes [Event.sslConnect e.sslConnect] = [e.sslConnect] := rfl
  have hs2 : cipherLists [Event.sslConnect e.sslConnect] = [] := rfl
  constructor
  · simp only [handshakes_append, (probeSetup_handshakes o c e).1,
      (probeTeardown_handshakes o e).1, hs]
    split_ifs
    · rfl
    · rw [(showCipher_handshakes o c _ _).1]; rfl
  · simp only [cipherLists_append, (probeSetup_handshakes o c e).2,
      (probeTeardown_handshakes o e).2, hs2]
    split_ifs
    · rfl
    · rw [(showCipher_handshakes o c _ _).2]; rfl

/-- An iteration of the cipher loop returns success exactly when it runs without
set-up failure. -/
theorem probeIteration_status (o : sslCheckOptions) (c : sslCipher) (e : ProbeEnv) :
    (probeIteration o c e).1 = true ↔ probeRuns o e := by
  have ht := testCipher_status o c e
  unfold probeIteration probeRuns
  by_cases h1 : e.ctxNew = true
  · by_cases h2 : (o.clientCertsFile.isSome || o.privateKeyFile.isSome) = true
    · by_cases h3 : (loadCerts o e.certs).1 = true
      · simp only [h1, h2, h3, if_true, true_and, forall_const]
        exact ht
      · simp [h1, h2, h3]
    · simp only [h1, h2, if_true, Bool.false_eq_true, if_false, true_and, false_implies]
      exact ht
  · simp [h1]

/-- An iteration that reaches the handshake: its report is the cipher-result
record unless filtered, it attempts one handshake, on the cipher of its entry. -/
theorem probeIteration_reached (o : sslCheckOptions) (c : sslCipher) (e : ProbeEnv)
    (h : iterationReaches o e) :
    reports (probeIteration o c e).2 =
      (if o.noFailed = true ∧ e.sslConnect ≠ 1 then []
       else reports (showCipher o c e.sslConnect e.readData)) ∧
    handshakes (probeIteration o c e).2 = [e.sslConnect] ∧
    cipherLists (probeIteration o c e).2 = [c.name] := by
  obtain ⟨h1, h2, h3⟩ := h
  have hr := testCipher_reports o c e h3
  have hh := testCipher_handshakes o c e h3
  have hl := loadCerts_reports o e.certs
  have hl2 := loadCerts_handshakes o e.certs
  unfold probeIteration
  by_cases hc : (o.clientCertsFile.isSome || o.privateKeyFile.isSome) = true
  · have h2' := h2 hc
    simp only [h1, hc, h2', if_true, reports_append, handshakes_append, cipherLists_append, hr,
      hh.1, hh.2, hl, hl2.1, hl2.2]
    simp [reports, handshakes, cipherLists, Event.isReport]
  · simp only [h1, hc, if_true, Bool.false_eq_true, if_false, reports_append, handshakes_append,
      cipherLists_append, hr, hh.1, hh.2]
    simp [reports, handshakes, cipherLists, Event.isReport]

/-- An iteration that fails before the handshake writes no record, attempts no
handshake and returns failure. -/
theorem probeIteration_unreached (o : sslCheckOptions) (c : sslCipher) (e : ProbeEnv)
    (h : ¬ iterationReaches o e) :
    reports (probeIteration o c e).2 = [] ∧ handshakes (probeIteration o c e).2 = [] ∧
    (probeIteration o c e).1 = false := by
  have hst : (probeIteration o c e).1 = false := by
    cases hb : (probeIteration o c e).1 with
    | false => rfl
    | true =>
      have hp := (probeIteration_status o c e).mp hb
      exact absurd ⟨hp.1, hp.2.1, hp.2.2.1⟩ h
  refine ⟨?_, ?_, hst⟩
  all_goals
    have hl := loadCerts_reports o e.certs
    have hl2 := loadCerts_handshakes o e.certs
    unfold iterationReaches at h
    unfold probeIteration
    by_cases h1 : e.ctxNew = true
    · by_cases hc : (o.clientCertsFile.isSome || o.privateKeyFile.isSome) = true
      · by_cases h3 : (loadCerts o e.certs).1 = true
        · have hu : ¬ reachesHandshake o e := fun hr => h ⟨h1, fun _ => h3, hr⟩
          have hu' := testCipher_reports_unreached o c e hu
          simp only [h1, hc, h3, if_true, reports_append, handshakes_append, hu'.1, hu'.2, hl,
            hl2.1]
          simp [reports, handshakes, Event.isReport]
        · simp only [h1, hc, h3, if_true, reports_append, handshakes_append, hl, hl2.1]
          simp [reports, handshakes, Event.isReport]
      · have hu : ¬ reachesHandshake o e := fun hr => h ⟨h1, fun hx => absurd hx hc, hr⟩
        have hu' := testCipher_reports_unreached o c e hu
        simp only [h1, hc, if_true, Bool.false_eq_true, if_false, reports_append,
          handshakes_append, hu'.1, hu'.2]
        simp [reports, handshakes, Event.isReport]
    · simp only [h1]
      simp [reports, handshakes, Event.isReport]

/-! ### The cipher probe loop -/

/-- The loop does nothing once the status is failure. -/
theorem cipherLoop_false (o : sslCheckOptions) (env : Nat → ProbeEnv) (i : Nat)
    (cat : List sslCipher) : cipherLoop o env i cat false = (false, []) := by
  cases cat <;> simp [cipherLoop]

/-- One step of the loop while the status is success. -/
theorem cipherLoop_cons_true (o : sslCheckOptions) (env : Nat → ProbeEnv) (i : Nat)
    (c : sslCipher) (cs : List sslCipher) :
    cipherLoop o env i (c :: cs) true =
      ((cipherLoop o env (i + 1) cs (probeIteration o c (env i)).1).1,
        (probeIteration o c (env i)).2 ::
          (cipherLoop o env (i + 1) cs (probeIteration o c (env i)).1).2) := by
  simp [cipherLoop]

/-- When no iteration has a set-up failure the loop runs every iteration, in
catalog order, and returns success. -/
theorem cipherLoop_all_run (o : sslCheckOptions) (env : Nat → ProbeEnv) :
    ∀ (cat : List sslCipher) (i0 : Nat),
      (∀ j, j < cat.length → probeRuns o (env (i0 + j))) →
      cipherLoop o env i0 cat true =
        (true, (cat.enumFrom i0).map (fun p => (probeIteration o p.2 (env p.1)).2)) := by
  intro cat
  induction cat with
  | nil => intro i0 _; rfl
  | cons c cs ih =>
    intro i0 h
    have h0 : (probeIteration o c (env i0)).1 = true :=
      (probeIteration_status o c (env i0)).mpr (by simpa using h 0 (by simp))
    have hrest : ∀ j, j < cs.length → probeRuns o (env (i0 + 1 + j)) := by
      intro j hj
      have := h (j + 1) (by simp; omega)
      rwa [show i0 + (j + 1) = i0 + 1 + j by omega] at this
    rw [cipherLoop_cons_true, h0, ih (i0 + 1) hrest]
    rfl

/-- The iterations the loop runs are an initial segment of the per-cipher
iterations, in catalog order. -/
theorem cipherLoop_initial_segment (o : sslCheckOptions) (env : Nat → ProbeEnv) :
    ∀ (cat : List sslCipher) (i0 : Nat) (st : Bool),
      (cipherLoop o env i0 cat st).2 <+:
        (cat.enumFrom i0).map (fun p => (probeIteration o p.2 (env p.1)).2) := by
  intro cat
  induction cat with
  | nil => intro i0 st; simp [cipherLoop]
  | cons c cs ih =>
    intro i0 st
    cases st with
    | false => rw [cipherLoop_false]; exact List.nil_prefix
    | true =>
      rw [cipherLoop_cons_true]
      simp only [List.enumFrom_cons, List.map_cons]
      exact List.cons_prefix_cons.mpr ⟨rfl, ih (i0 + 1) _⟩

/-- The loop stops after the first iteration with a set-up failure. -/
theorem cipherLoop_first_failure (o : sslCheckOptions) (env : Nat → ProbeEnv) :
    ∀ (cat : List sslCipher) (i0 k : Nat), k < cat.length →
      (∀ j, j < k → probeRuns o (env (i0 + j))) → ¬ probeRuns o (env (i0 + k)) →
      (cipherLoop o env i0 cat true).1 = false ∧
      (cipherLoop o env i0 cat true).2.length = k + 1 := by
  intro cat
  induction cat with
  | nil => intro i0 k hk; simp at hk
  | cons c cs ih =>
    intro i0 k hk hrun hfail
    rw [cipherLoop_cons_true]
    cases k with
    | zero =>
      have h0 : (probeIteration o c (env i0)).1 = false := by
        cases hb : (probeIteration o c (env i0)).1 with
        | false => rfl
        | true => exact absurd ((probeIteration_status o c (env i0)).mp hb) (by simpa using hfail)
      rw [h0, cipherLoop_false]
      simp
    | succ k =>
      have h0 : (probeIteration o c (env i0)).1 = true :=
        (probeIteration_status o c (env i0)).mpr (by simpa using hrun 0 (by omega))
      have hrun' : ∀ j, j < k → probeRuns o (env (i0 + 1 + j)) := by
        intro j hj
        have := hrun (j + 1) (by omega)
        rwa [show i0 + (j + 1) = i0 + 1 + j by omega] at this
      have hfail' : ¬ probeRuns o (env (i0 + 1 + k)) := by
        rwa [show i0 + (k + 1) = i0 + 1 + k by omega] at hfail
      have := ih (i0 + 1) k (by simpa using hk) hrun' hfail'
      rw [h0]
      simp [this.1, this.2]

/-- C1 (counterexample). With no_failed unset and a catalog of two ciphers: when
the host refuses the connection, or when the SMTP greeting is an error line, the
loop runs one iteration only, attempts no handshake and writes no cipher-result
record, and the status is failure. -/
theorem cipherLoop_stops_on_connection_failure :
    xmlOptions.noFailed = false ∧
    (cipherLoop xmlOptions refusingEnv 0 [sampleCipher, sampleCipher2] true).1 = false ∧
    (cipherLoop xmlOptions refusingEnv 0 [sampleCipher, sampleCipher2] true).2.map handshakes
      = [[]] ∧
    (cipherLoop xmlOptions refusingEnv 0 [sampleCipher, sampleCipher2] true).2.map reports
      = [[]] ∧
    smtpXmlOptions.noFailed = false ∧
    (cipherLoop smtpXmlOptions errorGreetingEnv 0 [sampleCipher, sampleCipher2] true).2.map
      handshakes = [[]] ∧
    (cipherLoop smtpXmlOptions errorGreetingEnv 0 [sampleCipher, sampleCipher2] true).2.map
      reports = [[]] := by
  decide

/-- C1 (amended). With no_failed unset, the cipher probe loop of `testHost` runs
its iterations over the catalog in catalog order, each cipher at most once: the
traces of the iterations it runs are a prefix of the per-cipher iteration
traces.  An iteration that reaches the handshake attempts exactly one handshake,
on the cipher of its catalog entry, and writes exactly the cipher-result record
of that entry and that handshake result; an iteration that fails before the
handshake writes no record and returns failure.  The loop stops after the first
iteration with a set-up failure.  When no iteration has one, every catalog
cipher is attempted exactly once and exactly one cipher-result record per
catalog cipher is written, in catalog order. -/
theorem cipherLoop_records (o : sslCheckOptions) (cat : List sslCipher)
    (env : Nat → ProbeEnv) (hnf : o.noFailed = false) :
    (cipherLoop o env 0 cat true).2 <+:
      cat.enum.map (fun p => (probeIteration o p.2 (env p.1)).2) ∧
    (∀ c e, iterationReaches o e →
      reports (probeIteration o c e).2 = reports (showCipher o c e.sslConnect e.readData) ∧
      handshakes (probeIteration o c e).2 = [e.sslConnect] ∧
      cipherLists (probeIteration o c e).2 = [c.name]) ∧
    (∀ c e, ¬ iterationReaches o e →
      reports (probeIteration o c e).2 = [] ∧ handshakes (probeIteration o c e).2 = [] ∧
      (probeIteration o c e).1 = false) ∧
    (∀ k, k < cat.length → (∀ j, j < k → probeRuns o (env j)) → ¬ probeRuns o (env k) →
      (cipherLoop o env 0 cat true).1 = false ∧
      (cipherLoop o env 0 cat true).2.length = k + 1) ∧
    ((∀ i, i < cat.length → probeRuns o (env i)) →
      (cipherLoop o env 0 cat true).1 = true ∧
      (cipherLoop o env 0 cat true).2.map reports =
        cat.enum.map (fun p =>
          reports (showCipher o p.2 (env p.1).sslConnect (env p.1).readData)) ∧
      (cipherLoop o env 0 cat true).2.map handshakes =
        cat.enum.map (fun p => [(env p.1).sslConnect]) ∧
      (cipherLoop o env 0 cat true).2.map cipherLists = cat.map (fun c => [c.name])) := by
  have hrec : ∀ c e, iterationReaches o e →
      reports (probeIteration o c e).2 = reports (showCipher o c e.sslConnect e.readData) ∧
      handshakes (probeIteration o c e).2 = [e.sslConnect] ∧
      cipherLists (probeIteration o c e).2 = [c.name] := by
    intro c e h
    have := probeIteration_reached o c e h
    simpa [hnf] using this
  refine ⟨cipherLoop_initial_segment o env cat 0 true, hrec, probeIteration_unreached o, ?_, ?_⟩
  · intro k hk hrun hfail
    exact cipherLoop_first_failure o env cat 0 k hk (by simpa using hrun) (by simpa using hfail)
  · intro hall
    have hrun := cipherLoop_all_run o env cat 0 (by simpa using hall)
    have hmem : ∀ p ∈ cat.enumFrom 0, iterationReaches o (env p.1) := by
      intro p hp
      have hlt := List.fst_lt_add_of_mem_enumFrom hp
      have := hall p.1 (by omega)
      exact ⟨this.1, this.2.1, this.2.2.1⟩
    rw [hrun]
    refine ⟨rfl, ?_, ?_, ?_⟩
    · rw [List.enum_eq_enumFrom, List.map_map]
      exact List.map_congr_left (fun p hp => (hrec p.2 _ (hmem p hp)).1)
    · rw [List.enum_eq_enumFrom, List.map_map]
      exact List.map_congr_left (fun p hp => (hrec p.2 _ (hmem p hp)).2.1)
    · rw [List.map_map]
      have : List.map (fun p : Nat × sslCipher => [p.2.name]) (cat.enumFrom 0) =
          List.map (fun c => [c.name]) cat := by
        conv_rhs => rw [← List.enumFrom_map_snd 0 cat, List.map_map]
        rfl
      rw [← this]
      exact List.map_congr_left (fun p hp => (hrec p.2 _ (hmem p hp)).2.2)

/-- Witness for C1: a peer that accepts the first of two ciphers and rejects the
second; both are attempted, in catalog order. -/
theorem cipherLoop_records_witness :
    (cipherLoop xmlOptions firstOnlyEnv 0 [sampleCipher, sampleCipher2] true).2.map handshakes
      = [[1], [0]] ∧
    (cipherLoop xmlOptions firstOnlyEnv 0 [sampleCipher, sampleCipher2] true).2.map cipherLists
      = [["AES128-SHA"], ["RC4-MD5"]] :=
  have h := (cipherLoop_records xmlOptions [sampleCipher, sampleCipher2] firstOnlyEnv
    (by decide)).2.2.2.2 (by decide)
  ⟨h.2.2.1.trans (by decide), h.2.2.2.trans (by decide)⟩

/-! ### The no_failed filter -/

/-- The printing events, by constructor. -/
theorem isOutput_calls :
    (∀ s, (Event.xml s).isOutput = true) ∧ (∀ s, (Event.out s).isOutput = true) ∧
    (∀ s, (Event.err s).isOutput = true) :=
  ⟨fun _ => rfl, fun _ => rfl, fun _ => rfl⟩

/-- A trace that only prints makes no call to the system or the engine. -/
theorem actions_nil_of_all (t : List Event) (h : t.all Event.isOutput = true) :
    actions t = [] := by
  unfold actions
  rw [List.filter_eq_nil_iff]
  intro ev hev
  simp [List.all_eq_true.mp h ev hev]

/-- An XML write only prints. -/
theorem xmlIf_isOutput (o : sslCheckOptions) (s : String) :
    (xmlIf o s).all Event.isOutput = true := by
  unfold xmlIf; split_ifs <;> rfl

/-- When the handshake is not accepted the cipher status block only prints. -/
theorem showCipher_actions (o : sslCheckOptions) (c : sslCipher) (r : Int) (d : List Nat)
    (hr : r ≠ 1) : actions (showCipher o c r d) = [] := by
  obtain ⟨c1, c2, c3⟩ := isOutput_calls
  have hrep : ∀ n, (List.replicate n (Event.out " ")).all Event.isOutput = true :=
    fun n => all_replicate_out _ n " " (c2 _)
  have h1 : (showStatus o r d).all Event.isOutput = true := by
    unfold showStatus
    rw [if_neg hr]
    split_ifs <;>
      simp only [List.all_append, List.all_cons, List.all_nil, xmlIf_isOutput, c2, Bool.and_self]
  have h2 : (showVersion o c.sslMethod).all Event.isOutput = true := by
    unfold showVersion versionLabel
    split_ifs <;>
      simp only [List.all_append, List.all_cons, List.all_nil, xmlIf_isOutput, c2, c3,
        Bool.and_self]
  have h3 : (showBitsName o c).all Event.isOutput = true := by
    unfold showBitsName
    split_ifs <;>
      simp only [List.all_append, List.all_cons, List.all_nil, xmlIf_isOutput, c2, hrep,
        Bool.and_self]
  apply actions_nil_of_all
  unfold showCipher
  simp only [List.all_append, xmlIf_isOutput, h1, h2, h3, Bool.and_self]

/-- A cipher-result record is an accepted one exactly when the handshake
returned 1. -/
theorem isAcceptedRecord_showCipher (o : sslCheckOptions) (c : sslCipher) (r : Int)
    (d : List Nat) :
    isAcceptedRecord (reports (showCipher o c r d)) = true ↔ r = 1 := by
  unfold isAcceptedRecord
  rw [outOf_reports]
  unfold showCipher showStatus xmlIf
  by_cases h1 : r = 1
  · by_cases hp : o.pout = true <;> by_cases hx : o.xmlOutput = true <;>
      simp [h1, hp, hx, outOf]
  · by_cases h0 : r = 0
    · by_cases hp : o.pout = true <;> by_cases hx : o.xmlOutput = true <;>
        by_cases hh : o.http = true <;> simp [h0, hp, hx, hh, outOf]
    · by_cases hp : o.pout = true <;> by_cases hx : o.xmlOutput = true <;>
        by_cases hh : o.http = true <;> simp [h1, h0, hp, hx, hh, outOf]

/-- Setting the no_failed flag changes nothing but that flag. -/
theorem withNoFailed_facts (o : sslCheckOptions) (b : Bool) :
    (withNoFailed o b).noFailed = b ∧
    (withNoFailed o b).clientCertsFile = o.clientCertsFile ∧
    (withNoFailed o b).privateKeyFile = o.privateKeyFile ∧
    (withNoFailed o b).sslbugs = o.sslbugs ∧
    (∀ e, tcpConnect (withNoFailed o b) e = tcpConnect o e) ∧
    (∀ e, loadCerts (withNoFailed o b) e = loadCerts o e) ∧
    (∀ c e, probeSetup (withNoFailed o b) c e = probeSetup o c e) ∧
    (∀ e, probeTeardown (withNoFailed o b) e = probeTeardown o e) ∧
    (∀ c r d, showCipher (withNoFailed o b) c r d = showCipher o c r d) ∧
    (∀ e, reachesHandshake (withNoFailed o b) e ↔ reachesHandshake o e) ∧
    (∀ e, iterationReaches (withNoFailed o b) e ↔ iterationReaches o e) ∧
    (∀ e, probeRuns (withNoFailed o b) e ↔ probeRuns o e) :=
  ⟨rfl, rfl, rfl, rfl, fun _ => rfl, fun _ => rfl, fun _ _ => rfl, fun _ => rfl,
    fun _ _ _ => rfl, fun _ => Iff.rfl, fun _ => Iff.rfl, fun _ => Iff.rfl⟩

/-- The status and the calls of `testCipher` do not depend on the no_failed flag. -/
theorem testCipher_withNoFailed (o : sslCheckOptions) (b : Bool) (c : sslCipher)
    (e : ProbeEnv) :
    (testCipher (withNoFailed o b) c e).1 = (testCipher o c e).1 ∧
    actions (testCipher (withNoFailed o b) c e).2 =
      actions (testCipher (withNoFailed o false) c e).2 := by
  obtain ⟨f1, f2, f3, f4, f5, f6, f7, f8, f9, f10, f11, f12⟩ := withNoFailed_facts o b
  obtain ⟨g1, g2, g3, g4, g5, g6, g7, g8, g9, g10, g11, g12⟩ := withNoFailed_facts o false
  constructor
  · rw [Bool.eq_iff_iff, testCipher_status, testCipher_status]
    exact Iff.rfl
  · by_cases h : reachesHandshake o e
    · rw [testCipher_trace _ c e ((f10 e).mpr h), testCipher_trace _ c e ((g10 e).mpr h),
        f1, g1, f7, f8, f9, g7, g8, g9]
      simp only [actions_append]
      by_cases hr : e.sslConnect = 1
      · simp [hr]
      · have := showCipher_actions o c e.sslConnect e.readData hr
        have hnil : actions ([] : List Event) = [] := rfl
        cases b <;> simp [hr, this, hnil]
    · have hu : ¬ ((tcpConnect o e.conn).1 ≠ 0 ∧ e.setCipherList ≠ 0 ∧ e.sslNew = true) := h
      have heq : ∀ b', testCipher (withNoFailed o b') c e = testCipher o c e := by
        intro b'
        have k := (withNoFailed_facts o b').2.2.2.2.1
        unfold testCipher
        simp only [k]
        by_cases h1 : (tcpConnect o e.conn).1 ≠ 0
        · by_cases h2 : e.setCipherList ≠ 0
          · have h3 : ¬ e.sslNew = true := fun h3 => hu ⟨h1, h2, h3⟩
            simp only [if_pos h1, if_pos h2, if_neg h3]
          · simp only [if_pos h1, if_neg h2]
        · simp only [if_neg h1]
      rw [heq b, heq false]

/-- The status and the calls of an iteration do not depend on the no_failed flag. -/
theorem probeIteration_withNoFailed (o : sslCheckOptions) (b : Bool) (c : sslCipher)
    (e : ProbeEnv) :
    (probeIteration (withNoFailed o b) c e).1 = (probeIteration o c e).1 ∧
    actions (probeIteration (withNoFailed o b) c e).2 =
      actions (probeIteration (withNoFailed o false) c e).2 := by
  obtain ⟨f1, f2, f3, f4, f5, f6, f7, f8, f9, f10, f11, f12⟩ := withNoFailed_facts o b
  obtain ⟨g1, g2, g3, g4, g5, g6, g7, g8, g9, g10, g11, g12⟩ := withNoFailed_facts o false
  have ht := testCipher_withNoFailed o b c e
  constructor
  · rw [Bool.eq_iff_iff, probeIteration_status, probeIteration_status]
    exact f12 e
  · unfold probeIteration
    simp only [f2, f3, f4, f6, g2, g3, g4, g6]
    by_cases h1 : e.ctxNew = true
    · by_cases hc : (o.clientCertsFile.isSome || o.privateKeyFile.isSome) = true
      · by_cases h3 : (loadCerts o e.certs).1 = true
        · simp only [h1, hc, h3, if_true, actions_append, ht.2]
        · simp only [h1, hc, h3, if_true, Bool.false_eq_true, if_false]
      · simp only [h1, hc, if_true, Bool.false_eq_true, if_false, actions_append, ht.2]
    · simp only [h1, Bool.false_eq_true, if_false]

/-- The report of an iteration with no_failed set is its report with no_failed
unset when that is an accepted record, and nothing otherwise. -/
theorem probeIteration_filtered (o : sslCheckOptions) (c : sslCipher) (e : ProbeEnv) :
    reports (probeIteration (withNoFailed o true) c e).2 =
      if isAcceptedRecord (reports (probeIteration (withNoFailed o false) c e).2) = true then
        reports (probeIteration (withNoFailed o false) c e).2
      else [] := by
  obtain ⟨f1, f2, f3, f4, f5, f6, f7, f8, f9, f10, f11, f12⟩ := withNoFailed_facts o true
  obtain ⟨g1, g2, g3, g4, g5, g6, g7, g8, g9, g10, g11, g12⟩ := withNoFailed_facts o false
  by_cases h : iterationReaches o e
  · have a := (probeIteration_reached (withNoFailed o true) c e ((f11 e).mpr h)).1
    have b := (probeIteration_reached (withNoFailed o false) c e ((g11 e).mpr h)).1
    rw [f1, f9] at a
    rw [g1, g9] at b
    simp only [Bool.false_eq_true, false_and, if_false] at b
    rw [a, b]
    by_cases hr : e.sslConnect = 1
    · have hacc := (isAcceptedRecord_showCipher o c e.sslConnect e.readData).mpr hr
      have hno : ¬ (true = true ∧ e.sslConnect ≠ 1) := fun hc => hc.2 hr
      rw [if_neg hno, if_pos hacc]
    · have hacc : ¬ isAcceptedRecord (reports (showCipher o c e.sslConnect e.readData)) = true :=
        fun hc => hr ((isAcceptedRecord_showCipher o c e.sslConnect e.readData).mp hc)
      have hyes : true = true ∧ e.sslConnect ≠ 1 := ⟨rfl, hr⟩
      rw [if_pos hyes, if_neg hacc]
  · have a := (probeIteration_unreached (withNoFailed o true) c e
      (fun hc => h ((f11 e).mp hc))).1
    have b := (probeIteration_unreached (withNoFailed o false) c e
      (fun hc => h ((g11 e).mp hc))).1
    rw [a, b]
    simp

/-- The two runs of the loop, from any start: same status, same calls, and the
report of the filtered run is the accepted part of the other. -/
theorem cipherLoop_withNoFailed (o : sslCheckOptions) (env : Nat → ProbeEnv) :
    ∀ (cat : List sslCipher) (i0 : Nat) (st : Bool),
      (cipherLoop (withNoFailed o true) env i0 cat st).1 =
        (cipherLoop (withNoFailed o false) env i0 cat st).1 ∧
      (cipherLoop (withNoFailed o true) env i0 cat st).2.map actions =
        (cipherLoop (withNoFailed o false) env i0 cat st).2.map actions ∧
      (cipherLoop (withNoFailed o true) env i0 cat st).2.map reports =
        (cipherLoop (withNoFailed o false) env i0 cat st).2.map
          (fun t => if isAcceptedRecord (reports t) = true then reports t else []) := by
  intro cat
  induction cat with
  | nil => intro i0 st; simp [cipherLoop]
  | cons c cs ih =>
    intro i0 st
    cases st with
    | false => simp [cipherLoop_false]
    | true =>
      have hst : (probeIteration (withNoFailed o true) c (env i0)).1 =
          (probeIteration (withNoFailed o false) c (env i0)).1 := by
        rw [(probeIteration_withNoFailed o true c (env i0)).1,
          (probeIteration_withNoFailed o false c (env i0)).1]
      have hact := (probeIteration_withNoFailed o true c (env i0)).2
      have hrep := probeIteration_filtered o c (env i0)
      have h := ih (i0 + 1) (probeIteration (withNoFailed o false) c (env i0)).1
      rw [cipherLoop_cons_true, cipherLoop_cons_true, hst]
      refine ⟨h.1, ?_, ?_⟩
      · simp only [List.map_cons, hact, h.2.1]
      · simp only [List.map_cons, hrep, h.2.2]

/-- Mapping over the numbered catalog a function of the entry alone. -/
theorem map_enumFrom_snd {β : Type} (f : sslCipher → β) (cat : List sslCipher) (i0 : Nat) :
    (cat.enumFrom i0).map (fun p => f p.2) = cat.map f := by
  conv_rhs => rw [← List.enumFrom_map_snd i0 cat, List.map_map]
  rfl

/-- C3. For every catalog and every scripted peer and engine, the run of the
cipher probe loop with no_failed set and the run with no_failed unset return the
same status and make the same calls to the operating system and the engine in
every iteration (the same connections, sends, reads and handshakes); and the
cipher-result records written with no_failed set are exactly the accepted
records written with no_failed unset, iteration by iteration, in the same order.
In particular, when every probe runs and the peer rejects every cipher, with
no_failed set every catalog cipher is attempted, one handshake each, in catalog
order, and no cipher-result record is written. -/
theorem noFailed_filters_records (o : sslCheckOptions) (cat : List sslCipher)
    (env : Nat → ProbeEnv) :
    (cipherLoop (withNoFailed o true) env 0 cat true).1 =
      (cipherLoop (withNoFailed o false) env 0 cat true).1 ∧
    (cipherLoop (withNoFailed o true) env 0 cat true).2.map actions =
      (cipherLoop (withNoFailed o false) env 0 cat true).2.map actions ∧
    (cipherLoop (withNoFailed o true) env 0 cat true).2.map reports =
      (cipherLoop (withNoFailed o false) env 0 cat true).2.map
        (fun t => if isAcceptedRecord (reports t) = true then reports t else []) ∧
    ((∀ i, i < cat.length → probeRuns o (env i) ∧ (env i).sslConnect = 0) →
      (cipherLoop (withNoFailed o true) env 0 cat true).2.map reports = cat.map (fun _ => []) ∧
      (cipherLoop (withNoFailed o true) env 0 cat true).2.map handshakes
        = cat.map (fun _ => [0]) ∧
      (cipherLoop (withNoFailed o true) env 0 cat true).2.map cipherLists
        = cat.map (fun c => [c.name])) := by
  obtain ⟨f1, f2, f3, f4, f5, f6, f7, f8, f9, f10, f11, f12⟩ := withNoFailed_facts o true
  have h := cipherLoop_withNoFailed o env cat 0 true
  refine ⟨h.1, h.2.1, h.2.2, ?_⟩
  intro hall
  have hrun := cipherLoop_all_run (withNoFailed o true) env cat 0
    (fun j hj => (f12 _).mpr (by simpa using (hall j hj).1))
  have hmem : ∀ p ∈ cat.enumFrom 0,
      iterationReaches (withNoFailed o true) (env p.1) ∧ (env p.1).sslConnect = 0 := by
    intro p hp
    have hlt := List.fst_lt_add_of_mem_enumFrom hp
    have := hall p.1 (by omega)
    exact ⟨(f11 _).mpr ⟨this.1.1, this.1.2.1, this.1.2.2.1⟩, this.2⟩
  have hit : ∀ p ∈ cat.enumFrom 0,
      reports (probeIteration (withNoFailed o true) p.2 (env p.1)).2 = [] ∧
      handshakes (probeIteration (withNoFailed o true) p.2 (env p.1)).2 = [0] ∧
      cipherLists (probeIteration (withNoFailed o true) p.2 (env p.1)).2 = [p.2.name] := by
    intro p hp
    have hr := probeIteration_reached (withNoFailed o true) p.2 (env p.1) (hmem p hp).1
    rw [f1, (hmem p hp).2] at hr
    have hyes : true = true ∧ (0 : Int) ≠ 1 := ⟨rfl, by decide⟩
    rw [if_pos hyes] at hr
    exact hr
  rw [hrun]
  refine ⟨?_, ?_, ?_⟩
  · rw [List.map_map, ← map_enumFrom_snd (fun _ => ([] : List Event)) cat 0]
    exact List.map_congr_left (fun p hp => (hit p hp).1)
  · rw [List.map_map, ← map_enumFrom_snd (fun _ => ([0] : List Int)) cat 0]
    exact List.map_congr_left (fun p hp => (hit p hp).2.1)
  · rw [List.map_map, ← map_enumFrom_snd (fun c => [c.name]) cat 0]
    exact List.map_congr_left (fun p hp => (hit p hp).2.2)

/-- Witness for C3: a peer that rejects both catalog ciphers; with no_failed set
both are attempted and nothing is reported. -/
theorem noFailed_filters_records_witness :
    (cipherLoop (withNoFailed xmlOptions true) rejectingEnv 0 [sampleCipher, sampleCipher2]
      true).2.map reports = [[], []] ∧
    (cipherLoop (withNoFailed xmlOptions true) rejectingEnv 0 [sampleCipher, sampleCipher2]
      true).2.map handshakes = [[0], [0]] :=
  have h := (noFailed_filters_records xmlOptions [sampleCipher, sampleCipher2]
    rejectingEnv).2.2.2 (by decide)
  ⟨h.1, h.2.1⟩

/-! ### The preferred-cipher record -/

/-- C12 (the code at the failing input). After a successful handshake with
`TLSv1_1_client_method`, and likewise with `TLSv1_2_client_method`,
`defaultCipher` writes the label `TLSv1` to the XML record while it prints
`TLSv1.1` (`TLSv1.2`) on standard output: the XML label is the one of
`TLSv1_client_method`, so it differs from the printed label and three versions
share it.  The bits and the name are the negotiated ones. -/
theorem defaultCipher_xml_label_tls11 :
    xmlOf (defaultCipher xmlOptions SslMethod.TLSv1_1_client_method
      (preferredEnvOn plainPeer 1 256 "AES256-SHA")).2 =
      ["  <defaultcipher sslversion=\"TLSv1\" bits=\"", "256\" cipher=\"AES256-SHA\" />\n"] ∧
    outOf (defaultCipher xmlOptions SslMethod.TLSv1_1_client_method
      (preferredEnvOn plainPeer 1 256 "AES256-SHA")).2 =
      ["    TLSv1.1  ", "256 bits  ", "AES256-SHA\n"] ∧
    xmlOf (defaultCipher xmlOptions SslMethod.TLSv1_2_client_method
      (preferredEnvOn plainPeer 1 256 "AES256-SHA")).2 =
      ["  <defaultcipher sslversion=\"TLSv1\" bits=\"", "256\" cipher=\"AES256-SHA\" />\n"] ∧
    outOf (defaultCipher xmlOptions SslMethod.TLSv1_2_client_method
      (preferredEnvOn plainPeer 1 256 "AES256-SHA")).2 =
      ["    TLSv1.2  ", "256 bits  ", "AES256-SHA\n"] ∧
    xmlOf (defaultCipher xmlOptions SslMethod.TLSv1_client_method
      (preferredEnvOn plainPeer 1 256 "AES256-SHA")).2 =
      ["  <defaultcipher sslversion=\"TLSv1\" bits=\"", "256\" cipher=\"AES256-SHA\" />\n"] ∧
    xmlOf (testCipher xmlOptions
      { sampleCipher with sslMethod := SslMethod.TLSv1_1_client_method }
      (probeEnvOn plainPeer 1 [])).2 =
      ["  <cipher status=\"", "accepted\"", " sslversion=\"", "TLSv1.1\" bits=\"",
       "128\" cipher=\"AES128-SHA\" />\n"] := by
  decide

/-! ### The XML fragment of a target -/

/-- C15 (the code at the failing input). With the status request enabled and the
XML file open, when the handshake of `getCertificate` succeeds and no staple is
returned, or a staple that cannot be parsed, the fragment `testHost` writes
opens `certificate` and closes `ssltest` without closing `certificate`; the
session and the socket are left open.  With a staple that parses, and without
the status request, the element is closed. -/
theorem testHost_certificate_left_open :
    xmlOf (testHost ocspXmlOptions plainHostEnv).trace =
      [" <ssltest host=\"host\" port=\"443\">\n", "  <certificate>\n", " </ssltest>\n"] ∧
    xmlOf (testHost ocspXmlOptions badStapleHostEnv).trace =
      [" <ssltest host=\"host\" port=\"443\">\n", "  <certificate>\n", " </ssltest>\n"] ∧
    (testHost ocspXmlOptions plainHostEnv).status = true ∧
    closes (testHost ocspXmlOptions plainHostEnv).trace = [] ∧
    opens (testHost ocspXmlOptions plainHostEnv).trace = [3] ∧
    xmlOf (testHost ocspXmlOptions goodStapleHostEnv).trace =
      [" <ssltest host=\"host\" port=\"443\">\n", "  <certificate>\n", "  </certificate>\n",
       " </ssltest>\n"] ∧
    xmlOf (testHost xmlOptions plainHostEnv).trace =
      [" <ssltest host=\"host\" port=\"443\">\n", "  <certificate>\n", "  </certificate>\n",
       " </ssltest>\n"] := by
  decide

/-! ### The serial number -/

/-- C17 (the code at the failing input). For a serial number of length 0 the
loop over the bytes does not run: the XML file gets the opener of `serial`
followed directly by `/serial>`, without the `<` that the loop writes after the
last byte, and the line on standard output is not ended.  For a serial of two
bytes the pieces are the opener, `0a:`, `ff<` and `/serial>`. -/
theorem showSerial_empty_serial :
    xmlOf (showSerial xmlOptions (some { negative := false, data := [] })) =
      ["   <serial>", "/serial>\n"] ∧
    outOf (showSerial xmlOptions (some { negative := false, data := [] })) =
      ["    Serial Number: "] ∧
    (xmlOf (getCertificate xmlOptions
      (certificateEnvOn plainPeer 1 (some emptySerialCert) false false)).2).take 4 =
      ["  <certificate>\n", "   <version>2</version>\n", "   <serial>", "/serial>\n"] ∧
    xmlOf (showSerial xmlOptions (some { negative := true, data := [10, 255] })) =
      ["   <serial>", "0a:", "ff<", "/serial>\n"] ∧
    outOf (showSerial xmlOptions (some { negative := true, data := [10, 255] })) =
      ["    Serial Number: (Negative)", "0a:", "ff\n"] := by
  decide

/-- The sockets a concatenation opens. -/
theorem opens_append (a b : List Event) : opens (a ++ b) = opens a ++ opens b := by
  induction a with
  | nil => rfl
  | cons ev t ih =>
    cases ev <;> simp [opens, ih]
    split_ifs <;> simp

/-- The sockets a concatenation closes. -/
theorem closes_append (a b : List Event) : closes (a ++ b) = closes a ++ closes b := by
  induction a with
  | nil => rfl
  | cons ev t ih =>
    cases ev <;> simp [closes, ih]

/-- A two-reply preamble that succeeds returns the socket, and opens and closes
no socket beyond what the trace before it did. -/
theorem upgrade2_sockets (e : ConnEnv) (pre : List Event) (greet : String) (n1 : Nat)
    (msg1 : Event) (echo : Bool) (cmd : String) (len : Nat) (ack : String) (n2 : Nat)
    (msg2 : Event)
    (h : (upgrade2 e pre greet n1 msg1 echo cmd len ack n2 msg2).1 ≠ 0) :
    (upgrade2 e pre greet n1 msg1 echo cmd len ack n2 msg2).1 = e.socketFd ∧
    opens (upgrade2 e pre greet n1 msg1 echo cmd len ack n2 msg2).2 = opens pre ∧
    closes (upgrade2 e pre greet n1 msg1 echo cmd len ack n2 msg2).2 = closes pre := by
  unfold upgrade2 at h ⊢
  dsimp only at h ⊢
  split_ifs at h ⊢ <;> first
    | exact absurd rfl h
    | (refine ⟨rfl, ?_, ?_⟩ <;> simp [opens_append, closes_append, opens, closes])

/-- When `tcpConnect` succeeds it returns the socket it opened, the only one, and
has not closed it. -/
theorem tcpConnect_sockets (o : sslCheckOptions) (e : ConnEnv)
    (h : (tcpConnect o e).1 ≠ 0) :
    (tcpConnect o e).1 = e.socketFd ∧ opens (tcpConnect o e).2 = [e.socketFd] ∧
    closes (tcpConnect o e).2 = [] := by
  unfold tcpConnect at h ⊢
  dsimp only at h ⊢
  by_cases h1 : e.socketFd < 0
  · rw [if_pos h1] at h; exact absurd rfl h
  · by_cases h2 : e.bindStatus < 0
    · rw [if_neg h1, if_pos h2] at h; exact absurd rfl h
    · by_cases h3 : e.connectStatus < 0
      · rw [if_neg h1, if_neg h2, if_pos h3] at h; exact absurd rfl h
      · rw [if_neg h1, if_neg h2, if_neg h3] at h ⊢
        have hpre : opens [Event.socket e.socketFd, Event.bind e.socketFd e.bindStatus,
            Event.connect e.socketFd e.connectStatus] = [e.socketFd] ∧
            closes [Event.socket e.socketFd, Event.bind e.socketFd e.bindStatus,
            Event.connect e.socketFd e.connectStatus] = [] := by
          simp [opens, closes, h1]
        split_ifs at h ⊢ <;> first
          | exact absurd rfl h
          | exact ⟨(upgrade2_sockets _ _ _ _ _ _ _ _ _ _ _ h).1,
              (upgrade2_sockets _ _ _ _ _ _ _ _ _ _ _ h).2.1.trans hpre.1,
              (upgrade2_sockets _ _ _ _ _ _ _ _ _ _ _ h).2.2.trans hpre.2⟩
          | (refine ⟨rfl, ?_, ?_⟩ <;> simp [opens_append, closes_append, opens, closes, h1])

/-- The function `loadCerts` opens and closes no socket. -/
theorem loadCerts_sockets (o : sslCheckOptions) (e : CertEnv) :
    opens (loadCerts o e).2 = [] ∧ closes (loadCerts o e).2 = [] := by
  have hc : ∀ msg, opens [certError msg] = [] ∧ closes [certError msg] = [] :=
    fun _ => ⟨rfl, rfl⟩
  have h1 : opens (loadSeparate e).2 = [] ∧ closes (loadSeparate e).2 = [] := by
    unfold loadSeparate
    split_ifs <;> first | exact hc _ | exact ⟨rfl, rfl⟩
  have h2 : opens (loadPkcs12 e).2 = [] ∧ closes (loadPkcs12 e).2 = [] := by
    unfold loadPkcs12
    split_ifs <;> first
      | exact hc _
      | exact ⟨rfl, rfl⟩
  have h3 : ∀ r : Bool × List Event, opens r.2 = [] ∧ closes r.2 = [] →
      opens (checkCertKey e r).2 = [] ∧ closes (checkCertKey e r).2 = [] := by
    intro r hr
    unfold checkCertKey
    split_ifs <;> first
      | exact hr
      | (constructor <;> simp [opens_append, closes_append, hr.1, hr.2, (hc _).1, (hc _).2])
  unfold loadCerts
  apply h3
  split_ifs
  · exact h1
  · exact h2
  · exact ⟨rfl, rfl⟩

/-- The iterations of the cipher loop when the first set-up failure is at index
`k`: those of the first `k + 1` catalog ciphers, and the status is false. -/
theorem cipherLoop_segments_at_failure (o : sslCheckOptions) (env : Nat → ProbeEnv)
    (cat : List sslCipher) (k : Nat) (hk : k < cat.length)
    (hrun : ∀ j, j < k → probeRuns o (env j)) (hfail : ¬ probeRuns o (env k)) :
    cipherLoop o env 0 cat true =
      (false, (cat.enum.take (k + 1)).map (fun p => (probeIteration o p.2 (env p.1)).2)) := by
  have h1 := cipherLoop_first_failure o env cat 0 k hk (by simpa using hrun)
    (by simpa using hfail)
  have h2 := cipherLoop_initial_segment o env cat 0 true
  have h3 := List.prefix_iff_eq_take.mp h2
  rw [h1.2, ← List.map_take] at h3
  exact Prod.ext h1.1 h3

/-- A probe whose cipher restriction the engine refuses, after a successful
connection: no handshake, the one restriction call, the socket closed. -/
theorem testCipher_restriction_failure (o : sslCheckOptions) (c : sslCipher) (e : ProbeEnv)
    (hconn : (tcpConnect o e.conn).1 ≠ 0) (hset : e.setCipherList = 0) :
    testCipher o c e = (false, (tcpConnect o e.conn).2 ++
      [Event.setCipherList c.name 0,
       Event.err (COL_RED ++ "    ERROR: Could set cipher " ++ c.name ++ "." ++ RESET ++ "\n"),
       Event.close (tcpConnect o e.conn).1]) := by
  unfold testCipher
  simp [hconn, hset]

/-- The loop iteration of a probe whose cipher restriction the engine refuses. -/
theorem probeIteration_restriction_failure (o : sslCheckOptions) (c : sslCipher)
    (e : ProbeEnv) (hctx : e.ctxNew = true)
    (hcerts : (o.clientCertsFile.isSome || o.privateKeyFile.isSome) = true →
      (loadCerts o e.certs).1 = true)
    (hconn : (tcpConnect o e.conn).1 ≠ 0) (hset : e.setCipherList = 0) :
    (probeIteration o c e).1 = false ∧
    handshakes (probeIteration o c e).2 = [] ∧
    cipherLists (probeIteration o c e).2 = [c.name] ∧
    opens (probeIteration o c e).2 = [e.conn.socketFd] ∧
    closes (probeIteration o c e).2 = [e.conn.socketFd] := by
  have hu : ¬ iterationReaches o e := fun h => h.2.2.2.1 hset
  have h1 := probeIteration_unreached o c e hu
  have hs := tcpConnect_sockets o e.conn hconn
  have ht := testCipher_restriction_failure o c e hconn hset
  have hl := loadCerts_sockets o e.certs
  have hl2 := loadCerts_handshakes o e.certs
  have hcl := tcpConnect_cipherLists o e.conn
  refine ⟨h1.2.2, h1.2.1, ?_, ?_, ?_⟩
  all_goals
    unfold probeIteration
    by_cases hc : (o.clientCertsFile.isSome || o.privateKeyFile.isSome) = true
    · have h3 := hcerts hc
      simp only [hctx, hc, h3, if_true, ht, cipherLists_append, opens_append, closes_append,
        hl.1, hl.2, hl2.2, hs.1, hs.2.1, hs.2.2, hcl]
      simp [cipherLists, opens, closes]
    · simp only [hctx, hc, if_true, Bool.false_eq_true, if_false, ht, cipherLists_append,
        opens_append, closes_append, hs.1, hs.2.1, hs.2.2, hcl]
      simp [cipherLists, opens, closes]


/-- C13. If `SSL_CTX_set_cipher_list` returns 0 in `testCipher` for the catalog
cipher number `k` (the earlier probes ran, and this one got its context, its
certificates and its connection), then no handshake is attempted for that
cipher, the connection opened for the probe is closed, that iteration is the
last one of the cipher loop, no preferred-cipher probe is made, the
certificate inspection is not run, and `testHost` returns failure after closing
its XML element. -/
theorem testHost_cipher_restriction_failure (o : sslCheckOptions) (env : HostEnv)
    (k : Nat) (c : sslCipher) (hres : env.resolves = true) (hk : o.ciphers[k]? = some c)
    (hrun : ∀ j, j < k → probeRuns o (env.cipherEnv j))
    (hctx : (env.cipherEnv k).ctxNew = true)
    (hcerts : (o.clientCertsFile.isSome || o.privateKeyFile.isSome) = true →
      (loadCerts o (env.cipherEnv k).certs).1 = true)
    (hconn : (tcpConnect o (env.cipherEnv k).conn).1 ≠ 0)
    (hset : (env.cipherEnv k).setCipherList = 0) :
    handshakes (probeIteration o c (env.cipherEnv k)).2 = [] ∧
    cipherLists (probeIteration o c (env.cipherEnv k)).2 = [c.name] ∧
    opens (probeIteration o c (env.cipherEnv k)).2 = [(env.cipherEnv k).conn.socketFd] ∧
    closes (probeIteration o c (env.cipherEnv k)).2 = [(env.cipherEnv k).conn.socketFd] ∧
    (testHost o env).probes =
      (o.ciphers.enum.take (k + 1)).map
        (fun p => (probeIteration o p.2 (env.cipherEnv p.1)).2) ∧
    (testHost o env).preferredHeading = [] ∧
    (testHost o env).preferred = [] ∧
    (testHost o env).certificate = none ∧
    (testHost o env).outro = xmlIf o " </ssltest>\n" ∧
    (testHost o env).status = false := by
  have hit := probeIteration_restriction_failure o c (env.cipherEnv k) hctx hcerts hconn hset
  have hklt : k < o.ciphers.length := by
    rcases Nat.lt_or_ge k o.ciphers.length with h | h
    · exact h
    · rw [List.getElem?_eq_none h] at hk; exact absurd hk (by simp)
  have hfail : ¬ probeRuns o (env.cipherEnv k) := fun h => h.2.2.1.2.1 hset
  have hloop := cipherLoop_segments_at_failure o env.cipherEnv o.ciphers k hklt hrun hfail
  refine ⟨hit.2.1, hit.2.2.1, hit.2.2.2.1, hit.2.2.2.2, ?_, ?_, ?_, ?_, ?_, ?_⟩ <;>
    simp [testHost, hres, hloop]

/-- Witness for C13: the engine refuses the restriction to the first of two
catalog ciphers. -/
theorem testHost_cipher_restriction_failure_witness :
    (testHost tls1XmlOptions restrictionFailHostEnv).preferred = [] ∧
    (testHost tls1XmlOptions restrictionFailHostEnv).certificate = none ∧
    (testHost tls1XmlOptions restrictionFailHostEnv).status = false :=
  have h := testHost_cipher_restriction_failure tls1XmlOptions restrictionFailHostEnv 0
    sampleCipher (by decide) (by decide) (fun j hj => absurd hj (Nat.not_lt_zero j))
    (by decide) (by decide) (by decide) (by decide)
  ⟨h.2.2.2.2.2.2.1, h.2.2.2.2.2.2.2.1, h.2.2.2.2.2.2.2.2.2⟩

/-! ### The preferred-cipher probes -/

/-- The SNI and OCSP requests leave the status true exactly when the engine
accepts each one that is enabled. -/
theorem tlsExtSetup_status (o : sslCheckOptions) (e : ProbeEnv) :
    (tlsExtSetup o e).1 = true ↔
      (o.sniEnable = true → e.setHostName = true) ∧
      (o.OCSPStatusRequest = true → e.setStatusType = true) := by
  unfold tlsExtSetup
  by_cases hs : o.sniEnable = true <;> by_cases hh : e.setHostName = true <;>
    by_cases ho : o.OCSPStatusRequest = true <;> by_cases ht : e.setStatusType = true <;>
    simp_all

/-- The SNI and OCSP requests write no report, attempt no handshake and touch no
socket. -/
theorem tlsExtSetup_quiet (o : sslCheckOptions) (e : ProbeEnv) :
    reports (tlsExtSetup o e).2 = [] ∧ handshakes (tlsExtSetup o e).2 = [] ∧
    opens (tlsExtSetup o e).2 = [] ∧ closes (tlsExtSetup o e).2 = [] := by
  unfold tlsExtSetup
  dsimp only
  refine ⟨?_, ?_, ?_, ?_⟩ <;> split_ifs <;> rfl

/-- The function `defaultCipher` returns true exactly when no set-up step of
the probe fails, whatever the handshake gives. -/
theorem defaultCipher_status (o : sslCheckOptions) (m : SslMethod) (e : PreferredEnv) :
    (defaultCipher o m e).1 = true ↔ probeRuns o e.probe := by
  unfold defaultCipher probeRuns reachesHandshake
  dsimp only
  by_cases hc : (tcpConnect o e.probe.conn).1 = 0
  · simp [hc]
  by_cases hx : e.probe.ctxNew = true
  swap
  · simp [hc, hx]
  by_cases hs : e.probe.setCipherList = 0
  · simp [hc, hx, hs]
  by_cases hn : e.probe.sslNew = true
  swap
  · simp only [ne_eq, hc, not_false_eq_true, if_true, hx, hs, hn]
    split_ifs <;> simp_all
  by_cases hf : (o.clientCertsFile.isSome || o.privateKeyFile.isSome) = true
  · by_cases hl : (loadCerts o e.probe.certs).1 = true
    · simp [hc, hx, hs, hn, hf, hl, tlsExtSetup_status]
    · simp [hc, hx, hs, hn, hf, hl]
  · simp [hc, hx, hs, hn, hf, tlsExtSetup_status]

/-- The report of a trace, event by event. -/
theorem reports_cons (ev : Event) (t : List Event) :
    reports (ev :: t) = if ev.isReport = true then ev :: reports t else reports t := by
  unfold reports
  rw [List.filter_cons]

/-- The empty trace writes no report. -/
theorem reports_nil : reports [] = [] := rfl

/-- The record of a preferred-cipher probe: written exactly when the probe
reaches the handshake and the handshake succeeds. -/
theorem defaultCipher_reports (o : sslCheckOptions) (m : SslMethod) (e : PreferredEnv) :
    reports (defaultCipher o m e).2 =
      if iterationReaches o e.probe ∧ e.probe.sslConnect = 1 then
        reports (showDefault o m e.cipherBits e.cipherName)
      else [] := by
  have hext := (tlsExtSetup_quiet o e.probe).1
  have htc := tcpConnect_reports o e.probe.conn
  unfold defaultCipher
  dsimp only
  split_ifs with hc hx hs hl hn hr hr hr
  all_goals simp only [reports_append, htc, loadCerts_reports, hext, List.nil_append,
    List.append_nil, reports_cons, reports_nil, Event.isReport, if_false, Bool.false_eq_true]
  all_goals first
    | rfl
    | (exfalso; simp_all [iterationReaches, reachesHandshake])

/-- Once the status is false no further preferred-cipher probe is made. -/
theorem preferredLoop_false (o : sslCheckOptions) (env : SslMethod → PreferredEnv)
    (table : List (Nat × SslMethod)) : preferredLoop o env table false = (false, []) := by
  induction table with
  | nil => rfl
  | cons p rest ih =>
    obtain ⟨mask, m⟩ := p
    unfold preferredLoop
    rw [if_neg (fun h => h.2 rfl)]
    exact ih

/-- Every call the preferred-cipher section makes is a `defaultCipher` for its
protocol version. -/
theorem preferredLoop_mem (o : sslCheckOptions) (env : SslMethod → PreferredEnv)
    (table : List (Nat × SslMethod)) : ∀ (status : Bool) (p : SslMethod × List Event),
      p ∈ (preferredLoop o env table status).2 → p.2 = (defaultCipher o p.1 (env p.1)).2 := by
  induction table with
  | nil => intro status p hp; simp [preferredLoop] at hp
  | cons q rest ih =>
    obtain ⟨mask, m⟩ := q
    intro status p hp
    unfold preferredLoop at hp
    split_ifs at hp with h
    · rcases List.mem_cons.mp hp with h1 | h1
      · rw [h1]
      · exact ih _ p h1
    · exact ih _ p hp

/-- When no enabled version meets a set-up failure, the preferred-cipher section
probes every enabled version, in table order, and leaves the status true. -/
theorem preferredLoop_all_run (o : sslCheckOptions) (env : SslMethod → PreferredEnv)
    (table : List (Nat × SslMethod))
    (h : ∀ p ∈ table, versionEnabled o p.1 = true → probeRuns o (env p.2).probe) :
    (preferredLoop o env table true).1 = true ∧
    (preferredLoop o env table true).2.map Prod.fst =
      (table.filter (fun p => versionEnabled o p.1)).map Prod.snd := by
  induction table with
  | nil => exact ⟨rfl, rfl⟩
  | cons q rest ih =>
    obtain ⟨mask, m⟩ := q
    have ih1 := ih (fun p hp => h p (List.mem_cons_of_mem _ hp))
    unfold preferredLoop
    by_cases he : versionEnabled o mask = true
    · have hrun := (defaultCipher_status o m (env m)).mpr (h (mask, m) (List.mem_cons_self _ _) he)
      have hc : versionEnabled o mask = true ∧ true ≠ false := ⟨he, by decide⟩
      rw [if_pos hc, hrun]
      refine ⟨ih1.1, ?_⟩
      rw [List.filter_cons_of_pos (by simpa using he)]
      simp only [List.map_cons]
      rw [ih1.2]
    · have hc : ¬(versionEnabled o mask = true ∧ true ≠ false) := fun hh => he hh.1
      rw [if_neg hc]
      rw [List.filter_cons_of_neg (by simpa using he)]
      exact ih1

/-- At the first enabled version whose probe meets a set-up failure the
preferred-cipher section stops: the versions probed are the enabled ones up to
and including that version, and the status is false. -/
theorem preferredLoop_first_failure (o : sslCheckOptions) (env : SslMethod → PreferredEnv)
    (pre post : List (Nat × SslMethod)) (mask : Nat) (m : SslMethod)
    (h : ∀ p ∈ pre, versionEnabled o p.1 = true → probeRuns o (env p.2).probe)
    (he : versionEnabled o mask = true) (hfail : ¬probeRuns o (env m).probe) :
    (preferredLoop o env (pre ++ (mask, m) :: post) true).1 = false ∧
    (preferredLoop o env (pre ++ (mask, m) :: post) true).2.map Prod.fst =
      (pre.filter (fun p => versionEnabled o p.1)).map Prod.snd ++ [m] := by
  induction pre with
  | nil =>
    have hst : (defaultCipher o m (env m)).1 = false := by
      cases hd : (defaultCipher o m (env m)).1
      · rfl
      · exact absurd ((defaultCipher_status o m (env m)).mp hd) hfail
    have hc : versionEnabled o mask = true ∧ true ≠ false := ⟨he, by decide⟩
    simp only [List.nil_append, List.filter_nil, List.map_nil]
    unfold preferredLoop
    rw [if_pos hc, hst, preferredLoop_false]
    exact ⟨rfl, rfl⟩
  | cons q rest ih =>
    obtain ⟨mask1, m1⟩ := q
    have ih1 := ih (fun p hp => h p (List.mem_cons_of_mem _ hp))
    rw [List.cons_append]
    unfold preferredLoop
    by_cases he1 : versionEnabled o mask1 = true
    · have hrun := (defaultCipher_status o m1 (env m1)).mpr
        (h (mask1, m1) (List.mem_cons_self _ _) he1)
      have hc : versionEnabled o mask1 = true ∧ true ≠ false := ⟨he1, by decide⟩
      rw [if_pos hc, hrun]
      refine ⟨ih1.1, ?_⟩
      rw [List.filter_cons_of_pos (by simpa using he1)]
      simp only [List.map_cons, List.cons_append]
      rw [ih1.2]
    · have hc : ¬(versionEnabled o mask1 = true ∧ true ≠ false) := fun hh => he1 hh.1
      rw [if_neg hc]
      rw [List.filter_cons_of_neg (by simpa using he1)]
      exact ih1

/-- C11 (counterexample). With SSLv3 and TLSv1 enabled and a host that refuses
the connection of the SSLv3 preferred-cipher probe, `testHost` probes SSLv3
only: TLSv1 is never probed, the certificate inspection is not run, and
`testHost` returns failure. -/
theorem testHost_preferred_setup_failure_aborts :
    enabledMethods ssl3Tls1Options =
      [SslMethod.SSLv3_client_method, SslMethod.TLSv1_client_method] ∧
    (testHost ssl3Tls1Options ssl3RefusedHostEnv).preferred.map Prod.fst =
      [SslMethod.SSLv3_client_method] ∧
    (testHost ssl3Tls1Options ssl3RefusedHostEnv).certificate = none ∧
    (testHost ssl3Tls1Options ssl3RefusedHostEnv).status = false := by
  decide

/-- C11 (amended). For a host that resolves and whose cipher loop succeeded:
every preferred-cipher probe `testHost` makes is a `defaultCipher` whose record
is written exactly when the probe reaches the handshake and the handshake
succeeds; when no enabled version meets a set-up failure (whatever the
handshakes give), every enabled version is probed, in the fixed order, and the
certificate inspection runs; at the first enabled version whose probe meets a
set-up failure (connection, preamble, engine configuration) the section stops:
no later version is probed, the certificate inspection is not run, and
`testHost` returns failure. -/
theorem testHost_preferred_probes (o : sslCheckOptions) (env : HostEnv)
    (hres : env.resolves = true)
    (hloop : (cipherLoop o env.cipherEnv 0 o.ciphers true).1 = true) :
    (∀ p ∈ (testHost o env).preferred,
      reports p.2 =
        if iterationReaches o (env.preferred p.1).probe ∧
            (env.preferred p.1).probe.sslConnect = 1 then
          reports (showDefault o p.1 (env.preferred p.1).cipherBits
            (env.preferred p.1).cipherName)
        else []) ∧
    ((∀ p ∈ versionTable, versionEnabled o p.1 = true →
        probeRuns o (env.preferred p.2).probe) →
      (testHost o env).preferred.map Prod.fst = enabledMethods o ∧
      (testHost o env).certificate = some (getCertificate o env.certificate).2 ∧
      (testHost o env).status = (getCertificate o env.certificate).1) ∧
    (∀ (pre post : List (Nat × SslMethod)) (mask : Nat) (m : SslMethod),
      versionTable = pre ++ (mask, m) :: post →
      (∀ p ∈ pre, versionEnabled o p.1 = true → probeRuns o (env.preferred p.2).probe) →
      versionEnabled o mask = true → ¬probeRuns o (env.preferred m).probe →
      (testHost o env).preferred.map Prod.fst =
        (pre.filter (fun p => versionEnabled o p.1)).map Prod.snd ++ [m] ∧
      (testHost o env).certificate = none ∧
      (testHost o env).status = false) := by
  have hpref : (testHost o env).preferred =
      (preferredLoop o env.preferred versionTable true).2 := by
    simp [testHost, hres, hloop]
  refine ⟨?_, ?_, ?_⟩
  · intro p hp
    rw [hpref] at hp
    rw [preferredLoop_mem o env.preferred versionTable true p hp]
    exact defaultCipher_reports o p.1 (env.preferred p.1)
  · intro hall
    have h := preferredLoop_all_run o env.preferred versionTable hall
    refine ⟨?_, ?_, ?_⟩
    · rw [hpref, h.2]
      rfl
    · simp [testHost, hres, hloop, h.1]
    · simp [testHost, hres, hloop, h.1]
  · intro pre post mask m htab hpre he hfail
    have h := preferredLoop_first_failure o env.preferred pre post mask m hpre he hfail
    rw [← htab] at h
    refine ⟨?_, ?_, ?_⟩
    · rw [hpref, h.2]
    · simp [testHost, hres, hloop, h.1]
    · simp [testHost, hres, hloop, h.1]

/-- Witness for C11: with SSLv3 and TLSv1 enabled and a host whose SSLv3
preferred-cipher handshake fails, both versions are probed and the certificate
inspection runs. -/
theorem testHost_preferred_probes_witness :
    (testHost ssl3Tls1Options ssl3HandshakeFailHostEnv).preferred.map Prod.fst =
      [SslMethod.SSLv3_client_method, SslMethod.TLSv1_client_method] ∧
    (testHost ssl3Tls1Options ssl3HandshakeFailHostEnv).certificate =
      some (getCertificate ssl3Tls1Options ssl3HandshakeFailHostEnv.certificate).2 :=
  have h := (testHost_preferred_probes ssl3Tls1Options ssl3HandshakeFailHostEnv (by decide)
    (by decide)).2.1 (by decide)
  ⟨h.1.trans (by decide), h.2.1⟩

/-! ### The certificate inspection without a certificate -/

/-- The XML writes of a trace, event by event. -/
theorem xmlOf_cons (ev : Event) (t : List Event) :
    xmlOf (ev :: t) = (match ev with | Event.xml s => [s] | _ => []) ++ xmlOf t := by
  cases ev <;> rfl

/-- The empty trace writes no XML. -/
theorem xmlOf_nil : xmlOf [] = [] := rfl

/-- C16 (counterexample). With SNI enabled, when the engine refuses the server
name, the handshake completes and the peer presents no certificate,
`getCertificate` returns failure. -/
theorem getCertificate_no_certificate_failure :
    sniRefusedCertificateEnv.peerCertificate = none ∧
    handshakes (getCertificate sniXmlOptions sniRefusedCertificateEnv).2 = [1] ∧
    xmlOf (getCertificate sniXmlOptions sniRefusedCertificateEnv).2 =
      ["  <certificate>\n", "  </certificate>\n"] ∧
    (getCertificate sniXmlOptions sniRefusedCertificateEnv).1 = false := by
  decide

/-- C16 (amended). When `getCertificate` reaches its handshake, the handshake
completes and the engine returns no certificate: the XML written is the opening
of the certificate element, with no certificate field, and its closing unless
the function leaves by an early return of the OCSP block; the function returns
success whenever the SNI and status requests were accepted by the engine; its
return value is the one it gives when a certificate is present; and the earlier
sections of `testHost` do not depend on the certificate inspection. -/
theorem getCertificate_no_certificate (o : sslCheckOptions) (e : CertificateEnv)
    (hreach : iterationReaches o e.probe) (hlv : e.loadVerify = true)
    (hconn : e.probe.sslConnect = 1) (hnone : e.peerCertificate = none) :
    xmlOf (getCertificate o e).2 =
      (if o.xmlOutput = true then
        "  <certificate>\n" ::
          (if (certificateBlock o e).1 = true then [] else ["  </certificate>\n"])
       else []) ∧
    ((tlsExtSetup o e.probe).1 = true → (getCertificate o e).1 = true) ∧
    (∀ c : Option X509,
      (getCertificate o { e with peerCertificate := c }).1 = (getCertificate o e).1) ∧
    (∀ (env : HostEnv) (ce : CertificateEnv),
      (testHost o { env with certificate := ce }).intro = (testHost o env).intro ∧
      (testHost o { env with certificate := ce }).probes = (testHost o env).probes ∧
      (testHost o { env with certificate := ce }).preferredHeading =
        (testHost o env).preferredHeading ∧
      (testHost o { env with certificate := ce }).preferred = (testHost o env).preferred) := by
  obtain ⟨hx, hcert, hc, hs, hn⟩ := hreach
  have hlc : ((if (o.clientCertsFile.isSome || o.privateKeyFile.isSome) = true then
      loadCerts o e.probe.certs else (true, [])).1 = true) := by
    split_ifs with h
    · exact hcert h
    · rfl
  have hlcx : xmlOf (if (o.clientCertsFile.isSome || o.privateKeyFile.isSome) = true then
      loadCerts o e.probe.certs else (true, [])).2 = [] := by
    split_ifs
    · exact xmlOf_nil_of_reports (loadCerts_reports o e.probe.certs)
    · rfl
  have htx := xmlOf_nil_of_reports (tcpConnect_reports o e.probe.conn)
  have hex := xmlOf_nil_of_reports (tlsExtSetup_quiet o e.probe).1
  refine ⟨?_, ?_, ?_, ?_⟩
  · unfold getCertificate certificateBlock
    dsimp only
    rw [if_pos hc, if_pos hx, if_pos hlv, if_pos hs, if_pos hlc, if_pos hn, if_pos hconn, hnone]
    dsimp only
    unfold xmlIf
    generalize (if (o.clientCertsFile.isSome || o.privateKeyFile.isSome) = true then
      loadCerts o e.probe.certs else (true, [])) = lc at hlc hlcx ⊢
    split_ifs <;>
      simp only [xmlOf_append, htx, hlcx, hex, xmlOf_cons, xmlOf_nil, List.nil_append,
        List.append_nil, List.cons_append] <;> simp_all
  · intro hext
    unfold getCertificate
    dsimp only
    rw [if_pos hc, if_pos hx, if_pos hlv, if_pos hs, if_pos hlc, if_pos hn, if_pos hconn]
    split_ifs <;> first | rfl | exact hext
  · intro c
    unfold getCertificate certificateBlock
    dsimp only
    split_ifs <;> rfl
  · intro env ce
    by_cases h : env.resolves = true
    · refine ⟨?_, ?_, ?_, ?_⟩ <;> simp [testHost, h]
    · refine ⟨?_, ?_, ?_, ?_⟩ <;> simp [testHost, h]

/-- Witness for C16: a plain host that completes the handshake and presents no
certificate gives an empty certificate element and success. -/
theorem getCertificate_no_certificate_witness :
    xmlOf (getCertificate xmlOptions (certificateEnvOn plainPeer 1 none false false)).2 =
      ["  <certificate>\n", "  </certificate>\n"] ∧
    (getCertificate xmlOptions (certificateEnvOn plainPeer 1 none false false)).1 = true :=
  have h := getCertificate_no_certificate xmlOptions
    (certificateEnvOn plainPeer 1 none false false)
    ⟨by decide, by decide, by decide, by decide, by decide⟩ (by decide) (by decide) (by decide)
  ⟨h.1.trans (by decide), h.2.1 (by decide)⟩

/-! ### The cipher catalog -/

/-- The loop of `populateCipherList` appends one entry per engine cipher, in the
engine's order, after the entries already in the list. -/
theorem populateLoop_append (m : SslMethod) (cs : List SSL_CIPHER) :
    ∀ ciphers : List sslCipher,
      populateLoop m cs ciphers = ciphers ++ cs.map (cipherEntry m) := by
  induction cs with
  | nil => intro ciphers; simp [populateLoop]
  | cons c rest ih =>
    intro ciphers
    unfold populateLoop
    rw [ih]
    cases ciphers <;> simp

/-- The options `populateCipherList` leaves: only the catalog changes, by the
entries of the engine's enumeration appended at its end. -/
theorem populateCipherList_options (o : sslCheckOptions) (m : SslMethod) (e : EngineEnv) :
    (populateCipherList o m e).2.2 =
      { o with ciphers := o.ciphers ++ (enumeration e).map (cipherEntry m) } := by
  unfold populateCipherList enumeration
  by_cases hc : e.ctxNew = true <;> by_cases hs : e.sslNew = true <;>
    simp [hc, hs, populateLoop_append]

/-- The options the catalog build of `main` leaves, for any table of versions. -/
theorem buildCipherList_options (engine : SslMethod → EngineEnv)
    (table : List (Nat × SslMethod)) : ∀ o : sslCheckOptions,
      (buildCipherList engine table o).2 =
        { o with ciphers := o.ciphers ++ (((table.filter (fun p => versionEnabled o p.1)).map
            Prod.snd).flatMap (fun m => (enumeration (engine m)).map (cipherEntry m))) } := by
  induction table with
  | nil => intro o; simp [buildCipherList]
  | cons p rest ih =>
    obtain ⟨mask, m⟩ := p
    intro o
    unfold buildCipherList
    by_cases he : versionEnabled o mask = true
    · rw [if_pos he]
      dsimp only
      rw [ih, populateCipherList_options]
      rw [List.filter_cons_of_pos (by simpa using he)]
      simp [versionEnabled, List.append_assoc]
    · rw [if_neg he, ih]
      rw [List.filter_cons_of_neg (by simpa using he)]

/-- No pass of the parameter loop touches the catalog. -/
theorem parseArg_ciphers (s : MainState) (argLoop : Nat) (arg : String) :
    (parseArg s argLoop arg).options.ciphers = s.options.ciphers := by
  unfold parseArg
  simp only [apply_ite MainState.options, apply_ite sslCheckOptions.ciphers, ite_self]

/-- The parameter loop leaves the catalog as it found it. -/
theorem parseArgsFrom_ciphers (args : List String) : ∀ (argLoop : Nat) (s : MainState),
    (parseArgsFrom argLoop args s).options.ciphers = s.options.ciphers := by
  induction args with
  | nil => intro argLoop s; rfl
  | cons a rest ih =>
    intro argLoop s
    unfold parseArgsFrom
    rw [ih, parseArg_ciphers]

/-- After the parameters are read the catalog is empty. -/
theorem parseArgs_ciphers (args : List String) : (parseArgs args).options.ciphers = [] := by
  unfold parseArgs sniDefault
  dsimp only
  split_ifs
  · exact parseArgsFrom_ciphers args 1 initState
  · exact parseArgsFrom_ciphers args 1 initState

/-- C14. The function `populateCipherList` changes nothing in the options but
the catalog, to which it appends the engine's enumeration for the given
protocol version, in the engine's order, after the entries already there; and
the catalog `main` builds, from the empty catalog the parameter loop leaves, is
the concatenation, in the order SSLv2, SSLv3, TLSv1, TLSv1.1, TLSv1.2, of the
enumerations of exactly the enabled versions, each entry carrying the method of
its version. -/
theorem populateCipherList_catalog :
    (∀ (o : sslCheckOptions) (m : SslMethod) (e : EngineEnv),
      (populateCipherList o m e).2.2 =
        { o with ciphers := o.ciphers ++ (enumeration e).map (cipherEntry m) }) ∧
    (∀ (engine : SslMethod → EngineEnv) (args : List String),
      (buildCipherList engine versionTable (parseArgs args).options).2.ciphers =
        (enabledMethods (parseArgs args).options).flatMap
          (fun m => (enumeration (engine m)).map (cipherEntry m))) ∧
    versionTable.map Prod.snd =
      [SslMethod.SSLv2_client_method, SslMethod.SSLv3_client_method,
       SslMethod.TLSv1_client_method, SslMethod.TLSv1_1_client_method,
       SslMethod.TLSv1_2_client_method] ∧
    (∀ (m : SslMethod) (c : SSL_CIPHER),
      (cipherEntry m c).sslMethod = m ∧ (cipherEntry m c).name = c.name ∧
      (cipherEntry m c).version = c.version ∧ (cipherEntry m c).bits = c.bits) := by
  refine ⟨populateCipherList_options, ?_, rfl, fun m c => ⟨rfl, rfl, rfl, rfl⟩⟩
  intro engine args
  rw [buildCipherList_options]
  simp [parseArgs_ciphers, enabledMethods]

/-! ### The program parameters -/

/-- C18 (the code at the failing input). For `sslscan --sni=example.org host`
SNI is enabled and the server name the parameter loop stored, `example.org`, is
replaced by the host: the name `testCipher` passes to the engine is `host`. -/
theorem main_sni_name_overwritten :
    (parseArgsFrom 1 ["--sni=example.org", "host"] initState).options.sniServername =
      "example.org" ∧
    (parseArgs ["--sni=example.org", "host"]).mode = mode_single ∧
    (parseArgs ["--sni=example.org", "host"]).options.sniEnable = true ∧
    (parseArgs ["--sni=example.org", "host"]).options.host = "host" ∧
    (parseArgs ["--sni=example.org", "host"]).options.sniServername = "host" ∧
    serverNames (testCipher (parseArgs ["--sni=example.org", "host"]).options sampleCipher
      (probeEnvOn plainPeer 1 [])).2 = ["host"] := by
  decide

/-- C19 (the code at the failing input). For `sslscan host:990 --ftps` the FTP
protocol is selected and the port scanned is 21, not 990: the later `--ftps`
overwrites the port of the target; with the target last the port is 990. -/
theorem main_port_depends_on_order :
    (parseArgs ["host:990", "--ftps"]).mode = mode_single ∧
    (parseArgs ["host:990", "--ftps"]).options.ftps = true ∧
    (parseArgs ["host:990", "--ftps"]).options.host = "host" ∧
    (parseArgs ["host:990", "--ftps"]).options.port = 21 ∧
    (parseArgs ["--ftps", "host:990"]).options.port = 990 ∧
    (parseArgs ["host", "--ftps"]).options.port = 21 ∧
    (parseArgs ["--ftps", "host"]).options.port = 21 := by
  decide

/-! ### readLine and the target list -/

/-- A line shorter than the count, followed by a newline, is taken whole by
`fgets`, newline included. -/
theorem fgetsBytes_line (l rest : List Nat) (h10 : 10 ∉ l) :
    ∀ n, l.length < n → fgetsBytes n (l ++ 10 :: rest) = l ++ [10] := by
  induction l with
  | nil =>
    intro n hn
    obtain ⟨m, rfl⟩ := Nat.exists_eq_succ_of_ne_zero (Nat.pos_iff_ne_zero.mp hn)
    simp [fgetsBytes]
  | cons c cs ih =>
    intro n hn
    obtain ⟨m, rfl⟩ := Nat.exists_eq_succ_of_ne_zero (Nat.pos_iff_ne_zero.mp (Nat.zero_lt_of_lt hn))
    have hc : c ≠ 10 := fun h => h10 (h ▸ List.mem_cons_self _ _)
    have hcs : 10 ∉ cs := fun h => h10 (List.mem_cons_of_mem _ h)
    have hm : cs.length < m := by simpa using hn
    simp [fgetsBytes, hc, ih hcs m hm]

/-- What is left of a file without a newline, when no longer than the count, is
taken whole by `fgets`. -/
theorem fgetsBytes_last (l : List Nat) (h10 : 10 ∉ l) :
    ∀ n, l.length ≤ n → fgetsBytes n l = l := by
  induction l with
  | nil => intro n _; cases n <;> rfl
  | cons c cs ih =>
    intro n hn
    obtain ⟨m, rfl⟩ := Nat.exists_eq_succ_of_ne_zero (Nat.pos_iff_ne_zero.mp
      (Nat.lt_of_lt_of_le (Nat.succ_pos _) hn))
    have hc : c ≠ 10 := fun h => h10 (h ▸ List.mem_cons_self _ _)
    have hcs : 10 ∉ cs := fun h => h10 (List.mem_cons_of_mem _ h)
    have hm : cs.length ≤ m := by simpa using hn
    simp [fgetsBytes, hc, ih hcs m hm]

/-- The length of a string that holds no zero byte before its terminator. -/
theorem strlen_append (a b : List Nat) (h0 : 0 ∉ a) :
    strlen (a ++ 0 :: b) = some a.length := by
  induction a with
  | nil => simp [strlen]
  | cons c cs ih =>
    have hc : c ≠ 0 := fun h => h0 (h ▸ List.mem_cons_self _ _)
    have hcs : 0 ∉ cs := fun h => h0 (List.mem_cons_of_mem _ h)
    simp [strlen, hc, ih hcs]

/-- A buffer that holds a zero byte has a length. -/
theorem strlen_isSome (buf : List Nat) (h0 : 0 ∈ buf) : ∃ n, strlen buf = some n := by
  induction buf with
  | nil => simp at h0
  | cons c cs ih =>
    by_cases hc : c = 0
    · exact ⟨0, by simp [strlen, hc]⟩
    · have hcs : 0 ∈ cs := by
        rcases List.mem_cons.mp h0 with h | h
        · exact absurd h.symm hc
        · exact h
      obtain ⟨n, hn⟩ := ih hcs
      exact ⟨n + 1, by simp [strlen, hc, hn]⟩

/-- When the byte in front of the buffer is not one the loop clears, the loop of
`readLine` stays inside the buffer and gives a result. -/
theorem stripLoop_isSome (guard : Nat) (hg : isStrip guard = false) :
    ∀ (n : Nat) (buf : List Nat), ∃ b, stripLoop guard n buf = some b := by
  intro n
  induction n with
  | zero => intro buf; exact ⟨buf, by simp [stripLoop, hg]⟩
  | succ n ih =>
    intro buf
    unfold stripLoop
    split_ifs
    · exact ih _
    · exact ⟨buf, rfl⟩

/-- The loop of `readLine` on a string `l`: the bytes it clears are the trailing
carriage returns, newlines and spaces, each replaced by a zero byte. -/
theorem stripLoop_spec (guard : Nat) (l : List Nat) :
    ∀ rest : List Nat, (rstrip l = [] → isStrip guard = false) →
      stripLoop guard l.length (l ++ rest) =
        some (rstrip l ++ List.replicate (l.length - (rstrip l).length) 0 ++ rest) := by
  induction l using List.reverseRecOn with
  | nil =>
    intro rest hg
    have := hg (by simp [rstrip])
    simp [stripLoop, this, rstrip]
  | append_singleton l c ih =>
    intro rest hg
    have hlen : (l ++ [c]).length = l.length + 1 := by simp
    have hget : (l ++ [c] ++ rest).getD l.length 0 = c := by
      rw [List.append_assoc, List.getD_eq_getElem?_getD, List.getElem?_append_right (le_refl _)]
      simp
    rw [hlen]
    unfold stripLoop
    rw [hget]
    by_cases hc : isStrip c = true
    · have hr : rstrip (l ++ [c]) = rstrip l := List.rdropWhile_concat_pos _ _ _ hc
      have hset : (l ++ [c] ++ rest).set l.length 0 = l ++ 0 :: rest := by
        simp [List.set_append]
      have hle : (rstrip l).length ≤ l.length := (List.rdropWhile_prefix isStrip l).length_le
      rw [if_pos hc, hset, ih _ (fun h => hg (hr ▸ h)), hr]
      have : l.length + 1 - (rstrip l).length = (l.length - (rstrip l).length) + 1 := by omega
      rw [this, List.replicate_succ']
      simp
    · have hr : rstrip (l ++ [c]) = l ++ [c] := List.rdropWhile_concat_neg _ _ _ hc
      rw [if_neg hc, hr]
      simp

/-- The function `readLine` on a stream that starts with the line `l` and its
newline: the buffer then holds the line without its trailing carriage returns
and spaces, followed by at least two zero bytes, and the stream stands after
the newline with the end-of-file indicator unchanged. -/
theorem readLine_line (guard : Nat) (buf l rest : List Nat) (h0 : 0 ∉ l) (h10 : 10 ∉ l)
    (hlen : l.length ≤ 1022) (hg : rstrip l = [] → isStrip guard = false) :
    ∃ tl, readLine guard { rest := l ++ 10 :: rest, eof := false } buf 1024 =
      some (rstrip l ++ 0 :: 0 :: tl, { rest := rest, eof := false }) := by
  have hb : fgetsBytes (1024 - 1) (l ++ 10 :: rest) = l ++ [10] :=
    fgetsBytes_line l rest h10 1023 (by omega)
  have hf : fgets buf 1024 { rest := l ++ 10 :: rest, eof := false } =
      ((l ++ [10]) ++ 0 :: buf.drop (l.length + 2), { rest := rest, eof := false }) := by
    unfold fgets
    dsimp only
    rw [hb]
    simp
  have h0' : 0 ∉ l ++ [10] := by simp [h0]
  have hr : rstrip (l ++ [10]) = rstrip l :=
    List.rdropWhile_concat_pos _ _ _ (by decide)
  have hle : (rstrip l).length ≤ l.length := (List.rdropWhile_prefix isStrip l).length_le
  have hs := stripLoop_spec guard (l ++ [10]) (0 :: buf.drop (l.length + 2))
    (fun h => hg (hr ▸ h))
  rw [hr] at hs
  have hk : (l ++ [10]).length - (rstrip l).length = (l.length - (rstrip l).length) + 1 := by
    simp; omega
  rw [hk, List.replicate_succ] at hs
  refine ⟨List.replicate (l.length - (rstrip l).length) 0 ++ buf.drop (l.length + 2), ?_⟩
  unfold readLine
  rw [hf]
  dsimp only
  rw [strlen_append _ _ h0']
  dsimp only
  rw [hs]
  have hrep : ∀ (n : Nat) (x : List Nat),
      List.replicate n 0 ++ 0 :: x = 0 :: (List.replicate n 0 ++ x) := by
    intro n x
    induction n with
    | zero => rfl
    | succ n ih => simp [List.replicate_succ, ih]
  simp [hrep]

/-- The function `readLine` on what is left of a file that holds no further
newline: it gives a buffer, and the end-of-file indicator is set. -/
theorem readLine_end (guard : Nat) (buf last : List Nat) (h0 : 0 ∉ last) (h10 : 10 ∉ last)
    (hlen : last.length ≤ 1022) (hbuf : last = [] → 0 ∈ buf) (hg : isStrip guard = false) :
    ∃ r, readLine guard { rest := last, eof := false } buf 1024 = some r ∧ r.2.eof = true := by
  have hb : fgetsBytes (1024 - 1) last = last := fgetsBytes_last last h10 1023 (by omega)
  by_cases hl : last = []
  · subst hl
    obtain ⟨n, hn⟩ := strlen_isSome buf (hbuf rfl)
    obtain ⟨b, hb2⟩ := stripLoop_isSome guard hg n buf
    refine ⟨(b, { rest := [], eof := true }), ?_, rfl⟩
    unfold readLine fgets
    simp [fgetsBytes, hn, hb2]
  · obtain ⟨b, hb2⟩ := stripLoop_isSome guard hg last.length
      (last ++ 0 :: buf.drop (last.length + 1))
    have hlast : last.getLast? ≠ some 10 := by
      intro h
      exact h10 (List.mem_of_getLast?_eq_some h)
    refine ⟨(b, { rest := last.drop last.length, eof := true }), ?_, rfl⟩
    unfold readLine fgets
    dsimp only
    rw [hb, if_neg hl]
    dsimp only
    rw [strlen_append _ _ h0]
    dsimp only
    rw [hb2]
    have : decide (last.length < 1024 - 1) = true := by
      simp
      omega
    simp [this, hlast]

/-- The host loop on a string without zero byte: it stops at the first colon,
or at the terminator. -/
theorem lineHostEnd_append (core rest : List Nat) (h0 : 0 ∉ core) :
    lineHostEnd (core ++ 0 :: rest) = some (core.takeWhile (fun c => c != 58)).length := by
  induction core with
  | nil => simp [lineHostEnd]
  | cons c cs ih =>
    have hc : c ≠ 0 := fun h => h0 (h ▸ List.mem_cons_self _ _)
    have hcs : 0 ∉ cs := fun h => h0 (List.mem_cons_of_mem _ h)
    by_cases h58 : c = 58
    · simp [lineHostEnd, h58]
    · simp [lineHostEnd, hc, h58, ih hcs, List.takeWhile_cons]

/-- The bytes of a zero-terminated string without zero byte. -/
theorem cstring_append (a b : List Nat) (h0 : 0 ∉ a) : cstring (a ++ 0 :: b) = a := by
  induction a with
  | nil => simp [cstring]
  | cons c cs ih =>
    have hc : c ≠ 0 := fun h => h0 (h ▸ List.mem_cons_self _ _)
    have hcs : 0 ∉ cs := fun h => h0 (List.mem_cons_of_mem _ h)
    have := ih hcs
    unfold cstring at this ⊢
    simp [List.takeWhile_cons, hc, this]

/-- The block that reads host and port from the buffer, on a buffer that holds a
string without zero byte followed by two zero bytes: it leaves a buffer with a
zero byte and the options of the target the string names. -/
theorem parseTarget_spec (core tl : List Nat) (o : sslCheckOptions) (h0 : 0 ∉ core) :
    ∃ line1, parseTarget (core ++ 0 :: 0 :: tl) o = some (line1, targetOptions o core) ∧
      0 ∈ line1 := by
  have hsplit := List.takeWhile_append_dropWhile (fun c => c != 58) core
  generalize hpre : core.takeWhile (fun c => c != 58) = pre at hsplit
  generalize hpost : core.dropWhile (fun c => c != 58) = post at hsplit
  have hpre0 : 0 ∉ pre := fun h => h0 (hsplit ▸ List.mem_append_left _ h)
  have hpost0 : 0 ∉ post := fun h => h0 (hsplit ▸ List.mem_append_right _ h)
  have hend := lineHostEnd_append core (0 :: tl) h0
  rw [hpre] at hend
  cases post with
  | nil =>
    have hcore : core = pre := by simpa using hsplit.symm
    subst hcore
    refine ⟨core ++ 0 :: 0 :: tl, ?_, by simp⟩
    have hset : (core ++ 0 :: 0 :: tl).set core.length 0 = core ++ 0 :: 0 :: tl := by
      simp [List.set_append]
    have hdrop : (core ++ 0 :: 0 :: tl).drop (core.length + 1) = 0 :: tl := by
      rw [List.drop_append_eq_append_drop]
      simp
    unfold parseTarget targetOptions
    rw [hend]
    dsimp only
    rw [hset, hdrop, hpre, hpost]
    simp [strlen, cstring_append _ _ h0]
  | cons c post =>
    have hc : c = 58 := by
      have h := List.head_dropWhile_not (fun c => c != 58) core (by rw [hpost]; simp)
      simp [hpost] at h
      exact h
    subst hc
    have hpost0' : 0 ∉ post := fun h => hpost0 (List.mem_cons_of_mem _ h)
    refine ⟨pre ++ 0 :: (post ++ 0 :: 0 :: tl), ?_, by simp⟩
    have hset : (core ++ 0 :: 0 :: tl).set pre.length 0 = pre ++ 0 :: (post ++ 0 :: 0 :: tl) := by
      rw [← hsplit]
      simp [List.set_append]
    have hdrop : (pre ++ 0 :: (post ++ 0 :: 0 :: tl)).drop (pre.length + 1) =
        post ++ 0 :: 0 :: tl := by
      rw [List.drop_append_eq_append_drop]
      simp
    unfold parseTarget targetOptions
    rw [hend]
    dsimp only
    rw [hset, hdrop, hpre, hpost, strlen_append _ _ hpost0', cstring_append _ _ hpre0,
      cstring_append _ _ hpost0']
    cases post with
    | nil => simp
    | cons d ds => simp

/-- The target-list loop on a file whose lines each end with a newline,
followed by what is left without a newline: every line is read, each line that
does not strip to nothing is scanned, in order, and what follows the last
newline is never scanned. -/
theorem targetsLoop_lines (env : TargetsEnv) (hg : ∀ i, isStrip (env.guard i) = false)
    (last : List Nat) (hl0 : 0 ∉ last) (hl10 : 10 ∉ last) (hllen : last.length ≤ 1022)
    (lines : List (List Nat)) :
    (∀ l ∈ lines, 0 ∉ l ∧ 10 ∉ l ∧ l.length ≤ 1022) →
    ∀ (fuel i j : Nat) (line : List Nat) (o : sslCheckOptions),
      lines.length + 1 ≤ fuel → (lines = [] → last = [] → 0 ∈ line) →
      (readLine (env.guard i) { rest := fileOf lines ++ last, eof := false } line 1024).bind
        (fun r => targetsLoop env fuel (i + 1) j r.1 r.2 o) = some (scanLines env j o lines) := by
  induction lines with
  | nil =>
    intro _ fuel i j line o hfuel hline
    obtain ⟨r, hr, heof⟩ := readLine_end (env.guard i) line last hl0 hl10 hllen (hline rfl)
      (hg i)
    obtain ⟨f, rfl⟩ := Nat.exists_eq_succ_of_ne_zero (Nat.pos_iff_ne_zero.mp hfuel)
    simp only [fileOf, List.map_nil, List.flatten_nil, List.nil_append]
    rw [hr]
    simp [targetsLoop, heof, scanLines]
  | cons l ls ih =>
    intro hls fuel i j line o hfuel _
    obtain ⟨h0, h10, hlen⟩ := hls l (List.mem_cons_self _ _)
    have ih1 := ih (fun x hx => hls x (List.mem_cons_of_mem _ hx))
    obtain ⟨f, rfl⟩ := Nat.exists_eq_succ_of_ne_zero
      (Nat.pos_iff_ne_zero.mp (Nat.lt_of_lt_of_le (Nat.succ_pos _) hfuel))
    have hf : ls.length + 1 ≤ f := by simpa using hfuel
    have hfile : fileOf (l :: ls) ++ last = l ++ 10 :: (fileOf ls ++ last) := by
      simp [fileOf]
    obtain ⟨tl, hread⟩ := readLine_line (env.guard i) line l (fileOf ls ++ last) h0 h10 hlen
      (fun _ => hg i)
    have hcore0 : 0 ∉ rstrip l := fun h => h0 ((List.rdropWhile_prefix isStrip l).subset h)
    rw [hfile, hread]
    simp only [Option.some_bind]
    unfold targetsLoop
    simp only [Bool.false_eq_true, if_false]
    rw [strlen_append _ _ hcore0]
    by_cases hcore : rstrip l = []
    · rw [hcore]
      simp only [List.length_nil, List.nil_append]
      rw [ih1 f (i + 1) j _ o hf (fun _ _ => by simp)]
      simp [scanLines, hcore]
    · obtain ⟨c, cs, hcs⟩ := List.exists_cons_of_ne_nil hcore
      obtain ⟨line1, hparse, hz⟩ := parseTarget_spec (rstrip l) tl o hcore0
      have hlen1 : (rstrip l).length = cs.length + 1 := by rw [hcs]; rfl
      rw [hlen1]
      simp only
      rw [hparse]
      simp only
      have hmb : ∀ (x : Option (List Nat × FILE))
          (g : List Nat × FILE → Option (List (sslCheckOptions × HostRun)))
          (h : List (sslCheckOptions × HostRun) → List (sslCheckOptions × HostRun)),
          x.bind (fun a => (g a).map h) = (x.bind g).map h := by
        intro x g h
        cases x <;> rfl
      rw [hmb, ih1 f (i + 1) (j + 1) line1 (targetOptions o (rstrip l)) hf (fun _ _ => hz)]
      simp [scanLines, hcore]

/-- A file holds at least one byte per line. -/
theorem fileOf_length (lines : List (List Nat)) : lines.length ≤ (fileOf lines).length := by
  induction lines with
  | nil => simp
  | cons l ls ih =>
    have : (fileOf (l :: ls)).length = l.length + 1 + (fileOf ls).length := by
      have hcons : fileOf (l :: ls) = (l ++ [10]) ++ fileOf ls := by simp [fileOf]
      rw [hcons, List.length_append, List.length_append]
      rfl
    rw [this, List.length_cons]
    omega

/-- The hosts of the scans a list of lines asks for: the host parts of the lines
that do not strip to nothing, in order. -/
theorem scanLines_hosts (env : TargetsEnv) (lines : List (List Nat)) :
    ∀ (j : Nat) (o : sslCheckOptions),
      (scanLines env j o lines).map (fun r => r.1.host) =
        ((lines.map rstrip).filter (fun t => t ≠ [])).map
          (fun t => text ((t.takeWhile (fun c => c != 58)).take 511)) := by
  induction lines with
  | nil => intro j o; rfl
  | cons l ls ih =>
    intro j o
    unfold scanLines
    by_cases h : rstrip l = []
    · rw [if_pos h, ih]
      simp [h]
    · rw [if_neg h]
      simp [h, ih, targetOptions]

/-- C20 (counterexample). For the three-line list `alpha`, `beta`, `gamma` in
which `beta` does not resolve, the three hosts are scanned but the XML report
gets an entry for `alpha` and `gamma` only: the scan of `beta` writes no XML at
all.  And when the file does not end with a newline, as in `alpha`, newline,
`beta`, the last line is never scanned. -/
theorem scanTargets_failure_and_last_line :
    (scanTargets secondFailsEnv zeroLine (cstr "alpha\nbeta\ngamma\n") xmlOptions).map
      (fun runs => runs.map (fun r => (r.1.host, (xmlOf r.2.trace).head?))) =
      some [("alpha", some " <ssltest host=\"alpha\" port=\"443\">\n"), ("beta", none),
        ("gamma", some " <ssltest host=\"gamma\" port=\"443\">\n")] ∧
    (scanTargets secondFailsEnv zeroLine (cstr "alpha\nbeta") xmlOptions).map
      (fun runs => runs.map (fun r => r.1.host)) = some ["alpha"] := by
  decide

/-! ### The commands of the preambles -/

/-- C23 (the code at the failing input). In FTP, POP3 and IMAP mode `tcpConnect`
passes the byte count 20 to `send` with the commands `AUTH TLS`, `STLS` and
`AA STARTTLS`, whose strings have 10, 6 and 13 bytes; only the two SMTP
commands are sent with the length of their string. -/
theorem tcpConnect_send_counts :
    sends (tcpConnect ftpOptions ftpPeer).2 = [("AUTH TLS\r\n", 20)] ∧
    "AUTH TLS\r\n".length = 10 ∧
    sends (tcpConnect pop3Options pop3Peer).2 = [("STLS\r\n", 20)] ∧
    "STLS\r\n".length = 6 ∧
    sends (tcpConnect imapOptions imapPeer).2 = [("AA STARTTLS\r\n", 20)] ∧
    "AA STARTTLS\r\n".length = 13 ∧
    sends (tcpConnect smtpOptions smtpPeer).2 =
      [("EHLO titania.co.uk\r\n", 20), ("STARTTLS\r\n", 10)] ∧
    "EHLO titania.co.uk\r\n".length = 20 ∧ "STARTTLS\r\n".length = 10 := by
  decide

/-! ### The duplicate branches -/

/-- C26. The second FTP, POP3 and IMAP branches of `tcpConnect` are never
taken: for every option setting and every peer, `tcpConnect` returns the same
descriptor and the same trace as the function without those branches, which
chooses the protocol by the precedence SMTP, FTP, POP3, IMAP, none; in
particular the greeting echo of the second POP3 branch is never printed.  The
status column of `testCipher` is the same with the second data-channel branch
removed. -/
theorem tcpConnect_duplicate_branches_unreachable :
    (∀ (o : sslCheckOptions) (e : ConnEnv), tcpConnect o e = tcpConnectReduced o e) ∧
    (∀ (o : sslCheckOptions) (e : ConnEnv), reports (tcpConnect o e).2 = []) ∧
    (∀ (o : sslCheckOptions) (cipherStatus : Int) (data : List Nat),
      showStatus o cipherStatus data = showStatusReduced o cipherStatus data) := by
  refine ⟨?_, tcpConnect_reports, ?_⟩
  · intro o e
    unfold tcpConnect tcpConnectReduced
    by_cases h1 : o.esmtps = true <;> by_cases h2 : o.ftps = true <;>
      by_cases h3 : o.pop3s = true <;> by_cases h4 : o.imaps = true <;>
      simp only [h1, h2, h3, h4, if_true, if_false, Bool.false_eq_true]
  · intro o cipherStatus data
    unfold showStatus showStatusReduced
    by_cases h : o.ftps = true ∧ o.ftps_dcs = true
    · simp only [if_pos h]
    · simp only [if_neg h]

/-! ### Shutdown and close -/

/-- The shutdowns of a concatenation. -/
theorem shutdowns_append (a b : List Event) :
    shutdowns (a ++ b) = shutdowns a + shutdowns b := by
  induction a with
  | nil => simp [shutdowns]
  | cons ev t ih =>
    cases ev <;> simp [shutdowns, ih]
    omega

/-- The events of the cipher status block shut down no session and touch no
socket. -/
theorem isShow_quiet (t : List Event) (h : t.all Event.isShow = true) :
    shutdowns t = 0 ∧ opens t = [] ∧ closes t = [] := by
  induction t with
  | nil => exact ⟨rfl, rfl, rfl⟩
  | cons ev t ih =>
    rw [List.all_cons, Bool.and_eq_true] at h
    obtain ⟨h1, h2⟩ := ih h.2
    cases ev <;> simp_all [Event.isShow, shutdowns, opens, closes]

/-- The events of `tcpConnect` shut down no session. -/
theorem isConn_shutdowns (t : List Event) (h : t.all Event.isConn = true) :
    shutdowns t = 0 := by
  induction t with
  | nil => rfl
  | cons ev t ih =>
    rw [List.all_cons, Bool.and_eq_true] at h
    have := ih h.2
    cases ev <;> simp_all [Event.isConn, shutdowns]

/-- What comes before the handshake in `testCipher` shuts down no session, opens
the one socket and closes nothing. -/
theorem probeSetup_sockets (o : sslCheckOptions) (c : sslCipher) (e : ProbeEnv)
    (h : (tcpConnect o e.conn).1 ≠ 0) :
    shutdowns (probeSetup o c e) = 0 ∧ opens (probeSetup o c e) = [e.conn.socketFd] ∧
    closes (probeSetup o c e) = [] := by
  obtain ⟨_, ho, hc⟩ := tcpConnect_sockets o e.conn h
  have hs := isConn_shutdowns _ (tcpConnect_isConn o e.conn)
  unfold probeSetup
  refine ⟨?_, ?_, ?_⟩
  · simp only [shutdowns_append, hs]
    split_ifs <;> rfl
  · simp only [opens_append, ho]
    split_ifs <;> rfl
  · simp only [closes_append, hc]
    split_ifs <;> rfl

/-- C24. In a `testCipher` that attempts the handshake, `SSL_shutdown` is called
once when the handshake was accepted (result 1) and not at all after a rejected
or failed handshake; in either case the probe ends with the release of the
session and the one `close` of the socket it opened, the shutdown coming just
before them, and nothing earlier in the probe shuts down or closes anything. -/
theorem testCipher_shutdown_iff_accepted (o : sslCheckOptions) (c : sslCipher) (e : ProbeEnv)
    (h : reachesHandshake o e) :
    shutdowns (testCipher o c e).2 = (if e.sslConnect = 1 then 1 else 0) ∧
    opens (testCipher o c e).2 = [e.conn.socketFd] ∧
    closes (testCipher o c e).2 = [e.conn.socketFd] ∧
    ∃ before, (testCipher o c e).2 =
        before ++ (if e.sslConnect = 1 then [Event.sslShutdown] else []) ++
          [Event.sslFree, Event.close e.conn.socketFd] ∧
      shutdowns before = 0 ∧ closes before = [] := by
  have ht := testCipher_trace o c e h
  obtain ⟨hfd, _, _⟩ := tcpConnect_sockets o e.conn h.1
  obtain ⟨s1, s2, s3⟩ := probeSetup_sockets o c e h.1
  obtain ⟨q1, q2, q3⟩ := isShow_quiet _ (showCipher_isShow o c e.sslConnect e.readData)
  have hmid : shutdowns (if o.noFailed = true ∧ e.sslConnect ≠ 1 then []
        else showCipher o c e.sslConnect e.readData) = 0 ∧
      opens (if o.noFailed = true ∧ e.sslConnect ≠ 1 then []
        else showCipher o c e.sslConnect e.readData) = [] ∧
      closes (if o.noFailed = true ∧ e.sslConnect ≠ 1 then []
        else showCipher o c e.sslConnect e.readData) = [] := by
    split_ifs
    · exact ⟨rfl, rfl, rfl⟩
    · exact ⟨q1, q2, q3⟩
  have htd : probeTeardown o e =
      (if e.sslConnect = 1 then [Event.sslShutdown] else []) ++
        [Event.sslFree, Event.close e.conn.socketFd] := by
    unfold probeTeardown
    rw [hfd]
  have hbefore : shutdowns (probeSetup o c e ++ [Event.sslConnect e.sslConnect] ++
        (if o.noFailed = true ∧ e.sslConnect ≠ 1 then []
          else showCipher o c e.sslConnect e.readData)) = 0 ∧
      opens (probeSetup o c e ++ [Event.sslConnect e.sslConnect] ++
        (if o.noFailed = true ∧ e.sslConnect ≠ 1 then []
          else showCipher o c e.sslConnect e.readData)) = [e.conn.socketFd] ∧
      closes (probeSetup o c e ++ [Event.sslConnect e.sslConnect] ++
        (if o.noFailed = true ∧ e.sslConnect ≠ 1 then []
          else showCipher o c e.sslConnect e.readData)) = [] := by
    refine ⟨?_, ?_, ?_⟩
    · rw [shutdowns_append, shutdowns_append, s1, hmid.1]; rfl
    · rw [opens_append, opens_append, s2, hmid.2.1]; rfl
    · rw [closes_append, closes_append, s3, hmid.2.2]; rfl
  rw [ht, htd]
  refine ⟨?_, ?_, ?_, ⟨_, (List.append_assoc _ _ _).symm, hbefore.1, hbefore.2.2⟩⟩
  · rw [shutdowns_append, hbefore.1]
    split_ifs <;> rfl
  · rw [opens_append, hbefore.2.1]
    split_ifs <;> rfl
  · rw [closes_append, hbefore.2.2]
    split_ifs <;> rfl

/-- Witness for C24: an accepted handshake is followed by one shutdown, a
rejected one by none, and the socket is closed once in both. -/
theorem testCipher_shutdown_iff_accepted_witness :
    shutdowns (testCipher xmlOptions sampleCipher (probeEnvOn plainPeer 1 [])).2 = 1 ∧
    closes (testCipher xmlOptions sampleCipher (probeEnvOn plainPeer 1 [])).2 = [3] ∧
    shutdowns (testCipher xmlOptions sampleCipher (probeEnvOn plainPeer 0 [])).2 = 0 ∧
    closes (testCipher xmlOptions sampleCipher (probeEnvOn plainPeer 0 [])).2 = [3] :=
  have h1 := testCipher_shutdown_iff_accepted xmlOptions sampleCipher
    (probeEnvOn plainPeer 1 []) (by decide)
  have h0 := testCipher_shutdown_iff_accepted xmlOptions sampleCipher
    (probeEnvOn plainPeer 0 []) (by decide)
  ⟨h1.1, h1.2.2.1, h0.1, h0.2.2.1⟩

/-! ### The bounds of the HTTP status scan -/

/-- The scan index only grows, and never passes 49. -/
theorem httpScan_range (buf : List Nat) :
    ∀ fuel loop, loop ≤ 49 → loop ≤ httpScan buf fuel loop ∧ httpScan buf fuel loop ≤ 49 := by
  intro fuel
  induction fuel with
  | zero => intro loop h; exact ⟨le_refl _, h⟩
  | succ n ih =>
    intro loop h
    unfold httpScan
    split_ifs with hc
    · have := ih (loop + 1) (by omega)
      exact ⟨by omega, this.2⟩
    · exact ⟨le_refl _, h⟩

/-- The buffer of the HTTP probe has 50 bytes, the last of which is zero. -/
theorem httpBuffer_shape (data : List Nat) :
    (httpBuffer data).length = 50 ∧ (httpBuffer data).getD 49 0 = 0 := by
  have hle : (sslReadBytes 49 data).length ≤ 49 := by
    simp only [sslReadBytes, List.length_take]; omega
  constructor
  · simp only [httpBuffer, List.length_append, List.length_replicate]; omega
  · rw [List.getD_eq_getElem?_getD, httpBuffer, List.getElem?_append_right hle,
      List.getElem?_replicate]
    split_ifs <;> rfl

/-- C28. In the HTTP status extraction of `testCipher`, for every response read
(any length, any bytes): the buffer has 50 bytes; the scan index starts at 9,
only grows and never exceeds 49, so the terminating zero is written at an index
inside the buffer, which keeps its 50 bytes; and the scan is over after at most
40 steps: more steps do not move the index. -/
theorem httpScan_in_bounds (data : List Nat) :
    (httpBuffer data).length = 50 ∧
    (∀ fuel, 9 ≤ httpScan (httpBuffer data) fuel 9 ∧ httpScan (httpBuffer data) fuel 9 ≤ 49) ∧
    httpScan (httpBuffer data) 40 9 < (httpBuffer data).length ∧
    ((httpBuffer data).set (httpScan (httpBuffer data) 40 9) 0).length = 50 ∧
    ((httpBuffer data).set (httpScan (httpBuffer data) 40 9) 0).getD
      (httpScan (httpBuffer data) 40 9) 1 = 0 ∧
    (∀ fuel, 40 ≤ fuel →
      httpScan (httpBuffer data) fuel 9 = httpScan (httpBuffer data) 40 9) ∧
    httpScan (httpBuffer data) 40 9 - 9 ≤ 40 := by
  obtain ⟨hlen, h49⟩ := httpBuffer_shape data
  have hr := httpScan_range (httpBuffer data)
  have h40 := hr 40 9 (by omega)
  refine ⟨hlen, fun fuel => hr fuel 9 (by omega), by omega, by simp [hlen], ?_, ?_, by omega⟩
  · rw [List.getD_eq_getElem?_getD, List.getElem?_set_self (by omega)]
    rfl
  · intro fuel hf
    rw [httpScan_eq (httpBuffer data) hlen h49 fuel 9 (by omega) (by omega),
      httpScan_eq (httpBuffer data) hlen h49 40 9 (by omega) (by omega)]

/-! ### The strip index of readLine -/

/-- C29 (the code at the failing input). For a blank line, for a line made only
of spaces, and for a read at the end of the file that leaves an empty string in
the buffer, the strip loop of `readLine` reaches `stripPointer = -1` and reads
the byte in front of the buffer: when that byte is a space the loop clears it,
writing outside the buffer, and the outcome of `readLine` depends on that byte.
This holds for every file that starts with an empty line. -/
theorem readLine_reads_before_buffer :
    readLine 32 { rest := cstr "\n", eof := false } zeroLine 1024 = none ∧
    (readLine 1 { rest := cstr "\n", eof := false } zeroLine 1024).isSome = true ∧
    readLine 32 { rest := cstr "   \n", eof := false } zeroLine 1024 = none ∧
    (readLine 1 { rest := cstr "   \n", eof := false } zeroLine 1024).isSome = true ∧
    readLine 32 { rest := [], eof := false } zeroLine 1024 = none ∧
    (readLine 1 { rest := [], eof := false } zeroLine 1024).isSome = true ∧
    (readLine 32 { rest := cstr "host\n", eof := false } zeroLine 1024).isSome = true ∧
    (∀ (buf rest : List Nat),
      readLine 32 { rest := 10 :: rest, eof := false } buf 1024 = none) ∧
    (∀ (guard : Nat) (buf : List Nat),
      stripLoop guard 0 buf = if isStrip guard = true then none else some buf) := by
  refine ⟨by decide, by decide, by decide, by decide, by decide, by decide, by decide, ?_,
    fun _ _ => rfl⟩
  intro buf rest
  simp [readLine, fgets, fgetsBytes, strlen, stripLoop, isStrip]

/-! ### The password callback -/

/-- The offsets `strncpy` writes are those below its count. -/
theorem strncpyWrites_offsets (src : List Nat) (n : Nat) :
    (strncpyWrites src n).map Prod.fst = List.range n := by
  simp [strncpyWrites, Function.comp_def]

/-- C30 (the code at the failing input). Called with a buffer of 4 bytes and the
password `secret`, `password_callback` copies the first 4 bytes, writes a zero
byte at offset 6, outside the buffer, and returns 6, more than the size; the
buffer then holds no zero byte.  In general the write of the terminator is at
the offset of the password length, so all writes lie inside the buffer exactly
when the password is shorter than the buffer, and the value returned is at most
the size exactly when the password is no longer than the buffer. -/
theorem password_callback_overflow :
    password_callback 4 (cstr "secret" ++ [0]) =
      ([(0, 115), (1, 101), (2, 99), (3, 114), (6, 0)], 6) ∧
    bufferAfter 4 (password_callback 4 (cstr "secret" ++ [0])).1 [0, 0, 0, 0] =
      [115, 101, 99, 114] ∧
    (∀ (size : Nat) (userdata : List Nat),
      (∀ w ∈ (password_callback size userdata).1, w.1 < size) ↔
        (cstring userdata).length < size) ∧
    (∀ (size : Nat) (userdata : List Nat),
      (password_callback size userdata).2 ≤ size ↔ (cstring userdata).length ≤ size) := by
  refine ⟨by decide, by decide, ?_, fun _ _ => Iff.rfl⟩
  intro size userdata
  unfold password_callback
  constructor
  · intro h
    exact h ((cstring userdata).length, 0) (by simp)
  · intro h w hw
    rcases List.mem_append.mp hw with h1 | h1
    · have : w.1 ∈ (strncpyWrites (cstring userdata) size).map Prod.fst :=
        List.mem_map_of_mem _ h1
      rw [strncpyWrites_offsets] at this
      exact List.mem_range.mp this
    · simp at h1
      rw [h1]
      exact h

/-! ### The port of a target -/

/-- C21 (the code at the failing input). For the list `alpha:8443`, `beta` with
no application protocol selected, `beta` is scanned on port 8443, the port of
the line before it, not on 443; with `--ftps` and the list `alpha:990`, `beta`,
`beta` is scanned on port 990, not on 21, the port the same options give a
single unqualified host.  A line without port that comes first is scanned on
the default port. -/
theorem scanTargets_port_persists :
    (parseArgs ["--targets=list"]).mode = mode_multiple ∧
    (parseArgs ["--targets=list"]).options.port = 443 ∧
    (scanTargets plainTargetsEnv zeroLine (cstr "alpha:8443\nbeta\n")
      (parseArgs ["--targets=list"]).options).map
        (fun runs => runs.map (fun r => (r.1.host, r.1.port))) =
      some [("alpha", 8443), ("beta", 8443)] ∧
    (parseArgs ["--ftps", "beta"]).options.port = 21 ∧
    (scanTargets plainTargetsEnv zeroLine (cstr "alpha:990\nbeta\n")
      (parseArgs ["--ftps", "--targets=list"]).options).map
        (fun runs => runs.map (fun r => (r.1.host, r.1.port))) =
      some [("alpha", 990), ("beta", 990)] ∧
    (scanTargets plainTargetsEnv zeroLine (cstr "beta\nalpha:8443\n")
      (parseArgs ["--targets=list"]).options).map
        (fun runs => runs.map (fun r => (r.1.host, r.1.port))) =
      some [("beta", 443), ("alpha", 8443)] := by
  decide

/-! ### What readLine removes -/

/-- What `rstrip` removes from a line is made of the bytes the loop clears. -/
theorem rstrip_removed (l : List Nat) : ∀ c ∈ l.drop (rstrip l).length, isStrip c = true := by
  induction l using List.reverseRecOn with
  | nil => intro c hc; simp at hc
  | append_singleton l x ih =>
    intro c hc
    by_cases hx : isStrip x = true
    · have hr : rstrip (l ++ [x]) = rstrip l := List.rdropWhile_concat_pos _ _ _ hx
      have hle : (rstrip l).length ≤ l.length := (List.rdropWhile_prefix isStrip l).length_le
      rw [hr, List.drop_append_of_le_length hle] at hc
      rcases List.mem_append.mp hc with h | h
      · exact ih c h
      · rw [List.mem_singleton.mp h]; exact hx
    · have hr : rstrip (l ++ [x]) = l ++ [x] := List.rdropWhile_concat_neg _ _ _ hx
      rw [hr] at hc
      simp at hc

/-- C22 (counterexample). A tab at the end of a line is not removed by
`readLine`, and it keeps the spaces in front of it from being removed. -/
theorem readLine_keeps_tab :
    (readLine 1 { rest := cstr "host\t\n", eof := false } zeroLine 1024).map
      (fun r => cstring r.1) = some (cstr "host\t") ∧
    (readLine 1 { rest := cstr "host \t \r\n", eof := false } zeroLine 1024).map
      (fun r => cstring r.1) = some (cstr "host \t") ∧
    (scanTargets plainTargetsEnv zeroLine (cstr "\t\n") xmlOptions).map
      (fun runs => runs.map (fun r => r.1.host)) = some ["\t"] := by
  decide

/-! ### The preferred-cipher probe as a function of its answers -/

/-- The function `tcpConnect` depends on the results of `socket`, `bind` and
`connect` and on the buffer after each of the first three reads, and on nothing
else the peer does. -/
theorem tcpConnect_same_answers (o : sslCheckOptions) (c1 c2 : ConnEnv)
    (h1 : c1.socketFd = c2.socketFd) (h2 : c1.bindStatus = c2.bindStatus)
    (h3 : c1.connectStatus = c2.connectStatus) (h4 : c1.recvData 0 = c2.recvData 0)
    (h5 : c1.recvData 1 = c2.recvData 1) (h6 : c1.recvData 2 = c2.recvData 2) :
    tcpConnect o c1 = tcpConnect o c2 := by
  unfold tcpConnect upgrade2
  simp only [h1, h2, h3, h4, h5, h6]

/-- C25. The function `defaultCipher` is a function of its options, its protocol
version and the answers it gets: two runs with the same options and version in
which the system, the peer and the engine give the same answers to the calls it
makes have the same trace, so they write the same record, and return the same
status; when a record is written its bits and cipher name are the ones the
engine reports for the session. -/
theorem defaultCipher_deterministic (o : sslCheckOptions) (m : SslMethod)
    (e1 e2 : PreferredEnv) (h : sameAnswers e1 e2) :
    defaultCipher o m e1 = defaultCipher o m e2 ∧
    reports (defaultCipher o m e1).2 = reports (defaultCipher o m e2).2 ∧
    (defaultCipher o m e1).1 = (defaultCipher o m e2).1 ∧
    (reports (defaultCipher o m e1).2 = [] ∨
      reports (defaultCipher o m e1).2 = reports (showDefault o m e2.cipherBits e2.cipherName)) := by
  obtain ⟨h1, h2, h3, h4, h5, h6, h7, h8, h9, h10, h11, h12, h13, h14, h15⟩ := h
  have htc := tcpConnect_same_answers o e1.probe.conn e2.probe.conn h1 h2 h3 h4 h5 h6
  have hext : tlsExtSetup o e1.probe = tlsExtSetup o e2.probe := by
    unfold tlsExtSetup
    simp only [h11, h12]
  have heq : defaultCipher o m e1 = defaultCipher o m e2 := by
    unfold defaultCipher
    simp only [htc, hext, h7, h8, h9, h10, h13, h14, h15]
  refine ⟨heq, by rw [heq], by rw [heq], ?_⟩
  rw [heq, defaultCipher_reports]
  split_ifs
  · exact Or.inr rfl
  · exact Or.inl rfl

/-- Witness for C25: a peer that says more than is read gives the same probe as
the peer that stops after its three replies. -/
theorem defaultCipher_deterministic_witness :
    talkativePreferredEnv ≠ preferredEnvOn smtpPeer 1 256 "AES256-SHA" ∧
    defaultCipher smtpXmlOptions SslMethod.TLSv1_client_method talkativePreferredEnv =
      defaultCipher smtpXmlOptions SslMethod.TLSv1_client_method
        (preferredEnvOn smtpPeer 1 256 "AES256-SHA") :=
  ⟨by decide,
    (defaultCipher_deterministic smtpXmlOptions SslMethod.TLSv1_client_method
      talkativePreferredEnv (preferredEnvOn smtpPeer 1 256 "AES256-SHA") (by decide)).1⟩

/-! ### The default port and the preamble -/

/-- The function `tcpConnect` is the function without the duplicate branches. -/
theorem tcpConnect_reduced (o : sslCheckOptions) (e : ConnEnv) :
    tcpConnect o e = tcpConnectReduced o e := by
  unfold tcpConnect tcpConnectReduced
  by_cases h1 : o.esmtps = true <;> by_cases h2 : o.ftps = true <;>
    by_cases h3 : o.pop3s = true <;> by_cases h4 : o.imaps = true <;>
    simp only [h1, h2, h3, h4, if_true, if_false, Bool.false_eq_true]

/-- The commands a two-step exchange sends: none, or its one command. -/
theorem upgrade2_commands (e : ConnEnv) (pre : List Event) (greet : String) (n1 : Nat)
    (m1 : String) (echo : Bool) (cmd : String) (len : Nat) (ack : String) (n2 : Nat)
    (m2 : String) (hpre : sends pre = []) :
    (sends (upgrade2 e pre greet n1 (Event.err m1) echo cmd len ack n2 (Event.err m2)).2).map
      Prod.fst <+: [cmd] := by
  have happ : ∀ a b : List Event, sends (a ++ b) = sends a ++ sends b := by
    intro a b
    induction a with
    | nil => rfl
    | cons ev t ih => cases ev <;> simp [sends, ih]
  unfold upgrade2
  dsimp only
  split_ifs <;> simp [happ, hpre, sends]

/-- The commands `tcpConnect` sends are the first commands of the preamble of
the selected protocol. -/
theorem tcpConnect_commands (o : sslCheckOptions) (e : ConnEnv) :
    (sends (tcpConnect o e).2).map Prod.fst <+: protocolCommands (selectedProtocol o) := by
  rw [tcpConnect_reduced]
  unfold tcpConnectReduced selectedProtocol hostPortError
  dsimp only
  by_cases g1 : e.socketFd < 0
  · simp [g1, sends]
  by_cases g2 : e.bindStatus < 0
  · simp [g1, g2, sends]
  by_cases g3 : e.connectStatus < 0
  · simp [g1, g2, g3, sends]
  simp only [g1, g2, g3, if_false]
  by_cases h1 : o.esmtps = true
  · simp only [h1, if_true]
    split_ifs <;> simp [sends, protocolCommands]
  by_cases h2 : o.ftps = true
  · simp only [h1, h2, if_true, if_false]
    exact upgrade2_commands _ _ _ _ _ _ _ _ _ _ _ rfl
  by_cases h3 : o.pop3s = true
  · simp only [h1, h2, h3, if_true, if_false]
    exact upgrade2_commands _ _ _ _ _ _ _ _ _ _ _ rfl
  by_cases h4 : o.imaps = true
  · simp only [h1, h2, h3, h4, if_true, if_false]
    exact upgrade2_commands _ _ _ _ _ _ _ _ _ _ _ rfl
  · simp [h1, h2, h3, h4, sends, protocolCommands]

/-- What the parameter loop does with the option of SMTP. -/
theorem parseArg_esmtps (s : MainState) (i : Nat) :
    parseArg s i "--esmtps" = { s with options := { s.options with esmtps := true, port := 25 } } ∧
    parseArg s i "--starttls" =
      { s with options := { s.options with esmtps := true, port := 25 } } :=
  ⟨rfl, rfl⟩

/-- What the parameter loop does with the options of FTP, POP3 and IMAP. -/
theorem parseArg_protocols (s : MainState) (i : Nat) :
    parseArg s i "--ftps" = { s with options := { s.options with ftps := true, port := 21 } } ∧
    parseArg s i "--ftps-dcs" =
      { s with options := { s.options with ftps := true, ftps_dcs := true, port := 21 } } ∧
    parseArg s i "--pop3s" =
      { s with options := { s.options with pop3s := true, port := 110 } } ∧
    parseArg s i "--imaps" =
      { s with options := { s.options with imaps := true, port := 143 } } :=
  ⟨rfl, rfl, rfl, rfl⟩

/-- An argument that is no application-protocol option and names no port leaves
the port and the protocol flags as they are. -/
theorem parseArg_other (s : MainState) (i : Nat) (arg : String)
    (hp : protocolOption arg = none) (hq : qualified arg = false) :
    (parseArg s i arg).options.port = s.options.port ∧
    (parseArg s i arg).options.esmtps = s.options.esmtps ∧
    (parseArg s i arg).options.ftps = s.options.ftps ∧
    (parseArg s i arg).options.pop3s = s.options.pop3s ∧
    (parseArg s i arg).options.imaps = s.options.imaps := by
  have h1 : ¬(arg = "--esmtps" ∨ arg = "--starttls") := by
    intro h; simp [protocolOption, h] at hp
  have h2 : ¬arg = "--ftps" := by
    intro h; simp [protocolOption, h] at hp
  have h3 : ¬arg = "--ftps-dcs" := by
    intro h; simp [protocolOption, h] at hp
  have h4 : ¬arg = "--pop3s" := by
    intro h; simp [protocolOption, h] at hp
  have h5 : ¬arg = "--imaps" := by
    intro h; simp [protocolOption, h] at hp
  have h6 : ¬(hostEnd arg.toList + 1 < arg.length) := by
    simpa [qualified] using hq
  unfold parseArg
  refine ⟨?_, ?_, ?_, ?_, ?_⟩
  · simp only [apply_ite MainState.options, apply_ite sslCheckOptions.port, h1, h2, h3, h4, h5,
      h6, if_false, ite_self]
  · simp only [apply_ite MainState.options, apply_ite sslCheckOptions.esmtps, h1, h2, h3, h4, h5,
      h6, if_false, ite_self]
  · simp only [apply_ite MainState.options, apply_ite sslCheckOptions.ftps, h1, h2, h3, h4, h5,
      h6, if_false, ite_self]
  · simp only [apply_ite MainState.options, apply_ite sslCheckOptions.pop3s, h1, h2, h3, h4, h5,
      h6, if_false, ite_self]
  · simp only [apply_ite MainState.options, apply_ite sslCheckOptions.imaps, h1, h2, h3, h4, h5,
      h6, if_false, ite_self]

/-- One pass of the parameter loop over an argument that is unqualified and is
an option of the protocol `p` or of no protocol: the port stays the default
port of the selected protocol, no other protocol gets selected, and `p` is
selected from the first of its options on. -/
theorem parseArg_single_protocol (p : Protocol) (s : MainState) (i : Nat) (arg : String)
    (hport : s.options.port = defaultPort (selectedProtocol s.options))
    (hoff : otherFlagsOff p s.options)
    (hp : protocolOption arg = none ∨ protocolOption arg = some p)
    (hq : qualified arg = false) :
    (parseArg s i arg).options.port =
      defaultPort (selectedProtocol (parseArg s i arg).options) ∧
    otherFlagsOff p (parseArg s i arg).options ∧
    (protocolOption arg = some p → selectedProtocol (parseArg s i arg).options = p) ∧
    (selectedProtocol s.options = p → selectedProtocol (parseArg s i arg).options = p) := by
  obtain ⟨o1, o2, o3, o4⟩ := hoff
  rcases hp with hn | hs
  · obtain ⟨k1, k2, k3, k4, k5⟩ := parseArg_other s i arg hn hq
    have hsel : selectedProtocol (parseArg s i arg).options = selectedProtocol s.options := by
      unfold selectedProtocol
      rw [k2, k3, k4, k5]
    refine ⟨by rw [hsel, k1, hport], ⟨?_, ?_, ?_, ?_⟩, ?_, ?_⟩
    · intro h; rw [k2]; exact o1 h
    · intro h; rw [k3]; exact o2 h
    · intro h; rw [k4]; exact o3 h
    · intro h; rw [k5]; exact o4 h
    · intro h; rw [hn] at h; exact absurd h (by simp)
    · intro h; rw [hsel]; exact h
  · have hcases : ((arg = "--esmtps" ∨ arg = "--starttls") ∧ p = Protocol.smtp) ∨
        ((arg = "--ftps" ∨ arg = "--ftps-dcs") ∧ p = Protocol.ftp) ∨
        (arg = "--pop3s" ∧ p = Protocol.pop3) ∨ (arg = "--imaps" ∧ p = Protocol.imap) := by
      unfold protocolOption at hs
      split_ifs at hs with c1 c2 c3 c4
      · exact Or.inl ⟨c1, (Option.some.inj hs).symm⟩
      · exact Or.inr (Or.inl ⟨c2, (Option.some.inj hs).symm⟩)
      · exact Or.inr (Or.inr (Or.inl ⟨c3, (Option.some.inj hs).symm⟩))
      · exact Or.inr (Or.inr (Or.inr ⟨c4, (Option.some.inj hs).symm⟩))
    obtain ⟨e1, e2⟩ := parseArg_esmtps s i
    obtain ⟨f1, f2, f3, f4⟩ := parseArg_protocols s i
    rcases hcases with ⟨ha, rfl⟩ | ⟨ha, rfl⟩ | ⟨ha, rfl⟩ | ⟨ha, rfl⟩
    · have hres : parseArg s i arg =
          { s with options := { s.options with esmtps := true, port := 25 } } := by
        rcases ha with rfl | rfl
        · exact e1
        · exact e2
      rw [hres]
      simp [selectedProtocol, defaultPort, otherFlagsOff, o2, o3, o4]
    · have oe := o1 (by decide)
      rcases ha with rfl | rfl
      · rw [f1]
        simp [selectedProtocol, defaultPort, otherFlagsOff, oe, o3, o4]
      · rw [f2]
        simp [selectedProtocol, defaultPort, otherFlagsOff, oe, o3, o4]
    · have oe := o1 (by decide)
      have oh := o2 (by decide)
      rw [ha, f3]
      simp [selectedProtocol, defaultPort, otherFlagsOff, oe, oh, o4]
    · have oe := o1 (by decide)
      have oh := o2 (by decide)
      have op := o3 (by decide)
      rw [ha, f4]
      simp [selectedProtocol, defaultPort, otherFlagsOff, oe, oh, op]

/-- The parameter loop over arguments that are all unqualified and are options
of the protocol `p` or of no protocol. -/
theorem parseArgsFrom_single_protocol (p : Protocol) (args : List String) :
    ∀ (i : Nat) (s : MainState),
      s.options.port = defaultPort (selectedProtocol s.options) →
      otherFlagsOff p s.options →
      (∀ a ∈ args, protocolOption a = none ∨ protocolOption a = some p) →
      (∀ a ∈ args, qualified a = false) →
      (parseArgsFrom i args s).options.port =
        defaultPort (selectedProtocol (parseArgsFrom i args s).options) ∧
      ((selectedProtocol s.options = p ∨ ∃ a ∈ args, protocolOption a = some p) →
        selectedProtocol (parseArgsFrom i args s).options = p) ∧
      (selectedProtocol s.options = Protocol.raw →
        (∀ a ∈ args, protocolOption a = none) →
        selectedProtocol (parseArgsFrom i args s).options = Protocol.raw) := by
  induction args with
  | nil =>
    intro i s hport _ _ _
    refine ⟨hport, ?_, fun h _ => h⟩
    rintro (h | ⟨a, ha, _⟩)
    · exact h
    · simp at ha
  | cons a rest ih =>
    intro i s hport hoff hp hq
    obtain ⟨k1, k2, k3, k4⟩ := parseArg_single_protocol p s i a hport hoff
      (hp a (List.mem_cons_self _ _)) (hq a (List.mem_cons_self _ _))
    obtain ⟨r1, r2, r3⟩ := ih (i + 1) (parseArg s i a) k1 k2
      (fun x hx => hp x (List.mem_cons_of_mem _ hx))
      (fun x hx => hq x (List.mem_cons_of_mem _ hx))
    unfold parseArgsFrom
    refine ⟨r1, ?_, ?_⟩
    · rintro (h | ⟨x, hx, hxp⟩)
      · exact r2 (Or.inl (k4 h))
      · rcases List.mem_cons.mp hx with rfl | hx
        · exact r2 (Or.inl (k3 hxp))
        · exact r2 (Or.inr ⟨x, hx, hxp⟩)
    · intro hraw hnone
      have hn := hnone a (List.mem_cons_self _ _)
      obtain ⟨_, q2, q3, q4, q5⟩ := parseArg_other s i a hn (hq a (List.mem_cons_self _ _))
      have hsel : selectedProtocol (parseArg s i a).options = selectedProtocol s.options := by
        unfold selectedProtocol
        rw [q2, q3, q4, q5]
      exact r3 (hsel.trans hraw) (fun x hx => hnone x (List.mem_cons_of_mem _ hx))

/-- The SNI statement after the parameter loop changes neither the port nor the
selected protocol. -/
theorem sniDefault_protocol (o : sslCheckOptions) :
    (sniDefault o).port = o.port ∧ selectedProtocol (sniDefault o) = selectedProtocol o := by
  unfold sniDefault
  split_ifs
  · exact ⟨rfl, rfl⟩
  · exact ⟨rfl, rfl⟩

/-- C27 (counterexample). For `sslscan --esmtps --imaps host` the port is 143,
the default port of IMAP, the option given last, while `tcpConnect` performs the
SMTP preamble, SMTP coming first in its tests; the default port of SMTP is 25. -/
theorem main_port_of_other_protocol :
    (parseArgs ["--esmtps", "--imaps", "host"]).mode = mode_single ∧
    (parseArgs ["--esmtps", "--imaps", "host"]).options.port = 143 ∧
    selectedProtocol (parseArgs ["--esmtps", "--imaps", "host"]).options = Protocol.smtp ∧
    defaultPort Protocol.smtp = 25 ∧
    sends (tcpConnect (parseArgs ["--esmtps", "--imaps", "host"]).options smtpPeer).2 =
      [("EHLO titania.co.uk\r\n", 20), ("STARTTLS\r\n", 10)] := by
  decide

/-! ### The target list without assumptions on the memory around the buffer -/

/-- Text that fits an `int` is read as the number it spells; longer text loses
its high bits, as in the program. -/
theorem atoi_int_range :
    atoi (cstr "8443") = 8443 ∧ atoi (cstr "65535") = 65535 ∧
    atoi (cstr "4294967297") = 1 ∧ atoi (cstr "-1") = -1 := by
  decide

/-- A buffer that holds a zero byte is its string, the zero byte, and the rest. -/
theorem cstring_decompose (buf : List Nat) (h0 : 0 ∈ buf) :
    ∃ rest, buf = cstring buf ++ 0 :: rest ∧ 0 ∉ cstring buf := by
  induction buf with
  | nil => simp at h0
  | cons c cs ih =>
    by_cases hc : c = 0
    · subst hc
      exact ⟨cs, by simp [cstring], by simp [cstring]⟩
    · have hcs : 0 ∈ cs := by
        rcases List.mem_cons.mp h0 with h | h
        · exact absurd h.symm hc
        · exact h
      obtain ⟨rest, hr, hn⟩ := ih hcs
      have hcons : cstring (c :: cs) = c :: cstring cs := by
        unfold cstring
        simp [List.takeWhile_cons, hc]
      refine ⟨rest, ?_, ?_⟩
      · rw [hcons, List.cons_append, ← hr]
      · rw [hcons]
        intro h
        rcases List.mem_cons.mp h with h | h
        · exact hc h.symm
        · exact hn h

/-- The function `readLine` at the end of the file: it gives a buffer and the
end-of-file indicator is set, whatever the byte in front of the buffer, as long
as the string in the buffer does not strip to nothing. -/
theorem readLine_end_of_file (guard : Nat) (buf : List Nat) (h0 : 0 ∈ buf)
    (hs : rstrip (cstring buf) = [] → isStrip guard = false) :
    ∃ r, readLine guard { rest := [], eof := false } buf 1024 = some r ∧ r.2.eof = true := by
  obtain ⟨rest, hbuf, hn⟩ := cstring_decompose buf h0
  have hlen : strlen buf = some (cstring buf).length := by
    conv_lhs => rw [hbuf]
    exact strlen_append _ _ hn
  have hstrip := stripLoop_spec guard (cstring buf) (0 :: rest) hs
  rw [← hbuf] at hstrip
  refine ⟨(rstrip (cstring buf) ++
    List.replicate ((cstring buf).length - (rstrip (cstring buf)).length) 0 ++ 0 :: rest,
    { rest := [], eof := true }), ?_, rfl⟩
  unfold readLine fgets
  simp [fgetsBytes, hlen, hstrip]

/-- The block that reads host and port from the buffer leaves the host of the
line as the string in the buffer. -/
theorem parseTarget_host (core tl : List Nat) (o : sslCheckOptions) (h0 : 0 ∉ core) :
    ∃ line1, parseTarget (core ++ 0 :: 0 :: tl) o = some (line1, targetOptions o core) ∧
      0 ∈ line1 ∧ cstring line1 = core.takeWhile (fun c => c != 58) := by
  have hsplit := List.takeWhile_append_dropWhile (fun c => c != 58) core
  generalize hpre : core.takeWhile (fun c => c != 58) = pre at hsplit
  generalize hpost : core.dropWhile (fun c => c != 58) = post at hsplit
  have hpre0 : 0 ∉ pre := fun h => h0 (hsplit ▸ List.mem_append_left _ h)
  have hpost0 : 0 ∉ post := fun h => h0 (hsplit ▸ List.mem_append_right _ h)
  have hend := lineHostEnd_append core (0 :: tl) h0
  rw [hpre] at hend
  cases post with
  | nil =>
    have hcore : core = pre := by simpa using hsplit.symm
    subst hcore
    refine ⟨core ++ 0 :: 0 :: tl, ?_, by simp, cstring_append _ _ h0⟩
    have hset : (core ++ 0 :: 0 :: tl).set core.length 0 = core ++ 0 :: 0 :: tl := by
      simp [List.set_append]
    have hdrop : (core ++ 0 :: 0 :: tl).drop (core.length + 1) = 0 :: tl := by
      rw [List.drop_append_eq_append_drop]
      simp
    unfold parseTarget targetOptions
    rw [hend]
    dsimp only
    rw [hset, hdrop, hpre, hpost]
    simp [strlen, cstring_append _ _ h0]
  | cons c post =>
    have hc : c = 58 := by
      have h := List.head_dropWhile_not (fun c => c != 58) core (by rw [hpost]; simp)
      simp [hpost] at h
      exact h
    subst hc
    have hpost0' : 0 ∉ post := fun h => hpost0 (List.mem_cons_of_mem _ h)
    refine ⟨pre ++ 0 :: (post ++ 0 :: 0 :: tl), ?_, by simp, cstring_append _ _ hpre0⟩
    have hset : (core ++ 0 :: 0 :: tl).set pre.length 0 = pre ++ 0 :: (post ++ 0 :: 0 :: tl) := by
      rw [← hsplit]
      simp [List.set_append]
    have hdrop : (pre ++ 0 :: (post ++ 0 :: 0 :: tl)).drop (pre.length + 1) =
        post ++ 0 :: 0 :: tl := by
      rw [List.drop_append_eq_append_drop]
      simp
    unfold parseTarget targetOptions
    rw [hend]
    dsimp only
    rw [hset, hdrop, hpre, hpost, strlen_append _ _ hpost0', cstring_append _ _ hpre0,
      cstring_append _ _ hpost0']
    cases post with
    | nil => simp
    | cons d ds => simp

/-- The target-list loop on a file whose lines each end with a newline.  The
byte in front of the buffer is read only for a line that is blank or names no
host, so it is constrained for such lines only: every line is read, each line
that does not strip to nothing is scanned, in order. -/
theorem targetsLoop_lines_guarded (env : TargetsEnv) (lines : List (List Nat)) :
    (∀ l ∈ lines, 0 ∉ l ∧ 10 ∉ l ∧ l.length ≤ 1022) →
    (∀ l ∈ lines, rstrip (hostPart l) = [] → ∀ i, isStrip (env.guard i) = false) →
    ∀ (fuel i j : Nat) (line : List Nat) (o : sslCheckOptions),
      lines.length + 1 ≤ fuel →
      (lines = [] → 0 ∈ line ∧
        (rstrip (cstring line) = [] → ∀ i, isStrip (env.guard i) = false)) →
      (readLine (env.guard i) { rest := fileOf lines, eof := false } line 1024).bind
        (fun r => targetsLoop env fuel (i + 1) j r.1 r.2 o) = some (scanLines env j o lines) := by
  induction lines with
  | nil =>
    intro _ _ fuel i j line o hfuel hline
    obtain ⟨hz, hsafe⟩ := hline rfl
    obtain ⟨r, hr, heof⟩ := readLine_end_of_file (env.guard i) line hz (fun h => hsafe h i)
    obtain ⟨f, rfl⟩ := Nat.exists_eq_succ_of_ne_zero (Nat.pos_iff_ne_zero.mp hfuel)
    simp only [fileOf, List.map_nil, List.flatten_nil]
    rw [hr]
    simp [targetsLoop, heof, scanLines]
  | cons l ls ih =>
    intro hls hgs fuel i j line o hfuel _
    obtain ⟨h0, h10, hlen⟩ := hls l (List.mem_cons_self _ _)
    have hgl := hgs l (List.mem_cons_self _ _)
    have ih1 := ih (fun x hx => hls x (List.mem_cons_of_mem _ hx))
      (fun x hx => hgs x (List.mem_cons_of_mem _ hx))
    obtain ⟨f, rfl⟩ := Nat.exists_eq_succ_of_ne_zero
      (Nat.pos_iff_ne_zero.mp (Nat.lt_of_lt_of_le (Nat.succ_pos _) hfuel))
    have hf : ls.length + 1 ≤ f := by simpa using hfuel
    have hfile : fileOf (l :: ls) = l ++ 10 :: fileOf ls := by
      simp [fileOf]
    have hblank : rstrip l = [] → ∀ i, isStrip (env.guard i) = false := by
      intro h
      apply hgl
      rw [hostPart, h]
      rfl
    obtain ⟨tl, hread⟩ := readLine_line (env.guard i) line l (fileOf ls) h0 h10 hlen
      (fun h => hblank h i)
    have hcore0 : 0 ∉ rstrip l := fun h => h0 ((List.rdropWhile_prefix isStrip l).subset h)
    rw [hfile, hread]
    simp only [Option.some_bind]
    unfold targetsLoop
    simp only [Bool.false_eq_true, if_false]
    rw [strlen_append _ _ hcore0]
    by_cases hcore : rstrip l = []
    · rw [hcore]
      simp only [List.length_nil, List.nil_append]
      rw [ih1 f (i + 1) j _ o hf
        (fun _ => ⟨by simp, fun _ => hblank hcore⟩)]
      simp [scanLines, hcore]
    · obtain ⟨c, cs, hcs⟩ := List.exists_cons_of_ne_nil hcore
      obtain ⟨line1, hparse, hz, hhost⟩ := parseTarget_host (rstrip l) tl o hcore0
      have hlen1 : (rstrip l).length = cs.length + 1 := by rw [hcs]; rfl
      rw [hlen1]
      simp only
      rw [hparse]
      simp only
      have hmb : ∀ (x : Option (List Nat × FILE))
          (g : List Nat × FILE → Option (List (sslCheckOptions × HostRun)))
          (h : List (sslCheckOptions × HostRun) → List (sslCheckOptions × HostRun)),
          x.bind (fun a => (g a).map h) = (x.bind g).map h := by
        intro x g h
        cases x <;> rfl
      rw [hmb, ih1 f (i + 1) (j + 1) line1 (targetOptions o (rstrip l)) hf
        (fun _ => ⟨hz, fun h => hgl (by rw [hostPart, ← hhost]; exact h)⟩)]
      simp [scanLines, hcore]

/-- C20 (amended). For every non-empty target-list file whose lines each end
with a newline, are shorter than 1023 bytes and hold no zero byte: when every
line names a host (something other than carriage returns and spaces stands
before its first colon), whatever lies in memory around the buffer, and when
some line is blank or names no host, provided the byte in front of the buffer
is none of carriage return, newline and space: `main` calls `testHost` exactly
once for each line that is not made of carriage returns and spaces only, in
file order, with the host that stands before the first colon of the line,
whatever the earlier scans returned; and a scan whose host does not resolve
prints the diagnostic, writes nothing to the XML report and returns failure. -/
theorem scanTargets_lines (env : TargetsEnv) (line : List Nat) (lines : List (List Nat))
    (o : sslCheckOptions) (hne : lines ≠ [])
    (hl : ∀ l ∈ lines, 0 ∉ l ∧ 10 ∉ l ∧ l.length ≤ 1022)
    (hg : (∃ l ∈ lines, rstrip (hostPart l) = []) → ∀ i, isStrip (env.guard i) = false) :
    scanTargets env line (fileOf lines) o = some (scanLines env 0 o lines) ∧
    (scanLines env 0 o lines).map (fun r => r.1.host) =
      ((lines.map rstrip).filter (fun t => t ≠ [])).map
        (fun t => text ((t.takeWhile (fun c => c != 58)).take 511)) ∧
    ((∀ l ∈ lines, rstrip l ≠ []) →
      (scanLines env 0 o lines).map (fun r => r.1.host) =
        lines.map (fun l => text ((hostPart l).take 511))) ∧
    (∀ (o1 : sslCheckOptions) (h : HostEnv), h.resolves = false →
      (testHost o1 h).trace =
        [Event.resolve o1.host false,
         Event.err (COL_RED ++ "ERROR: Could not resolve hostname " ++ o1.host ++ "." ++
           RESET ++ "\n")] ∧
      xmlOf (testHost o1 h).trace = [] ∧ (testHost o1 h).status = false) := by
  refine ⟨?_, scanLines_hosts env lines 0 o, ?_, ?_⟩
  · have h := targetsLoop_lines_guarded env lines hl (fun l hlm hb => hg ⟨l, hlm, hb⟩)
      ((fileOf lines).length + 1) 0 0 line o
      (Nat.succ_le_succ (fileOf_length lines)) (fun hn => absurd hn hne)
    simpa [scanTargets] using h
  · intro hnb
    rw [scanLines_hosts env lines 0 o]
    have hf : (lines.map rstrip).filter (fun t => t ≠ []) = lines.map rstrip := by
      rw [List.filter_eq_self]
      intro t ht
      obtain ⟨l, hlm, rfl⟩ := List.mem_map.mp ht
      simpa using hnb l hlm
    rw [hf, List.map_map]
    rfl
  · intro o1 h hres
    simp [testHost, hres, HostRun.trace, xmlOf]

/-- Witness for C20: the three-line list `alpha`, `beta`, `gamma` in which
`beta` does not resolve has its three hosts scanned, in order, also when the
byte in front of the buffer is a space. -/
theorem scanTargets_lines_witness :
    (scanTargets spaceGuardEnv zeroLine
      (fileOf [cstr "alpha", cstr "beta", cstr "gamma"]) xmlOptions).map
        (fun runs => runs.map (fun r => r.1.host)) = some ["alpha", "beta", "gamma"] :=
  have h := scanTargets_lines spaceGuardEnv zeroLine [cstr "alpha", cstr "beta", cstr "gamma"]
    xmlOptions (by decide) (by decide) (fun hn => absurd hn (by decide))
  (congrArg (Option.map (fun runs => runs.map (fun r => r.1.host))) h.1).trans
    (congrArg some (h.2.1.trans (by decide)))

/-- C22 (amended). For every line of a target list (shorter than 1023 bytes,
without zero byte, ended by a newline): the line without its trailing spaces,
carriage returns and newlines is a prefix of the line, its last byte, if any, is
none of these three, what was removed is made of these three only, and a tab is
not one of them; `readLine` leaves exactly that in the buffer, whatever byte
lies in front of the buffer when the line is not made of these bytes only, and
provided that byte is none of the three when it is; and in a file of this one
line, `main` scans the line once when it is not made of these bytes only and
does not scan it when it is, whatever lies in front of the buffer when the line
names a host, and provided the byte in front is none of the three when the line
is blank or names no host. -/
theorem readLine_strips (guard : Nat) (buf l rest : List Nat)
    (h0 : 0 ∉ l) (h10 : 10 ∉ l) (hlen : l.length ≤ 1022) :
    rstrip l <+: l ∧
    (∀ h : rstrip l ≠ [], isStrip ((rstrip l).getLast h) = false) ∧
    (∀ c ∈ l.drop (rstrip l).length, isStrip c = true) ∧
    (∀ c, isStrip c = true ↔ c = 32 ∨ c = 13 ∨ c = 10) ∧
    ((rstrip l = [] → isStrip guard = false) →
      ∃ line, readLine guard { rest := l ++ 10 :: rest, eof := false } buf 1024 =
          some (line, { rest := rest, eof := false }) ∧
        cstring line = rstrip l ∧ strlen line = some (rstrip l).length) ∧
    (∀ (env : TargetsEnv) (o : sslCheckOptions),
      (rstrip (hostPart l) = [] → ∀ i, isStrip (env.guard i) = false) →
      scanTargets env buf (fileOf [l]) o =
        some (if rstrip l = [] then []
          else [(targetOptions o (rstrip l),
            testHost (targetOptions o (rstrip l)) (env.host 0))])) := by
  have hcore0 : 0 ∉ rstrip l := fun h => h0 ((List.rdropWhile_prefix isStrip l).subset h)
  refine ⟨List.rdropWhile_prefix isStrip l, ?_, rstrip_removed l, ?_, ?_, ?_⟩
  · intro h
    have := List.rdropWhile_last_not isStrip l h
    simpa using this
  · intro c
    simp only [isStrip, Bool.or_eq_true, beq_iff_eq]
    constructor
    · rintro ((h | h) | h)
      · exact Or.inr (Or.inl h)
      · exact Or.inr (Or.inr h)
      · exact Or.inl h
    · rintro (h | h | h)
      · exact Or.inr h
      · exact Or.inl (Or.inl h)
      · exact Or.inl (Or.inr h)
  · intro hg
    obtain ⟨tl, htl⟩ := readLine_line guard buf l rest h0 h10 hlen hg
    exact ⟨_, htl, cstring_append _ _ hcore0, strlen_append _ _ hcore0⟩
  · intro env o hg
    have h := targetsLoop_lines_guarded env [l]
      (fun x hx => by rw [List.mem_singleton.mp hx]; exact ⟨h0, h10, hlen⟩)
      (fun x hx => by rw [List.mem_singleton.mp hx]; exact hg)
      ((fileOf [l]).length + 1) 0 0 buf o
      (Nat.succ_le_succ (fileOf_length [l])) (fun hn => absurd hn (by simp))
    have hs : scanTargets env buf (fileOf [l]) o = some (scanLines env 0 o [l]) := by
      simpa [scanTargets] using h
    rw [hs]
    by_cases hc : rstrip l = [] <;> simp [scanLines, hc]

/-- Witness for C22: with a space in front of the buffer, the line `host`,
space, carriage return is stripped to `host` and scanned; with another byte in
front, a line of two spaces is not scanned. -/
theorem readLine_strips_witness :
    (scanTargets spaceGuardEnv zeroLine (fileOf [cstr "host \r"]) xmlOptions).map
      (fun runs => runs.map (fun r => r.1.host)) = some ["host"] ∧
    scanTargets plainTargetsEnv zeroLine (fileOf [cstr "  "]) xmlOptions = some [] :=
  ⟨(congrArg (Option.map (fun runs => runs.map (fun r => r.1.host)))
      ((readLine_strips 32 zeroLine (cstr "host \r") [] (by decide) (by decide)
        (by decide)).2.2.2.2.2 spaceGuardEnv xmlOptions
          (fun hn => absurd hn (by decide)))).trans (by decide),
    ((readLine_strips 1 zeroLine (cstr "  ") [] (by decide) (by decide)
        (by decide)).2.2.2.2.2 plainTargetsEnv xmlOptions (fun _ _ => rfl)).trans
      (congrArg some (if_pos (by decide)))⟩

/-! ### The port and the preamble for every command line -/

/-- An argument that is an option, but no application-protocol option, leaves
the port and the protocol flags as they are, whatever characters it holds. -/
theorem parseArg_plain_option (s : MainState) (i : Nat) (arg : String)
    (hp : protocolOption arg = none) (hopt : isOptionArg arg) :
    (parseArg s i arg).options.port = s.options.port ∧
    (parseArg s i arg).options.esmtps = s.options.esmtps ∧
    (parseArg s i arg).options.ftps = s.options.ftps ∧
    (parseArg s i arg).options.pop3s = s.options.pop3s ∧
    (parseArg s i arg).options.imaps = s.options.imaps := by
  have h1 : ¬(arg = "--esmtps" ∨ arg = "--starttls") := by
    intro h; simp [protocolOption, h] at hp
  have h2 : ¬arg = "--ftps" := by
    intro h; simp [protocolOption, h] at hp
  have h3 : ¬arg = "--ftps-dcs" := by
    intro h; simp [protocolOption, h] at hp
  have h4 : ¬arg = "--pop3s" := by
    intro h; simp [protocolOption, h] at hp
  have h5 : ¬arg = "--imaps" := by
    intro h; simp [protocolOption, h] at hp
  unfold isOptionArg at hopt
  unfold parseArg
  refine ⟨?_, ?_, ?_, ?_, ?_⟩
  · simp only [apply_ite MainState.options, apply_ite sslCheckOptions.port, h1, h2, h3, h4, h5,
      if_false]
    rcases hopt with h | h | h | h | h | h | h | h | h | h | h | h | h | h | h | h | h | h |
      h | h | h | h | h | h | h | h | h | h
    all_goals first
      | exact absurd h h1
      | exact absurd h h2
      | exact absurd h h3
      | exact absurd h h4
      | exact absurd h h5
      | simp only [eq_true h, if_true, ite_self]
  · simp only [apply_ite MainState.options, apply_ite sslCheckOptions.esmtps, h1, h2, h3, h4,
      h5, if_false]
    rcases hopt with h | h | h | h | h | h | h | h | h | h | h | h | h | h | h | h | h | h |
      h | h | h | h | h | h | h | h | h | h
    all_goals first
      | exact absurd h h1
      | exact absurd h h2
      | exact absurd h h3
      | exact absurd h h4
      | exact absurd h h5
      | simp only [eq_true h, if_true, ite_self]
  · simp only [apply_ite MainState.options, apply_ite sslCheckOptions.ftps, h1, h2, h3, h4, h5,
      if_false]
    rcases hopt with h | h | h | h | h | h | h | h | h | h | h | h | h | h | h | h | h | h |
      h | h | h | h | h | h | h | h | h | h
    all_goals first
      | exact absurd h h1
      | exact absurd h h2
      | exact absurd h h3
      | exact absurd h h4
      | exact absurd h h5
      | simp only [eq_true h, if_true, ite_self]
  · simp only [apply_ite MainState.options, apply_ite sslCheckOptions.pop3s, h1, h2, h3, h4,
      h5, if_false]
    rcases hopt with h | h | h | h | h | h | h | h | h | h | h | h | h | h | h | h | h | h |
      h | h | h | h | h | h | h | h | h | h
    all_goals first
      | exact absurd h h1
      | exact absurd h h2
      | exact absurd h h3
      | exact absurd h h4
      | exact absurd h h5
      | simp only [eq_true h, if_true, ite_self]
  · simp only [apply_ite MainState.options, apply_ite sslCheckOptions.imaps, h1, h2, h3, h4,
      h5, if_false]
    rcases hopt with h | h | h | h | h | h | h | h | h | h | h | h | h | h | h | h | h | h |
      h | h | h | h | h | h | h | h | h | h
    all_goals first
      | exact absurd h h1
      | exact absurd h h2
      | exact absurd h h3
      | exact absurd h h4
      | exact absurd h h5
      | simp only [eq_true h, if_true, ite_self]

/-- An argument that is no application-protocol option leaves the port and the
protocol flags as they are, unless it is a target that names a port. -/
theorem parseArg_no_protocol (s : MainState) (i : Nat) (arg : String)
    (hp : protocolOption arg = none) (hq : ¬isOptionArg arg → qualified arg = false) :
    (parseArg s i arg).options.port = s.options.port ∧
    ∀ q, flagOf q (parseArg s i arg).options = flagOf q s.options := by
  have h : (parseArg s i arg).options.port = s.options.port ∧
      (parseArg s i arg).options.esmtps = s.options.esmtps ∧
      (parseArg s i arg).options.ftps = s.options.ftps ∧
      (parseArg s i arg).options.pop3s = s.options.pop3s ∧
      (parseArg s i arg).options.imaps = s.options.imaps := by
    by_cases hopt : isOptionArg arg
    · exact parseArg_plain_option s i arg hp hopt
    · exact parseArg_other s i arg hp (hq hopt)
  obtain ⟨k1, k2, k3, k4, k5⟩ := h
  refine ⟨k1, ?_⟩
  intro q
  cases q
  · exact k2
  · exact k3
  · exact k4
  · exact k5
  · rfl

/-- An application-protocol option sets the port to the default port of its
protocol and sets the flag of its protocol, leaving the other flags. -/
theorem parseArg_protocol_option (s : MainState) (i : Nat) (arg : String) (p : Protocol)
    (hp : protocolOption arg = some p) :
    (parseArg s i arg).options.port = defaultPort p ∧
    ∀ q, flagOf q (parseArg s i arg).options = (flagOf q s.options || decide (q = p)) := by
  have hcases : ((arg = "--esmtps" ∨ arg = "--starttls") ∧ p = Protocol.smtp) ∨
      ((arg = "--ftps" ∨ arg = "--ftps-dcs") ∧ p = Protocol.ftp) ∨
      (arg = "--pop3s" ∧ p = Protocol.pop3) ∨ (arg = "--imaps" ∧ p = Protocol.imap) := by
    unfold protocolOption at hp
    split_ifs at hp with c1 c2 c3 c4
    · exact Or.inl ⟨c1, (Option.some.inj hp).symm⟩
    · exact Or.inr (Or.inl ⟨c2, (Option.some.inj hp).symm⟩)
    · exact Or.inr (Or.inr (Or.inl ⟨c3, (Option.some.inj hp).symm⟩))
    · exact Or.inr (Or.inr (Or.inr ⟨c4, (Option.some.inj hp).symm⟩))
  obtain ⟨e1, e2⟩ := parseArg_esmtps s i
  obtain ⟨f1, f2, f3, f4⟩ := parseArg_protocols s i
  have hres : parseArg s i arg =
        { s with options := { s.options with esmtps := true, port := 25 } } ∧
        p = Protocol.smtp ∨
      parseArg s i arg =
        { s with options := { s.options with ftps := true, port := 21 } } ∧
        p = Protocol.ftp ∨
      parseArg s i arg =
        { s with options := { s.options with ftps := true, ftps_dcs := true, port := 21 } } ∧
        p = Protocol.ftp ∨
      parseArg s i arg =
        { s with options := { s.options with pop3s := true, port := 110 } } ∧
        p = Protocol.pop3 ∨
      parseArg s i arg =
        { s with options := { s.options with imaps := true, port := 143 } } ∧
        p = Protocol.imap := by
    rcases hcases with ⟨ha | ha, hpp⟩ | ⟨ha | ha, hpp⟩ | ⟨ha, hpp⟩ | ⟨ha, hpp⟩
    · exact Or.inl ⟨ha ▸ e1, hpp⟩
    · exact Or.inl ⟨ha ▸ e2, hpp⟩
    · exact Or.inr (Or.inl ⟨ha ▸ f1, hpp⟩)
    · exact Or.inr (Or.inr (Or.inl ⟨ha ▸ f2, hpp⟩))
    · exact Or.inr (Or.inr (Or.inr (Or.inl ⟨ha ▸ f3, hpp⟩)))
    · exact Or.inr (Or.inr (Or.inr (Or.inr ⟨ha ▸ f4, hpp⟩)))
  rcases hres with ⟨hr, rfl⟩ | ⟨hr, rfl⟩ | ⟨hr, rfl⟩ | ⟨hr, rfl⟩ | ⟨hr, rfl⟩ <;>
    (rw [hr]; refine ⟨rfl, fun q => ?_⟩; cases q <;> simp [flagOf])

/-- The last element of a list with one more element in front. -/
theorem getLast?_cons_getD (p : Protocol) (ps : List Protocol) (f : Protocol → Int) (d : Int) :
    ((p :: ps).getLast?.map f).getD d = (ps.getLast?.map f).getD (f p) := by
  cases ps with
  | nil => rfl
  | cons q qs => rw [List.getLast?_cons_cons]; simp [List.getLast?_eq_getLast]

/-- The parameter loop, for every command line in which no target names a port:
the port it leaves is the default port of the last application-protocol option,
or the port it started with, and the protocol flags it leaves are those it
started with and those of the application-protocol options given. -/
theorem parseArgsFrom_protocols (args : List String) :
    ∀ (i : Nat) (s : MainState),
      (∀ a ∈ args, ¬isOptionArg a → qualified a = false) →
      (parseArgsFrom i args s).options.port =
        ((protocolOptions args).getLast?.map defaultPort).getD s.options.port ∧
      ∀ q, flagOf q (parseArgsFrom i args s).options =
        (flagOf q s.options || decide (q ∈ protocolOptions args)) := by
  induction args with
  | nil =>
    intro i s _
    refine ⟨rfl, fun q => ?_⟩
    simp [parseArgsFrom, protocolOptions]
  | cons a rest ih =>
    intro i s hq
    obtain ⟨r1, r2⟩ := ih (i + 1) (parseArg s i a)
      (fun x hx => hq x (List.mem_cons_of_mem _ hx))
    unfold parseArgsFrom
    cases hp : protocolOption a with
    | none =>
      obtain ⟨k1, k2⟩ := parseArg_no_protocol s i a hp (hq a (List.mem_cons_self _ _))
      have hfm : protocolOptions (a :: rest) = protocolOptions rest := by
        simp [protocolOptions, List.filterMap_cons, hp]
      rw [hfm, r1, k1]
      refine ⟨rfl, fun q => ?_⟩
      rw [r2 q, k2 q]
    | some p =>
      obtain ⟨k1, k2⟩ := parseArg_protocol_option s i a p hp
      have hfm : protocolOptions (a :: rest) = p :: protocolOptions rest := by
        simp [protocolOptions, List.filterMap_cons, hp]
      rw [hfm, r1, k1, getLast?_cons_getD]
      refine ⟨rfl, fun q => ?_⟩
      rw [r2 q, k2 q]
      by_cases h1 : q = p <;> by_cases h2 : q ∈ protocolOptions rest <;>
        simp [h1, h2]

/-- The protocol whose preamble `tcpConnect` performs, read off the flags. -/
theorem selectedProtocol_flags (o : sslCheckOptions) :
    selectedProtocol o =
      if flagOf Protocol.smtp o = true then Protocol.smtp
      else if flagOf Protocol.ftp o = true then Protocol.ftp
      else if flagOf Protocol.pop3 o = true then Protocol.pop3
      else if flagOf Protocol.imap o = true then Protocol.imap
      else Protocol.raw := rfl

/-- When all the protocols given are one protocol, the last and the first of
them are the same. -/
theorem firstProtocol_single (ps : List Protocol) (p : Protocol) (h : ∀ q ∈ ps, q = p) :
    ps.getLast?.getD Protocol.raw = firstProtocol ps := by
  cases ps with
  | nil => rfl
  | cons x xs =>
    have hx : x = p := h x (List.mem_cons_self _ _)
    have hlast : (x :: xs).getLast?.getD Protocol.raw = p := by
      rw [List.getLast?_eq_getLast _ (List.cons_ne_nil _ _)]
      exact h _ (List.getLast_mem _)
    have hmem : ∀ q, q ∈ x :: xs ↔ q = p := by
      intro q
      constructor
      · exact h q
      · intro hq
        rw [hq, ← hx]
        exact List.mem_cons_self _ _
    rw [hlast]
    unfold firstProtocol
    simp only [hmem]
    cases p <;> simp

/-- C27 (amended). For every command line in which no target (an argument that
is not an option) names a port: the port `main` leaves is the default port of
the application-protocol option that comes last on the command line, 443 when
none is given; the preamble `tcpConnect` performs is that of the first
protocol, in the order SMTP, FTP, POP3, IMAP, for which an option is given, none
when none is given, and the commands sent are the first commands of that
preamble whatever the peer answers; so when all the application-protocol
options given belong to one protocol, the port is the default port of the
protocol whose preamble is performed. -/
theorem main_port_matches_preamble (args : List String)
    (hq : ∀ a ∈ args, ¬isOptionArg a → qualified a = false) :
    (parseArgs args).options.port = defaultPort (lastProtocol args) ∧
    selectedProtocol (parseArgs args).options = firstProtocol (protocolOptions args) ∧
    (∀ p, (∀ q ∈ protocolOptions args, q = p) →
      (parseArgs args).options.port =
        defaultPort (selectedProtocol (parseArgs args).options)) ∧
    (∀ e : ConnEnv,
      (sends (tcpConnect (parseArgs args).options e).2).map Prod.fst <+:
        protocolCommands (selectedProtocol (parseArgs args).options)) := by
  obtain ⟨r1, r2⟩ := parseArgsFrom_protocols args 1 initState hq
  obtain ⟨s1, s2⟩ := sniDefault_protocol (parseArgsFrom 1 args initState).options
  have hport : (parseArgs args).options.port = defaultPort (lastProtocol args) := by
    have h0 : (parseArgs args).options.port =
        (parseArgsFrom 1 args initState).options.port := s1
    rw [h0, r1]
    unfold lastProtocol
    cases (protocolOptions args).getLast? <;> rfl
  have hsel : selectedProtocol (parseArgs args).options =
      firstProtocol (protocolOptions args) := by
    have h0 : selectedProtocol (parseArgs args).options =
        selectedProtocol (parseArgsFrom 1 args initState).options := s2
    rw [h0, selectedProtocol_flags, r2, r2, r2, r2]
    unfold firstProtocol
    simp [flagOf, initState, initOptions]
  refine ⟨hport, hsel, ?_, fun e => tcpConnect_commands _ e⟩
  intro p hall
  rw [hport, hsel]
  unfold lastProtocol
  rw [firstProtocol_single _ p hall]

/-- Witness for C27: `sslscan --esmtps --pkpass=a:b host` scans port 25 and
performs the SMTP preamble. -/
theorem main_port_matches_preamble_witness :
    (parseArgs ["--esmtps", "--pkpass=a:b", "host"]).options.port = 25 ∧
    selectedProtocol (parseArgs ["--esmtps", "--pkpass=a:b", "host"]).options =
      Protocol.smtp :=
  have h := main_port_matches_preamble ["--esmtps", "--pkpass=a:b", "host"] (by decide)
  ⟨h.1.trans (by decide), h.2.1.trans (by decide)⟩

end SSLScan
